import Mathlib

/-!
# MacFUSE VFS operations (`fusefs/fuse_vfsops.c`)

A shallow embedding of `fuse_vfs_mount`, `fuse_vfs_root`, `fuse_vfs_unmount`,
`handle_capabilities_and_attributes`, `fuse_vfs_getattr`, `fuse_sync_callback`,
`fuse_vfs_sync`, `fuse_vfs_setattr` and `fuse_setextendedsecurity`.
Kernel state that the C code reaches through pointers is made explicit:

* `World` holds the device table, the mount descriptor, the global
  active-mount counter and a chronological trace of the external calls
  the code makes (device lookup, lock, unlock, handshake, ...);
* `Env` holds the answers of the collaborators whose code is elsewhere
  (copyin, credential queries, the handshake, the node layer);
* a panic or a dereference of a null pointer ends in `Outcome.panicked`.

Flag words are natural numbers combined with the bitwise operators, as in C.
-/

namespace MacFUSE

/-! ## Error numbers (`sys/errno.h`) -/

def EPERM : Nat := 1
def ENXIO : Nat := 6
def EACCES : Nat := 13
def EBUSY : Nat := 16
def EINVAL : Nat := 22
def EROFS : Nat := 30
def EALREADY : Nat := 37
def ENOTSUP : Nat := 45
def ENOTCONN : Nat := 57

/-! ## Kernel mount flags (`sys/mount.h`) -/

def MNT_RDONLY : Nat := 0x00000001
def MNT_SYNCHRONOUS : Nat := 0x00000002
def MNT_NOEXEC : Nat := 0x00000004
def MNT_ASYNC : Nat := 0x00000040
def MNT_UPDATE : Nat := 0x00010000
def MNT_FORCE : Nat := 0x00080000
def MNT_DONTBROWSE : Nat := 0x00100000

/-- The `vflush` flag that closes busy nodes too (`sys/mount.h`). -/
def FORCECLOSE : Nat := 0x0002

/-! ## Mount option bits (`fuse_mount.h`) and session flags (`fuse_ipc.h`)

Neither header is part of the sources at hand.  The code only ever combines
these constants with `|` and tests them with `&`, so each one is modelled as
a flag of its own: a distinct power of two. -/

/-- Modelled from the spec: `FUSE_MOPT_*` are declared in `fuse_mount.h`, which
is missing; the spec calls the mount options a flag set, so every option is
a single bit of the 64-bit `altflags` word. -/
def FUSE_MOPT_ALLOW_OTHER : Nat := 2 ^ 0
def FUSE_MOPT_ALLOW_ROOT : Nat := 2 ^ 1
def FUSE_MOPT_AUTO_XATTR : Nat := 2 ^ 2
def FUSE_MOPT_DEFAULT_PERMISSIONS : Nat := 2 ^ 3
def FUSE_MOPT_DEFER_PERMISSIONS : Nat := 2 ^ 4
def FUSE_MOPT_DIRECT_IO : Nat := 2 ^ 5
def FUSE_MOPT_EXTENDED_SECURITY : Nat := 2 ^ 6
def FUSE_MOPT_FSID : Nat := 2 ^ 7
def FUSE_MOPT_JAIL_SYMLINKS : Nat := 2 ^ 8
def FUSE_MOPT_KILL_ON_UNMOUNT : Nat := 2 ^ 9
def FUSE_MOPT_NO_ALERTS : Nat := 2 ^ 10
def FUSE_MOPT_NO_APPLEDOUBLE : Nat := 2 ^ 11
def FUSE_MOPT_NO_APPLEXATTR : Nat := 2 ^ 12
def FUSE_MOPT_NO_ATTRCACHE : Nat := 2 ^ 13
def FUSE_MOPT_NO_BROWSE : Nat := 2 ^ 14
def FUSE_MOPT_NO_LOCALCACHES : Nat := 2 ^ 15
def FUSE_MOPT_NO_READAHEAD : Nat := 2 ^ 16
def FUSE_MOPT_NO_SYNCONCLOSE : Nat := 2 ^ 17
def FUSE_MOPT_NO_SYNCWRITES : Nat := 2 ^ 18
def FUSE_MOPT_NO_UBC : Nat := 2 ^ 19
def FUSE_MOPT_NO_VNCACHE : Nat := 2 ^ 20

/-- Modelled from the spec: `FSESS_*` are declared in `fuse_ipc.h`, which is
missing; the spec calls the session options a bitset, so every flag is a
single bit of the `dataflags` word. -/
def FSESS_OPENED : Nat := 2 ^ 0
def FSESS_INITED : Nat := 2 ^ 1
def FSESS_ALLOW_OTHER : Nat := 2 ^ 2
def FSESS_ALLOW_ROOT : Nat := 2 ^ 3
def FSESS_AUTO_XATTR : Nat := 2 ^ 4
def FSESS_DEFAULT_PERMISSIONS : Nat := 2 ^ 5
def FSESS_DEFER_PERMISSIONS : Nat := 2 ^ 6
def FSESS_EXTENDED_SECURITY : Nat := 2 ^ 7
def FSESS_JAIL_SYMLINKS : Nat := 2 ^ 8
def FSESS_KILL_ON_UNMOUNT : Nat := 2 ^ 9
def FSESS_NO_ALERTS : Nat := 2 ^ 10
def FSESS_NO_APPLEDOUBLE : Nat := 2 ^ 11
def FSESS_NO_APPLEXATTR : Nat := 2 ^ 12
def FSESS_NO_ATTRCACHE : Nat := 2 ^ 13
def FSESS_NO_READAHEAD : Nat := 2 ^ 14
def FSESS_NO_SYNCONCLOSE : Nat := 2 ^ 15
def FSESS_NO_SYNCWRITES : Nat := 2 ^ 16
def FSESS_NO_UBC : Nat := 2 ^ 17
def FSESS_NO_VNCACHE : Nat := 2 ^ 18
def FSESS_VOL_RENAME : Nat := 2 ^ 19

/-- Size of a path buffer (`sys/param.h`). -/
def MAXPATHLEN : Nat := 1024

/-- Size of the mounted-from name buffer (`sys/mount.h`). -/
def MNAMELEN : Nat := MAXPATHLEN

/-! ## Data model -/

/-- Mount state of a session (`fuse_ipc.h`, used at lines 343, 354, 429, 543). -/
inductive fuse_mount_state where
  | FM_NOTMOUNTED
  | FM_MOUNTED
  deriving DecidableEq, Repr

open fuse_mount_state

/-- The per-mount session, `struct fuse_data`, with the fields that
`fuse_vfsops.c` reads or writes.  Pointers are options: `daemoncred` is
the `cr_uid` of the daemon credential, `mp` the identity of the bound mount
descriptor, `fdev` the device id of the owning channel, `rootvp` the root node.
-/
structure fuse_data where
  mount_state : fuse_mount_state
  dataflags : Nat
  dead : Bool
  daemoncred : Option Nat
  daemonpid : Nat
  mp : Option Nat
  fdev : Option Nat
  daemon_timeout : Nat
  daemon_timeout_p : Bool
  init_timeout : Nat
  max_read : Nat
  fssubtype : Nat
  mountaltflags : Nat
  noimplflags : Nat
  blocksize : Nat
  iosize : Nat
  volname : List Nat
  rootvp : Option Nat
  deriving DecidableEq, Repr

/-- Modelled from the spec: the device channel (`fuse_device.h` is missing) is
"a lockable communication endpoint" that "exposes a random mount-handshake
token, and an associated session object". -/
structure fuse_device where
  random : Nat
  data : Option fuse_data
  locked : Bool
  deriving DecidableEq, Repr

/-- The mount descriptor `mount_t` as far as the code touches it. -/
structure mount where
  mp_id : Nat
  mnt_flag : Nat
  authopaque : Bool
  authopaqueaccess : Bool
  extendedsecurity : Bool
  fsprivate : Option Nat
  f_fsid : Nat × Nat
  f_mntfromname : List Nat
  f_owner : Nat
  deriving DecidableEq, Repr

/-- The user-supplied option block `fuse_mount_args` (`fuse_mount.h`). -/
structure fuse_mount_args where
  altflags : Nat
  blocksize : Nat
  daemon_timeout : Nat
  fsid : Nat
  fssubtype : Nat
  init_timeout : Nat
  iosize : Nat
  random : Nat
  rdev : Nat
  fsname : List Nat
  volname : List Nat
  deriving DecidableEq, Repr

/-- The caller: `vfs_context_ucred(context)->cr_uid` and the answer of
`fuse_vfs_context_issuser(context)`, whose definition is in a missing header. -/
structure vfs_context where
  cr_uid : Nat
  issuser : Bool
  deriving DecidableEq, Repr

/-- External calls, in the order the code makes them. -/
inductive Event where
  | iolog
  | device_get (rdev : Nat)
  | device_lock (fdev : Nat)
  | device_unlock (fdev : Nat)
  | device_close_final (fdev : Nat)
  | send_init
  | vfs_root
  | node_create
  | vnode_get (vp : Option Nat)
  | vnode_ref (vp : Option Nat)
  | vnode_put (vp : Option Nat)
  | vnode_rele (vp : Option Nat)
  | vflush (skipvp : Option Nat) (flags : Nat)
  | set_dead
  | destroy_submit
  | ticket_drop
  | proc_signal (pid : Nat)
  | statfs_request
  | cluster_push (vp : Nat)
  | fsync_request (vp : Nat) (type : Nat)
  | vnode_iterate
  deriving DecidableEq, Repr

/-- The statistics record of a statfs reply, `struct fuse_kstatfs`
(`fuse_kernel.h`; its fields are listed in the comment at lines 856-863). -/
structure fuse_kstatfs where
  blocks : Nat
  bfree : Nat
  bavail : Nat
  files : Nat
  ffree : Nat
  bsize : Nat
  namelen : Nat
  frsize : Nat
  deriving DecidableEq, Repr

/-- The four words of one plane of `vol_capabilities_attr_t` (`sys/attr.h`),
indexed by `VOL_CAPABILITIES_FORMAT`, `_INTERFACES`, `_RESERVED1`, `_RESERVED2`. -/
structure vol_capabilities_set where
  format : Nat
  interfaces : Nat
  reserved1 : Nat
  reserved2 : Nat
  deriving DecidableEq, Repr

/-- `vol_capabilities_attr_t`: what is on, and what the answer is valid for. -/
structure vol_capabilities_attr where
  capabilities : vol_capabilities_set
  valid : vol_capabilities_set
  deriving DecidableEq, Repr

/-- `attribute_set_t` (`sys/attr.h`). -/
structure attribute_set where
  commonattr : Nat
  volattr : Nat
  dirattr : Nat
  fileattr : Nat
  forkattr : Nat
  deriving DecidableEq, Repr

/-- `vol_attributes_attr_t` (`sys/attr.h`). -/
structure vol_attributes_attr where
  validattr : attribute_set
  nativeattr : attribute_set
  deriving DecidableEq, Repr

/-- The volume-attribute record `struct vfs_attr` (`sys/mount.h`) with the
fields `fuse_vfsops.c` touches: the masks of supported and of requested
fields, and the fields themselves.  A `timespec` is a pair, `f_vol_name` is
the content of the caller's name buffer. -/
structure vfs_attr where
  f_supported : Nat
  f_active : Nat
  f_filecount : Nat
  f_bsize : Nat
  f_iosize : Nat
  f_blocks : Nat
  f_bfree : Nat
  f_bavail : Nat
  f_bused : Nat
  f_files : Nat
  f_ffree : Nat
  f_capabilities : vol_capabilities_attr
  f_attributes : vol_attributes_attr
  f_create_time : Nat × Nat
  f_modify_time : Nat × Nat
  f_access_time : Nat × Nat
  f_backup_time : Nat × Nat
  f_fssubtype : Nat
  f_vol_name : List Nat
  f_signature : Nat
  f_carbon_fsid : Nat
  deriving DecidableEq, Repr

/-- A node as the sync walk sees it: `vnode_hasdirtyblks`, `vnode_isdir`, and
the flags of its file handles `fvdat->fufh[type]`, one per handle type. -/
structure fuse_vnode where
  vp : Nat
  hasdirtyblks : Bool
  isdir : Bool
  fufh_flags : List Nat
  deriving DecidableEq, Repr

/-- Kernel state seen by the VFS operations. -/
structure World where
  fuse_mount_count : Int
  fuse_admin_group : Nat
  fuse_allow_other : Nat
  devices : Nat → Option fuse_device
  mp : mount
  trace : List Event

/-- Compile-time parameters declared in `fuse_param.h` and `fuse_internal.h`,
both missing: the timeout and size bounds, the size-bounding function, the
constants and the device-number macro of the custom file-system id, and the
volume signature with the host's byte-order macro. -/
structure fuse_param where
  FUSE_MIN_DAEMON_TIMEOUT : Nat
  FUSE_MAX_DAEMON_TIMEOUT : Nat
  FUSE_MIN_INIT_TIMEOUT : Nat
  FUSE_MAX_INIT_TIMEOUT : Nat
  FUSE_MIN_BLOCKSIZE : Nat
  FUSE_MAX_BLOCKSIZE : Nat
  FUSE_MIN_IOSIZE : Nat
  FUSE_MAX_IOSIZE : Nat
  fuse_round_size : Nat → Nat → Nat → Nat
  FUSE_MAKEDEV : Nat → Nat → Nat
  FUSE_CUSTOM_FSID_DEVICE_MAJOR : Nat
  FUSE_CUSTOM_FSID_VAL1 : Nat
  FUSEFS_SIGNATURE : Nat
  OSSwapBigToHostInt16 : Nat → Nat

/-- Answers of the collaborators.  The two blocking exchanges with the daemon
during mount and unmount also say what has become of the session while the
caller was waiting; the statfs exchange gives its error and the reply. -/
structure Env where
  copyin_err : Nat
  kauth_cred_ismember_gid : Nat → Nat × Nat
  vfs_getvfs : Nat × Nat → Bool
  vfs_getnewfsid : Nat × Nat
  fuse_internal_send_init : fuse_data → Nat × Option fuse_data
  vnode_get_err : Nat
  node_create : Nat × Option Nat
  vnode_ref_err : Nat
  vflush : Option Nat → Nat → Nat
  vnode_isinuse : Option Nat → Bool
  fdisp_wait_answ : fuse_data → Nat × fuse_data
  fdisp_simple_vfs_getattr : Nat × fuse_kstatfs

/-- How a VFS operation ends: it returns an error number, or the kernel
panics (an explicit `panic`, or a null pointer is dereferenced). -/
inductive Outcome where
  | returned (err : Nat) (w : World)
  | panicked (w : World)

/-- Error number of an outcome, if the call returned. -/
def Outcome.err? : Outcome → Option Nat
  | .returned e _ => some e
  | .panicked _ => none

/-- Final kernel state of an outcome. -/
def Outcome.world : Outcome → World
  | .returned _ w => w
  | .panicked w => w

/-! ## Primitive operations -/

/-- `OSAddAtomic(amount, (SInt32 *)&fuse_mount_count)`: 32-bit signed addition. -/
def OSAddAtomic (amount : Int) (count : Int) : Int :=
  (count + amount + 2 ^ 31) % 2 ^ 32 - 2 ^ 31

/-- `x & ~f` on flag words. -/
def clearbits (x f : Nat) : Nat := x ^^^ (x &&& f)

def World.log (w : World) (e : Event) : World :=
  { w with trace := w.trace ++ [e] }

def vfs_isupdate (w : World) : Bool := w.mp.mnt_flag &&& MNT_UPDATE != 0

def vfs_setflags (w : World) (f : Nat) : World :=
  { w with mp := { w.mp with mnt_flag := w.mp.mnt_flag ||| f } }

def vfs_clearflags (w : World) (f : Nat) : World :=
  { w with mp := { w.mp with mnt_flag := clearbits w.mp.mnt_flag f } }

def vfs_setauthopaque (w : World) : World :=
  { w with mp := { w.mp with authopaque := true } }

def vfs_clearauthopaque (w : World) : World :=
  { w with mp := { w.mp with authopaque := false } }

def vfs_setauthopaqueaccess (w : World) : World :=
  { w with mp := { w.mp with authopaqueaccess := true } }

def vfs_setextendedsecurity (w : World) : World :=
  { w with mp := { w.mp with extendedsecurity := true } }

def vfs_clearauthopaqueaccess (w : World) : World :=
  { w with mp := { w.mp with authopaqueaccess := false } }

def vfs_clearextendedsecurity (w : World) : World :=
  { w with mp := { w.mp with extendedsecurity := false } }

def vfs_authopaque (w : World) : Bool := w.mp.authopaque

def vfs_authopaqueaccess (w : World) : Bool := w.mp.authopaqueaccess

def vfs_isrdonly (w : World) : Bool := w.mp.mnt_flag &&& MNT_RDONLY != 0

def vfs_setfsprivate (w : World) (p : Option Nat) : World :=
  { w with mp := { w.mp with fsprivate := p } }

def vfs_setfsid (w : World) (fsid : Nat × Nat) : World :=
  { w with mp := { w.mp with f_fsid := fsid } }

/-- `OSAddAtomic(amount, (SInt32 *)&fuse_mount_count)` on the kernel state. -/
def fuse_mount_count_add (amount : Int) (w : World) : World :=
  { w with fuse_mount_count := OSAddAtomic amount w.fuse_mount_count }

/-- The write of `vfs_statfs(mp)->f_mntfromname` (lines 405-407). -/
def set_mntfromname (w : World) (name : List Nat) : World :=
  { w with mp := { w.mp with f_mntfromname := name } }

/-- Kernel `copystr(from, to, maxlen, &len)`: copies up to and including the
first NUL, at most `maxlen` bytes; gives the bytes copied (their count is
`len`). -/
def copystr : List Nat → Nat → List Nat
  | _, 0 => []
  | [], _ + 1 => []
  | c :: cs, n + 1 => if c = 0 then [0] else c :: copystr cs n

/-- The destination buffer after `copystr(src, dst, size - 1, &len)` and
`bzero(dst + len, size - len)`. -/
def copy_name (src : List Nat) (size : Nat) : List Nat :=
  let copied := copystr src (size - 1)
  copied ++ List.replicate (size - copied.length) 0

/-! ## `fuse_vfs_mount`: option processing (lines 158-318) -/

/-- Where a block of option processing leaves control: `return err`,
`goto out` with `err` set, or fall through with the decoded `mntopts` and
the (possibly rewritten) `fusefs_args.altflags`. -/
inductive OptStep where
  | ret (err : Nat) (w : World)
  | out (err : Nat) (w : World)
  | next (mntopts : Nat) (altflags : Nat) (w : World)

/-- Sequencing of option-processing blocks. -/
def OptStep.andThen (s : OptStep) (f : Nat → Nat → World → OptStep) : OptStep :=
  match s with
  | .ret e w => .ret e w
  | .out e w => .out e w
  | .next m a w => f m a w

/-- Lines 158-182: timeout bounds, then the first option bits. -/
def opt_timeouts (P : fuse_param) (args : fuse_mount_args) (w : World) : OptStep :=
  if args.daemon_timeout > P.FUSE_MAX_DAEMON_TIMEOUT ∨
      args.daemon_timeout < P.FUSE_MIN_DAEMON_TIMEOUT then .ret EINVAL w
  else if args.init_timeout > P.FUSE_MAX_INIT_TIMEOUT ∨
      args.init_timeout < P.FUSE_MIN_INIT_TIMEOUT then .ret EINVAL w
  else
    let mntopts := 0
    let mntopts :=
      if args.altflags &&& FUSE_MOPT_NO_ALERTS ≠ 0 then mntopts ||| FSESS_NO_ALERTS else mntopts
    let mntopts :=
      if args.altflags &&& FUSE_MOPT_AUTO_XATTR ≠ 0 then mntopts ||| FSESS_AUTO_XATTR else mntopts
    let w := if args.altflags &&& FUSE_MOPT_NO_BROWSE ≠ 0 then vfs_setflags w MNT_DONTBROWSE else w
    let mntopts :=
      if args.altflags &&& FUSE_MOPT_JAIL_SYMLINKS ≠ 0 then mntopts ||| FSESS_JAIL_SYMLINKS
      else mntopts
    .next mntopts args.altflags w

/-- Lines 189-204: `allow_root` needs membership of the admin group,
`allow_other` the global policy flag or a superuser. -/
def opt_allow (env : Env) (context : vfs_context) (mntopts altflags : Nat) (w : World) :
    OptStep :=
  if altflags &&& FUSE_MOPT_ALLOW_ROOT ≠ 0 then
    let r := env.kauth_cred_ismember_gid w.fuse_admin_group
    if r.1 = 0 ∧ r.2 ≠ 0 then .next (mntopts ||| FSESS_ALLOW_ROOT) altflags w
    else .ret EPERM (w.log .iolog)
  else if altflags &&& FUSE_MOPT_ALLOW_OTHER ≠ 0 then
    if w.fuse_allow_other = 0 ∧ ¬ context.issuser then .ret EPERM w
    else .next (mntopts ||| FSESS_ALLOW_OTHER) altflags w
  else .next mntopts altflags w

/-- Lines 206-212. -/
def opt_apple (mntopts altflags : Nat) (w : World) : OptStep :=
  let mntopts :=
    if altflags &&& FUSE_MOPT_NO_APPLEDOUBLE ≠ 0 then mntopts ||| FSESS_NO_APPLEDOUBLE
    else mntopts
  let mntopts :=
    if altflags &&& FUSE_MOPT_NO_APPLEXATTR ≠ 0 then mntopts ||| FSESS_NO_APPLEXATTR
    else mntopts
  .next mntopts altflags w

/-- Lines 214-236: a custom file-system id that is in use sends control to
`out` with `EPERM`; otherwise the id is stored, or a fresh one allocated. -/
def opt_fsid (P : fuse_param) (env : Env) (args : fuse_mount_args)
    (mntopts altflags : Nat) (w : World) : OptStep :=
  if altflags &&& FUSE_MOPT_FSID ≠ 0 ∧ args.fsid ≠ 0 then
    let target_dev := P.FUSE_MAKEDEV P.FUSE_CUSTOM_FSID_DEVICE_MAJOR args.fsid
    let fsid := (target_dev, P.FUSE_CUSTOM_FSID_VAL1)
    if env.vfs_getvfs fsid then .out EPERM w
    else .next mntopts altflags (vfs_setfsid w fsid)
  else .next mntopts altflags (vfs_setfsid w env.vfs_getnewfsid)

/-- Lines 238-261: cache options; `novncache` with `extended_security` is
refused. -/
def opt_caches (mntopts altflags : Nat) (w : World) : OptStep :=
  let mntopts :=
    if altflags &&& FUSE_MOPT_KILL_ON_UNMOUNT ≠ 0 then mntopts ||| FSESS_KILL_ON_UNMOUNT
    else mntopts
  let mntopts :=
    if altflags &&& FUSE_MOPT_NO_ATTRCACHE ≠ 0 then mntopts ||| FSESS_NO_ATTRCACHE else mntopts
  let mntopts :=
    if altflags &&& FUSE_MOPT_NO_READAHEAD ≠ 0 then mntopts ||| FSESS_NO_READAHEAD else mntopts
  let mntopts :=
    if altflags &&& (FUSE_MOPT_NO_UBC ||| FUSE_MOPT_DIRECT_IO) ≠ 0 then mntopts ||| FSESS_NO_UBC
    else mntopts
  if altflags &&& FUSE_MOPT_NO_VNCACHE ≠ 0 then
    if altflags &&& FUSE_MOPT_EXTENDED_SECURITY ≠ 0 then .ret EINVAL w
    else
      let mntopts := mntopts ||| FSESS_NO_VNCACHE
      let mntopts := mntopts ||| (FSESS_NO_ATTRCACHE ||| FSESS_NO_READAHEAD ||| FSESS_NO_UBC)
      .next mntopts altflags w
  else .next mntopts altflags w

/-- Lines 263-294: `nolocalcaches` rewrites `altflags`; no buffer cache means
no exec; `nosyncwrites` is refused next to `noubc` or `noreadahead`. -/
def opt_sync (mntopts altflags : Nat) (w : World) : OptStep :=
  let altflags :=
    if altflags &&& FUSE_MOPT_NO_LOCALCACHES ≠ 0 then
      ((altflags ||| FUSE_MOPT_NO_READAHEAD) ||| FUSE_MOPT_NO_UBC) ||| FUSE_MOPT_NO_VNCACHE
    else altflags
  let w := if mntopts &&& FSESS_NO_UBC ≠ 0 then vfs_setflags w MNT_NOEXEC else w
  if altflags &&& FUSE_MOPT_NO_SYNCWRITES ≠ 0 then
    if altflags &&& (FUSE_MOPT_NO_UBC ||| FUSE_MOPT_NO_READAHEAD) ≠ 0 then .ret EINVAL w
    else
      let mntopts := mntopts ||| FSESS_NO_SYNCWRITES
      let w := vfs_clearflags w MNT_SYNCHRONOUS
      let w := vfs_setflags w MNT_ASYNC
      let mntopts :=
        if altflags &&& FUSE_MOPT_NO_SYNCONCLOSE ≠ 0 then mntopts ||| FSESS_NO_SYNCONCLOSE
        else mntopts
      .next mntopts altflags w
  else
    let w := vfs_clearflags w MNT_ASYNC
    let w := vfs_setflags w MNT_SYNCHRONOUS
    .next mntopts altflags w

/-- Lines 296-318: permission options; `default_permissions` with
`defer_permissions` is refused. -/
def opt_perms (mntopts altflags : Nat) (w : World) : OptStep :=
  let w := vfs_setauthopaque w
  let w := vfs_setauthopaqueaccess w
  if altflags &&& FUSE_MOPT_DEFAULT_PERMISSIONS ≠ 0 ∧
      altflags &&& FUSE_MOPT_DEFER_PERMISSIONS ≠ 0 then .ret EINVAL w
  else
    let mntopts :=
      if altflags &&& FUSE_MOPT_DEFAULT_PERMISSIONS ≠ 0 then mntopts ||| FSESS_DEFAULT_PERMISSIONS
      else mntopts
    let w := if altflags &&& FUSE_MOPT_DEFAULT_PERMISSIONS ≠ 0 then vfs_clearauthopaque w else w
    let mntopts :=
      if altflags &&& FUSE_MOPT_DEFER_PERMISSIONS ≠ 0 then mntopts ||| FSESS_DEFER_PERMISSIONS
      else mntopts
    let mntopts :=
      if altflags &&& FUSE_MOPT_EXTENDED_SECURITY ≠ 0 then mntopts ||| FSESS_EXTENDED_SECURITY
      else mntopts
    let w := if altflags &&& FUSE_MOPT_EXTENDED_SECURITY ≠ 0 then vfs_setextendedsecurity w else w
    .next mntopts altflags w

/-- Option processing of `fuse_vfs_mount`, lines 158-318, block after block. -/
def mount_options (P : fuse_param) (env : Env) (context : vfs_context)
    (args : fuse_mount_args) (w : World) : OptStep :=
  (opt_timeouts P args w).andThen fun m a w =>
  (opt_allow env context m a w).andThen fun m a w =>
  (opt_apple m a w).andThen fun m a w =>
  (opt_fsid P env args m a w).andThen fun m a w =>
  (opt_caches m a w).andThen fun m a w =>
  (opt_sync m a w).andThen fun m a w =>
  opt_perms m a w

/-! ## Device channel and session primitives -/

/-- Replace the session of device `fdev` (a write through `fdev->data`). -/
def set_mpdata (w : World) (fdev : Nat) (data : Option fuse_data) : World :=
  { w with devices := fun r =>
      if r = fdev then (w.devices r).map fun d => { d with data := data } else w.devices r }

/-- `fuse_device_get_mpdata(fdev)`. -/
def fuse_device_get_mpdata (w : World) (fdev : Nat) : Option fuse_data :=
  (w.devices fdev).bind fun d => d.data

/-- `fuse_device_lock(fdev)`. -/
def fuse_device_lock (fdev : Nat) (w : World) : World :=
  { w with
    devices := fun r =>
      if r = fdev then (w.devices r).map fun d => { d with locked := true } else w.devices r
    trace := w.trace ++ [.device_lock fdev] }

/-- `fuse_device_unlock(fdev)`. -/
def fuse_device_unlock (fdev : Nat) (w : World) : World :=
  { w with
    devices := fun r =>
      if r = fdev then (w.devices r).map fun d => { d with locked := false } else w.devices r
    trace := w.trace ++ [.device_unlock fdev] }

/-- Modelled from the spec: `fuse_device_close_final` lives in `fuse_device.c`,
which is missing; it is to "finalize/close it entirely (the session no longer
exists after this)", and the code's own comment says "data is gone now". -/
def fuse_device_close_final (fdev : Nat) (w : World) : World :=
  (set_mpdata w fdev none).log (.device_close_final fdev)

/-- Modelled from the spec: `fdata_set_dead` lives in `fuse_ipc.c`, which is
missing; it is the idempotent transition that marks the session dead. -/
def fdata_set_dead (data : fuse_data) : fuse_data := { data with dead := true }

/-- Modelled from the spec: `fdata_dead_get` reads the liveness flag. -/
def fdata_dead_get (data : fuse_data) : Bool := data.dead

/-- `fuse_get_mpdata(mp)`: the session the mount's private-data pointer refers
to, together with the device slot that holds it; `none` for a null (or
stale) pointer. -/
def fuse_get_mpdata (w : World) : Option (Nat × fuse_data) :=
  match w.mp.fsprivate with
  | none => none
  | some p =>
    match fuse_device_get_mpdata w p with
    | none => none
    | some data => some (p, data)

/-! ## `fuse_vfs_root` (lines 564-596) -/

/-- Result of `fuse_vfs_root`: error number and `*vpp`, or a fault when the
mount has no session to read. -/
inductive RootResult where
  | done (err : Nat) (vp : Option Nat) (w : World)
  | fault (w : World)

/-- `fuse_vfs_root(mp, vpp, context)`: hand out the cached root node, or have
the node layer create it and cache it on success. -/
def fuse_vfs_root (env : Env) (w : World) : RootResult :=
  let w := w.log .vfs_root
  match fuse_get_mpdata w with
  | none => .fault w
  | some (p, data) =>
    match data.rootvp with
    | some vp => .done env.vnode_get_err (some vp) (w.log (.vnode_get (some vp)))
    | none =>
      let w := w.log .node_create
      let err := env.node_create.1
      let vp := env.node_create.2
      if err = 0 then .done err vp (set_mpdata w p (some { data with rootvp := vp }))
      else .done err vp w

/-! ## `fuse_vfs_mount` (lines 102-450) -/

/-- Lines 420-435, the `if (err)` arm at label `out`: the failure unwind.
`fdev` is the local device pointer, null when control comes from option
processing. -/
def mount_unwind (fdev : Option Nat) (mounted : Bool) (err : Nat) (w : World) : Outcome :=
  let w := vfs_setfsprivate w none
  match fdev with
  | none => .panicked w
  | some r =>
    match w.devices r with
    | none => .panicked w
    | some _ =>
      let w := fuse_device_lock r w
      let data := fuse_device_get_mpdata w r
      let w := if mounted then fuse_mount_count_add (-1) w else w
      let w :=
        match data with
        | none => w
        | some d =>
          let w := set_mpdata w r (some { d with mount_state := FM_NOTMOUNTED })
          if d.dataflags &&& FSESS_OPENED = 0 then fuse_device_close_final r w else w
      .returned err (fuse_device_unlock r w)

/-- Label `out` (lines 419-449): unwind on error, else resolve the root node
and take a reference on it, going back to the unwind when that fails. -/
def mount_out (env : Env) (fdev : Option Nat) (mounted : Bool) (err : Nat) (w : World) :
    Outcome :=
  if err ≠ 0 then mount_unwind fdev mounted err w
  else
    match fuse_vfs_root env w with
    | .fault w => .panicked w
    | .done err rootvp w =>
      if err ≠ 0 then mount_unwind fdev mounted err w
      else
        let err := env.vnode_ref_err
        let w := (w.log (.vnode_ref rootvp)).log (.vnode_put rootvp)
        if err ≠ 0 then mount_unwind fdev mounted err w
        else .returned err w

/-- Lines 375-410: the session fields written once all checks have passed. -/
def mount_populate (P : fuse_param) (args : fuse_mount_args) (mntopts altflags : Nat)
    (fdev mp_id : Nat) (data : fuse_data) : fuse_data :=
  let blocksize := P.fuse_round_size args.blocksize P.FUSE_MIN_BLOCKSIZE P.FUSE_MAX_BLOCKSIZE
  let iosize := P.fuse_round_size args.iosize P.FUSE_MIN_IOSIZE P.FUSE_MAX_IOSIZE
  { data with
    mp := some mp_id
    fdev := some fdev
    dataflags := data.dataflags ||| mntopts
    daemon_timeout := args.daemon_timeout
    daemon_timeout_p := args.daemon_timeout != 0
    init_timeout := args.init_timeout
    max_read := 2 ^ 32 - 1
    fssubtype := args.fssubtype
    mountaltflags := altflags
    noimplflags := 0
    blocksize := blocksize
    iosize := if iosize < blocksize then blocksize else iosize
    volname := copy_name args.volname MAXPATHLEN }

/-- Lines 320-417: device lookup, token and session checks, session
population and the handshake; ends at label `out`. -/
def mount_device (P : fuse_param) (env : Env) (context : vfs_context) (args : fuse_mount_args)
    (mntopts altflags : Nat) (w : World) : Outcome :=
  let w := vfs_setfsprivate w none
  let w := w.log (.device_get args.rdev)
  match w.devices args.rdev with
  | none => .returned EINVAL w
  | some dev =>
    let fdev := args.rdev
    let w := fuse_device_lock fdev w
    let drandom := dev.random
    if args.random ≠ drandom then .returned EINVAL ((fuse_device_unlock fdev w).log .iolog)
    else
      match dev.data with
      | none => .returned ENXIO (fuse_device_unlock fdev w)
      | some data =>
        if data.mount_state ≠ FM_NOTMOUNTED then .returned EALREADY (fuse_device_unlock fdev w)
        else if data.dataflags &&& FSESS_OPENED = 0 then
          mount_out env (some fdev) false ENXIO (fuse_device_unlock fdev w)
        else
          let data := { data with mount_state := FM_MOUNTED }
          let w := set_mpdata w fdev (some data)
          let w := fuse_mount_count_add 1 w
          if fdata_dead_get data then
            mount_out env (some fdev) true ENOTCONN (fuse_device_unlock fdev w)
          else
            match data.daemoncred with
            | none => .panicked w
            | some daemon_uid =>
              if context.issuser ∧ context.cr_uid ≠ daemon_uid then
                mount_out env (some fdev) true EPERM (fuse_device_unlock fdev w)
              else
                let data := mount_populate P args mntopts altflags fdev w.mp.mp_id data
                let w := set_mpdata w fdev (some data)
                let w := set_mntfromname w (copy_name args.fsname MNAMELEN)
                let w := vfs_setfsprivate w (some fdev)
                let w := fuse_device_unlock fdev w
                let r := env.fuse_internal_send_init data
                let w := set_mpdata (w.log .send_init) fdev r.2
                mount_out env (some fdev) true r.1 w

/-- `fuse_vfs_mount(mp, devvp, udata, context)`; `args` is what `copyin`
delivers from `udata`.  The local `err = ENOTSUP` of line 149 is overwritten
before it is read, and `vfs_setlocklocal` (compiled in only under
`M_MACFUSE_ENABLE_LOCKLOCAL`) sets a flag that nothing here reads; both are
left out. -/
def fuse_vfs_mount (P : fuse_param) (env : Env) (context : vfs_context)
    (args : fuse_mount_args) (w : World) : Outcome :=
  if vfs_isupdate w then .returned ENOTSUP w
  else if env.copyin_err ≠ 0 then .returned EINVAL w
  else
    match mount_options P env context args w with
    | .ret err w => .returned err w
    | .out err w => mount_out env none false err w
    | .next mntopts altflags w => mount_device P env context args mntopts altflags w

/-! ## `fuse_vfs_unmount` (lines 452-562) -/

/-- Label `alreadydead` (lines 529-561): local teardown. -/
def unmount_alreadydead (p : Nat) (fdev : Option Nat) (rootvp : Option Nat) (data : fuse_data)
    (w : World) : Outcome :=
  let needsignal := data.dataflags &&& FSESS_KILL_ON_UNMOUNT
  let daemonpid := data.daemonpid
  let w := w.log (.vnode_rele rootvp)
  let data := { data with rootvp := none }
  let w := set_mpdata w p (some data)
  let w := w.log (.vflush none FORCECLOSE)
  match fdev with
  | none => .panicked w
  | some r =>
    match w.devices r with
    | none => .panicked w
    | some _ =>
      let w := fuse_device_lock r w
      let w := vfs_setfsprivate w none
      let data := { data with mount_state := FM_NOTMOUNTED }
      let w := set_mpdata w p (some data)
      let w := fuse_mount_count_add (-1) w
      let w := if data.dataflags &&& FSESS_OPENED = 0 then fuse_device_close_final r w else w
      let w := fuse_device_unlock r w
      let w := if daemonpid ≠ 0 ∧ needsignal ≠ 0 then w.log (.proc_signal daemonpid) else w
      .returned 0 w

/-- `fuse_vfs_unmount(mp, mntflags, context)`.  The wait for the answer to
`DESTROY` also says what has become of the session meanwhile. -/
def fuse_vfs_unmount (env : Env) (mntflags : Nat) (w : World) : Outcome :=
  let flags := 0
  let flags := if mntflags &&& MNT_FORCE ≠ 0 then flags ||| FORCECLOSE else flags
  match fuse_get_mpdata w with
  | none => .panicked w
  | some (p, data) =>
    let fdev := data.fdev
    let s : Nat × fuse_data × World :=
      if fdata_dead_get data then (flags ||| FORCECLOSE, data, w.log .iolog)
      else if data.dataflags &&& FSESS_INITED = 0 then
        (flags ||| FORCECLOSE, fdata_set_dead data,
          (set_mpdata (w.log .iolog) p (some (fdata_set_dead data))).log .set_dead)
      else (flags, data, w)
    let flags := s.1
    let data := s.2.1
    let w := s.2.2
    let rootvp := data.rootvp
    let err := env.vflush rootvp flags
    let w := w.log (.vflush rootvp flags)
    if err ≠ 0 then .returned err w
    else if env.vnode_isinuse rootvp ∧ flags &&& FORCECLOSE = 0 then .returned EBUSY w
    else if fdata_dead_get data then unmount_alreadydead p fdev rootvp data w
    else
      let w := w.log .destroy_submit
      let r := env.fdisp_wait_answ data
      let err := r.1
      let data := r.2
      let w := set_mpdata w p (some data)
      let w := if err = 0 then w.log .ticket_drop else w
      let data := fdata_set_dead data
      let w := (set_mpdata w p (some data)).log .set_dead
      unmount_alreadydead p fdev rootvp data w

/-! ## Volume attributes: constants

The field masks `VFSATTR_*` and the capability and attribute bits
`VOL_CAP_*`, `ATTR_*` are declared in the kernel headers `sys/mount.h` and
`sys/attr.h`, which are not part of the repository; they have the values of
those headers.  Each name is one bit, and the names of one word are distinct
bits. -/

def VFSATTR_f_filecount : Nat := 2 ^ 1
def VFSATTR_f_bsize : Nat := 2 ^ 4
def VFSATTR_f_iosize : Nat := 2 ^ 5
def VFSATTR_f_blocks : Nat := 2 ^ 6
def VFSATTR_f_bfree : Nat := 2 ^ 7
def VFSATTR_f_bavail : Nat := 2 ^ 8
def VFSATTR_f_bused : Nat := 2 ^ 9
def VFSATTR_f_files : Nat := 2 ^ 10
def VFSATTR_f_ffree : Nat := 2 ^ 11
def VFSATTR_f_capabilities : Nat := 2 ^ 14
def VFSATTR_f_attributes : Nat := 2 ^ 15
def VFSATTR_f_create_time : Nat := 2 ^ 16
def VFSATTR_f_modify_time : Nat := 2 ^ 17
def VFSATTR_f_access_time : Nat := 2 ^ 18
def VFSATTR_f_backup_time : Nat := 2 ^ 19
def VFSATTR_f_fssubtype : Nat := 2 ^ 20
def VFSATTR_f_vol_name : Nat := 2 ^ 21
def VFSATTR_f_signature : Nat := 2 ^ 22
def VFSATTR_f_carbon_fsid : Nat := 2 ^ 23

def VOL_CAP_FMT_PERSISTENTOBJECTIDS : Nat := 0x00000001
def VOL_CAP_FMT_SYMBOLICLINKS : Nat := 0x00000002
def VOL_CAP_FMT_HARDLINKS : Nat := 0x00000004
def VOL_CAP_FMT_JOURNAL : Nat := 0x00000008
def VOL_CAP_FMT_JOURNAL_ACTIVE : Nat := 0x00000010
def VOL_CAP_FMT_NO_ROOT_TIMES : Nat := 0x00000020
def VOL_CAP_FMT_SPARSE_FILES : Nat := 0x00000040
def VOL_CAP_FMT_ZERO_RUNS : Nat := 0x00000080
def VOL_CAP_FMT_CASE_SENSITIVE : Nat := 0x00000100
def VOL_CAP_FMT_CASE_PRESERVING : Nat := 0x00000200
def VOL_CAP_FMT_FAST_STATFS : Nat := 0x00000400
def VOL_CAP_FMT_2TB_FILESIZE : Nat := 0x00000800
def VOL_CAP_FMT_OPENDENYMODES : Nat := 0x00001000
def VOL_CAP_FMT_HIDDEN_FILES : Nat := 0x00002000
def VOL_CAP_FMT_PATH_FROM_ID : Nat := 0x00004000

def VOL_CAP_INT_SEARCHFS : Nat := 0x00000001
def VOL_CAP_INT_ATTRLIST : Nat := 0x00000002
def VOL_CAP_INT_NFSEXPORT : Nat := 0x00000004
def VOL_CAP_INT_READDIRATTR : Nat := 0x00000008
def VOL_CAP_INT_EXCHANGEDATA : Nat := 0x00000010
def VOL_CAP_INT_COPYFILE : Nat := 0x00000020
def VOL_CAP_INT_ALLOCATE : Nat := 0x00000040
def VOL_CAP_INT_VOL_RENAME : Nat := 0x00000080
def VOL_CAP_INT_ADVLOCK : Nat := 0x00000100
def VOL_CAP_INT_FLOCK : Nat := 0x00000200
def VOL_CAP_INT_EXTENDED_SECURITY : Nat := 0x00000400
def VOL_CAP_INT_USERACCESS : Nat := 0x00000800
def VOL_CAP_INT_MANLOCK : Nat := 0x00001000
def VOL_CAP_INT_NAMEDSTREAMS : Nat := 0x00002000
def VOL_CAP_INT_EXTENDED_ATTR : Nat := 0x00004000

def ATTR_CMN_NAME : Nat := 0x00000001
def ATTR_CMN_DEVID : Nat := 0x00000002
def ATTR_CMN_FSID : Nat := 0x00000004
def ATTR_CMN_OBJTYPE : Nat := 0x00000008
def ATTR_CMN_OBJID : Nat := 0x00000020
def ATTR_CMN_PAROBJID : Nat := 0x00000080
def ATTR_CMN_OWNERID : Nat := 0x00008000
def ATTR_CMN_GRPID : Nat := 0x00010000
def ATTR_CMN_ACCESSMASK : Nat := 0x00020000
def ATTR_CMN_EXTENDED_SECURITY : Nat := 0x00400000

def ATTR_VOL_FSTYPE : Nat := 0x00000001
def ATTR_VOL_SIGNATURE : Nat := 0x00000002
def ATTR_VOL_SIZE : Nat := 0x00000004
def ATTR_VOL_SPACEFREE : Nat := 0x00000008
def ATTR_VOL_SPACEAVAIL : Nat := 0x00000010
def ATTR_VOL_IOBLOCKSIZE : Nat := 0x00000080
def ATTR_VOL_FILECOUNT : Nat := 0x00000200
def ATTR_VOL_MOUNTPOINT : Nat := 0x00001000
def ATTR_VOL_NAME : Nat := 0x00002000
def ATTR_VOL_MOUNTFLAGS : Nat := 0x00004000
def ATTR_VOL_MOUNTEDDEVICE : Nat := 0x00008000
def ATTR_VOL_CAPABILITIES : Nat := 0x00020000
def ATTR_VOL_ATTRIBUTES : Nat := 0x40000000

def ATTR_DIR_LINKCOUNT : Nat := 0x00000001

def ATTR_FILE_LINKCOUNT : Nat := 0x00000001
def ATTR_FILE_TOTALSIZE : Nat := 0x00000002
def ATTR_FILE_ALLOCSIZE : Nat := 0x00000004
def ATTR_FILE_IOBLOCKSIZE : Nat := 0x00000008
def ATTR_FILE_DEVTYPE : Nat := 0x00000020
def ATTR_FILE_DATALENGTH : Nat := 0x00000200
def ATTR_FILE_DATAALLOCSIZE : Nat := 0x00000400

/-- The zero time stamp `kZeroTime` of line 18. -/
def kZeroTime : Nat × Nat := (0, 0)

/-! ## `handle_capabilities_and_attributes` (lines 598-783) -/

/-- `VFSATTR_SET_SUPPORTED(attr, field)`, by the field's mask bit. -/
def VFSATTR_SET_SUPPORTED (attr : vfs_attr) (bit : Nat) : vfs_attr :=
  { attr with f_supported := attr.f_supported ||| bit }

/-- `VFSATTR_IS_ACTIVE(attr, field)`, by the field's mask bit. -/
def VFSATTR_IS_ACTIVE (attr : vfs_attr) (bit : Nat) : Bool :=
  attr.f_active &&& bit != 0

/-- Lines 607-631: the format capabilities that are on. -/
def fuse_capabilities_format : Nat :=
  0 ||| VOL_CAP_FMT_SYMBOLICLINKS ||| VOL_CAP_FMT_HARDLINKS ||| VOL_CAP_FMT_NO_ROOT_TIMES |||
    VOL_CAP_FMT_CASE_SENSITIVE ||| VOL_CAP_FMT_CASE_PRESERVING ||| VOL_CAP_FMT_2TB_FILESIZE

/-- Lines 632-648: the format capabilities the answer is valid for. -/
def fuse_valid_format : Nat :=
  0 ||| VOL_CAP_FMT_PERSISTENTOBJECTIDS ||| VOL_CAP_FMT_SYMBOLICLINKS ||| VOL_CAP_FMT_HARDLINKS |||
    VOL_CAP_FMT_JOURNAL ||| VOL_CAP_FMT_JOURNAL_ACTIVE ||| VOL_CAP_FMT_NO_ROOT_TIMES |||
    VOL_CAP_FMT_SPARSE_FILES ||| VOL_CAP_FMT_ZERO_RUNS ||| VOL_CAP_FMT_CASE_SENSITIVE |||
    VOL_CAP_FMT_CASE_PRESERVING ||| VOL_CAP_FMT_FAST_STATFS ||| VOL_CAP_FMT_2TB_FILESIZE |||
    VOL_CAP_FMT_OPENDENYMODES ||| VOL_CAP_FMT_HIDDEN_FILES ||| VOL_CAP_FMT_PATH_FROM_ID

/-- Lines 649-665: the interface capabilities that are always on. -/
def fuse_capabilities_interfaces : Nat :=
  0 ||| VOL_CAP_INT_ADVLOCK ||| VOL_CAP_INT_FLOCK ||| VOL_CAP_INT_EXTENDED_SECURITY |||
    VOL_CAP_INT_EXTENDED_ATTR

/-- Lines 672-688: the interface capabilities the answer is valid for. -/
def fuse_valid_interfaces : Nat :=
  0 ||| VOL_CAP_INT_SEARCHFS ||| VOL_CAP_INT_ATTRLIST ||| VOL_CAP_INT_NFSEXPORT |||
    VOL_CAP_INT_READDIRATTR ||| VOL_CAP_INT_EXCHANGEDATA ||| VOL_CAP_INT_COPYFILE |||
    VOL_CAP_INT_ALLOCATE ||| VOL_CAP_INT_VOL_RENAME ||| VOL_CAP_INT_ADVLOCK |||
    VOL_CAP_INT_FLOCK ||| VOL_CAP_INT_EXTENDED_SECURITY ||| VOL_CAP_INT_USERACCESS |||
    VOL_CAP_INT_MANLOCK ||| VOL_CAP_INT_EXTENDED_ATTR ||| VOL_CAP_INT_NAMEDSTREAMS

/-- Lines 696-767: the attributes the file system answers for. -/
def fuse_validattr : attribute_set where
  commonattr :=
    0 ||| ATTR_CMN_NAME ||| ATTR_CMN_DEVID ||| ATTR_CMN_FSID ||| ATTR_CMN_OBJTYPE |||
      ATTR_CMN_OBJID ||| ATTR_CMN_PAROBJID ||| ATTR_CMN_OWNERID ||| ATTR_CMN_GRPID |||
      ATTR_CMN_ACCESSMASK ||| ATTR_CMN_EXTENDED_SECURITY
  volattr :=
    0 ||| ATTR_VOL_FSTYPE ||| ATTR_VOL_SIGNATURE ||| ATTR_VOL_SIZE ||| ATTR_VOL_SPACEFREE |||
      ATTR_VOL_SPACEAVAIL ||| ATTR_VOL_IOBLOCKSIZE ||| ATTR_VOL_FILECOUNT |||
      ATTR_VOL_MOUNTPOINT ||| ATTR_VOL_NAME ||| ATTR_VOL_MOUNTFLAGS |||
      ATTR_VOL_MOUNTEDDEVICE ||| ATTR_VOL_CAPABILITIES ||| ATTR_VOL_ATTRIBUTES
  dirattr := 0 ||| ATTR_DIR_LINKCOUNT
  fileattr :=
    0 ||| ATTR_FILE_LINKCOUNT ||| ATTR_FILE_TOTALSIZE ||| ATTR_FILE_ALLOCSIZE |||
      ATTR_FILE_IOBLOCKSIZE ||| ATTR_FILE_DEVTYPE ||| ATTR_FILE_DATALENGTH |||
      ATTR_FILE_DATAALLOCSIZE
  forkattr := 0

/-- `handle_capabilities_and_attributes(mp, attr)`; `none` is the panic on a
mount without private data. -/
def handle_capabilities_and_attributes (w : World) (attr : vfs_attr) : Option vfs_attr :=
  match fuse_get_mpdata w with
  | none => none
  | some (_, data) =>
    let interfaces :=
      if data.dataflags &&& FSESS_VOL_RENAME ≠ 0 then
        fuse_capabilities_interfaces ||| VOL_CAP_INT_VOL_RENAME
      else fuse_capabilities_interfaces
    let attr :=
      { attr with
        f_capabilities :=
          { capabilities :=
              { format := fuse_capabilities_format, interfaces := interfaces,
                reserved1 := 0, reserved2 := 0 }
            valid :=
              { format := fuse_valid_format, interfaces := fuse_valid_interfaces,
                reserved1 := 0, reserved2 := 0 } } }
    let attr := VFSATTR_SET_SUPPORTED attr VFSATTR_f_capabilities
    let attr :=
      { attr with f_attributes := { validattr := fuse_validattr, nativeattr := fuse_validattr } }
    some (VFSATTR_SET_SUPPORTED attr VFSATTR_f_attributes)

/-! ## `fuse_vfs_getattr` (lines 785-935) -/

/-- Outcome of an operation on a volume-attribute record. -/
inductive AttrOutcome where
  | returned (err : Nat) (attr : vfs_attr) (w : World)
  | panicked (w : World)

def AttrOutcome.err? : AttrOutcome → Option Nat
  | .returned e _ _ => some e
  | .panicked _ => none

def AttrOutcome.attr? : AttrOutcome → Option vfs_attr
  | .returned _ a _ => some a
  | .panicked _ => none

def AttrOutcome.world : AttrOutcome → World
  | .returned _ _ w => w
  | .panicked w => w

/-- The record `bzero(&faked, sizeof(faked))` of line 824. -/
def faked_statfs : fuse_kstatfs where
  blocks := 0
  bfree := 0
  bavail := 0
  files := 0
  ffree := 0
  bsize := 0
  namelen := 0
  frsize := 0

/-- C library `strncpy(dst, src, n)` on a buffer of `n` bytes: the bytes of
`src` before its first NUL, at most `n`, then zero bytes up to `n`. -/
def strncpy (src : List Nat) (n : Nat) : List Nat :=
  ((src.takeWhile fun c => c ≠ 0).take n) ++
    List.replicate (n - ((src.takeWhile fun c => c ≠ 0).take n).length) 0

/-- Lines 918-925: the volume name goes to the caller's buffer if it was
asked for and the session has one. -/
def getattr_vol_name (attr : vfs_attr) (data : fuse_data) : vfs_attr :=
  if VFSATTR_IS_ACTIVE attr VFSATTR_f_vol_name ∧ data.volname.headD 0 ≠ 0 then
    VFSATTR_SET_SUPPORTED
      { attr with f_vol_name := (strncpy data.volname MAXPATHLEN).set (MAXPATHLEN - 1) 0 }
      VFSATTR_f_vol_name
  else attr

/-- Lines 822-934, label `dostatfs`: fill the record from the statistics
(the daemon's, or the zeroed ones when faking) and from the session. -/
def getattr_dostatfs (P : fuse_param) (faking : Bool) (answ : fuse_kstatfs) (attr : vfs_attr)
    (data : fuse_data) (w : World) : AttrOutcome :=
  let st := if faking then faked_statfs else answ
  let frsize := P.fuse_round_size st.frsize P.FUSE_MIN_BLOCKSIZE P.FUSE_MAX_BLOCKSIZE
  let bsize := P.fuse_round_size st.bsize P.FUSE_MIN_IOSIZE P.FUSE_MAX_IOSIZE
  let bsize := if bsize < frsize then frsize else bsize
  let attr := VFSATTR_SET_SUPPORTED { attr with f_filecount := st.files } VFSATTR_f_filecount
  let attr := VFSATTR_SET_SUPPORTED { attr with f_bsize := frsize } VFSATTR_f_bsize
  let attr := VFSATTR_SET_SUPPORTED { attr with f_iosize := bsize } VFSATTR_f_iosize
  let attr := VFSATTR_SET_SUPPORTED { attr with f_blocks := st.blocks } VFSATTR_f_blocks
  let attr := VFSATTR_SET_SUPPORTED { attr with f_bfree := st.bfree } VFSATTR_f_bfree
  let attr := VFSATTR_SET_SUPPORTED { attr with f_bavail := st.bavail } VFSATTR_f_bavail
  let attr :=
    VFSATTR_SET_SUPPORTED { attr with f_bused := (st.blocks + 2 ^ 64 - st.bfree) % 2 ^ 64 }
      VFSATTR_f_bused
  let attr := VFSATTR_SET_SUPPORTED { attr with f_files := st.files } VFSATTR_f_files
  let attr := VFSATTR_SET_SUPPORTED { attr with f_ffree := st.ffree } VFSATTR_f_ffree
  match handle_capabilities_and_attributes w attr with
  | none => .panicked w
  | some attr =>
    let attr :=
      VFSATTR_SET_SUPPORTED { attr with f_create_time := kZeroTime } VFSATTR_f_create_time
    let attr :=
      VFSATTR_SET_SUPPORTED { attr with f_modify_time := kZeroTime } VFSATTR_f_modify_time
    let attr :=
      VFSATTR_SET_SUPPORTED { attr with f_access_time := kZeroTime } VFSATTR_f_access_time
    let attr :=
      VFSATTR_SET_SUPPORTED { attr with f_backup_time := kZeroTime } VFSATTR_f_backup_time
    let attr :=
      VFSATTR_SET_SUPPORTED { attr with f_fssubtype := data.fssubtype } VFSATTR_f_fssubtype
    let attr := getattr_vol_name attr data
    let attr :=
      VFSATTR_SET_SUPPORTED
        { attr with f_signature := P.OSSwapBigToHostInt16 P.FUSEFS_SIGNATURE }
        VFSATTR_f_signature
    let attr := VFSATTR_SET_SUPPORTED { attr with f_carbon_fsid := 0 } VFSATTR_f_carbon_fsid
    let w := if faking = false then w.log .ticket_drop else w
    .returned 0 attr w

/-- `fuse_vfs_getattr(mp, attr, context)`.  The statfs exchange
(`fdisp_simple_vfs_getattr`) is one request with its error and its reply. -/
def fuse_vfs_getattr (P : fuse_param) (env : Env) (attr : vfs_attr) (w : World) :
    AttrOutcome :=
  match fuse_get_mpdata w with
  | none => .panicked w
  | some (_, data) =>
    if data.dataflags &&& FSESS_INITED = 0 then
      getattr_dostatfs P true env.fdisp_simple_vfs_getattr.2 attr data w
    else
      let w := w.log .statfs_request
      let err := env.fdisp_simple_vfs_getattr.1
      if err ≠ 0 then
        if err = ENOTCONN then getattr_dostatfs P true env.fdisp_simple_vfs_getattr.2 attr data w
        else .returned err attr w
      else getattr_dostatfs P false env.fdisp_simple_vfs_getattr.2 attr data w

/-! ## `fuse_sync_callback` (lines 943-993) -/

/-- Return codes of a node-walk callback (`sys/vnode.h`). -/
def VNODE_RETURNED : Nat := 0

def VNODE_RETURNED_DONE : Nat := 1

/-- Modelled from the spec: the operation codes are declared in
`fuse_kernel.h`, which is missing; file sync and directory sync are two
operations of the protocol, here with the protocol's numbers. -/
def FUSE_FSYNC : Nat := 20

def FUSE_FSYNCDIR : Nat := 30

/-- Modelled from the spec: `FSESS_NOIMPLBIT` is declared in `fuse_ipc.h`,
which is missing; each operation has its own bit in the "unimplemented
operations" bitset `noimplflags`. -/
def FSESS_NOIMPLBIT (opcode : Nat) : Nat := 2 ^ opcode

/-- Modelled from the spec: `FUFH_VALID` is declared in `fuse_file.h`, which
is missing; it is the flag of a file handle that is open. -/
def FUFH_VALID : Nat := 2 ^ 0

/-- Modelled from the spec: `fuse_implemented` is declared in `fuse_ipc.h`,
which is missing; the daemon is known not to implement an operation when
its bit is set in the "unimplemented operations" bitset. -/
def fuse_implemented (data : fuse_data) (which : Nat) : Bool :=
  data.noimplflags &&& which == 0

/-- The loop of lines 977-982: one `fuse_internal_fsync` per valid handle,
by ascending handle type. -/
def sync_handles (vp : Nat) : Nat → List Nat → World → World
  | _, [], w => w
  | type, fufh_flags :: rest, w =>
    sync_handles vp (type + 1) rest
      (if fufh_flags &&& FUFH_VALID ≠ 0 then w.log (.fsync_request vp type) else w)

/-- `fuse_sync_callback(vp, cargs)`; the result is the walk's return code.
Modelled from the spec: `fuse_isdeadfs_mp` is declared in a header that is
missing; "the mount is already dead" is read as the liveness flag of the
mount's session.  A call of `fuse_internal_fsync`, which is in a missing
file too, is recorded as one `fsync_request`. -/
def fuse_sync_callback (vp : fuse_vnode) (w : World) : Outcome :=
  if vp.hasdirtyblks = false then .returned VNODE_RETURNED w
  else
    match fuse_get_mpdata w with
    | none => .panicked w
    | some (_, data) =>
      if fdata_dead_get data then .returned VNODE_RETURNED_DONE w
      else if fuse_implemented data
          (if vp.isdir then FSESS_NOIMPLBIT FUSE_FSYNCDIR else FSESS_NOIMPLBIT FUSE_FSYNC) =
            false then
        .returned VNODE_RETURNED w
      else
        let w := w.log (.cluster_push vp.vp)
        let w := sync_handles vp.vp 0 vp.fufh_flags w
        .returned VNODE_RETURNED w

/-! ## `fuse_vfs_setattr` (lines 1042-1084) -/

/-- `fuse_vfs_setattr(mp, fsap, context)`; `fsap.f_vol_name` is the memory
the caller's name pointer refers to. -/
def fuse_vfs_setattr (context : vfs_context) (fsap : vfs_attr) (w : World) : AttrOutcome :=
  if context.issuser = false ∧ context.cr_uid ≠ w.mp.f_owner then .returned EACCES fsap w
  else if VFSATTR_IS_ACTIVE fsap VFSATTR_f_vol_name then
    match fuse_get_mpdata w with
    | none => .panicked w
    | some (p, data) =>
      if data.dataflags &&& FSESS_VOL_RENAME = 0 then .returned ENOTSUP fsap w
      else if fsap.f_vol_name.headD 0 = 0 then .returned EINVAL fsap w
      else
        let w :=
          set_mpdata w p (some { data with volname := copy_name fsap.f_vol_name MAXPATHLEN })
        .returned 0 (VFSATTR_SET_SUPPORTED fsap VFSATTR_f_vol_name) w
  else .returned 0 fsap w

/-! ## `fuse_vfs_sync` (lines 995-1040) -/

/-- Modelled from the spec: kernel `vnode_iterate(mp, 0, callout, arg)` calls
`callout` on the nodes of the mount one after the other; a callout that
answers with the "handled, stop" signal `VNODE_RETURNED_DONE` ends the walk.
`nodes` are the nodes of the mount. -/
def vnode_iterate (callout : fuse_vnode → World → Outcome) : List fuse_vnode → World → Outcome
  | [], w => .returned 0 w
  | vp :: rest, w =>
    match callout vp w with
    | .panicked w => .panicked w
    | .returned r w =>
      if r = VNODE_RETURNED_DONE then .returned 0 w else vnode_iterate callout rest w

/-- `fuse_vfs_sync(mp, waitfor, context)`.  `fuse_isdeadfs_mp` reads the
liveness flag of the mount's session, as in `fuse_sync_callback`.  The field
`args.error` is set to 0 at line 1023 and is not written by the callback;
the result of `vnode_iterate` is not looked at. -/
def fuse_vfs_sync (nodes : List fuse_vnode) (w : World) : Outcome :=
  let allerror := 0
  match fuse_get_mpdata w with
  | none => .panicked w
  | some (_, data) =>
    if fdata_dead_get data then .returned 0 w
    else if vfs_isupdate w then .returned 0 w
    else if vfs_isrdonly w then .returned EROFS w
    else
      let args_error := 0
      match vnode_iterate fuse_sync_callback nodes (w.log .vnode_iterate) with
      | .panicked w => .panicked w
      | .returned _ w =>
        let allerror := if args_error ≠ 0 then args_error else allerror
        .returned allerror w

/-! ## `fuse_setextendedsecurity` (lines 1086-1123) -/

/-- `fuse_setextendedsecurity(mp, state)`. -/
def fuse_setextendedsecurity (state : Int) (w : World) : Outcome :=
  let err := EINVAL
  match fuse_get_mpdata w with
  | none => .returned ENXIO w
  | some (p, data) =>
    if state = 1 then
      if data.dataflags &&& FSESS_NO_VNCACHE ≠ 0 ∨
          data.dataflags &&& FSESS_DEFER_PERMISSIONS ≠ 0 then
        .returned EINVAL w
      else
        let w :=
          set_mpdata w p
            (some { data with
              dataflags :=
                data.dataflags ||| (FSESS_EXTENDED_SECURITY ||| FSESS_DEFAULT_PERMISSIONS) })
        let w := if vfs_authopaque w then vfs_clearauthopaque w else w
        let w := if vfs_authopaqueaccess w then vfs_clearauthopaqueaccess w else w
        let w := vfs_setextendedsecurity w
        .returned 0 w
    else if state = 0 then
      let w :=
        set_mpdata w p
          (some { data with dataflags := clearbits data.dataflags FSESS_EXTENDED_SECURITY })
      let w := vfs_clearextendedsecurity w
      .returned 0 w
    else .returned err w

/-! ## Predicates used in the statements -/

/-- World of an option-processing step. -/
def OptStep.world : OptStep → World
  | .ret _ w => w
  | .out _ w => w
  | .next _ _ w => w

/-- The option bitset contains one of the pairs the spec excludes. -/
def excluded_pair (altflags : Nat) : Prop :=
  (altflags &&& FUSE_MOPT_NO_VNCACHE ≠ 0 ∧ altflags &&& FUSE_MOPT_EXTENDED_SECURITY ≠ 0) ∨
  (altflags &&& FUSE_MOPT_DEFAULT_PERMISSIONS ≠ 0 ∧
    altflags &&& FUSE_MOPT_DEFER_PERMISSIONS ≠ 0) ∨
  (altflags &&& FUSE_MOPT_NO_SYNCWRITES ≠ 0 ∧ altflags &&& FUSE_MOPT_NO_UBC ≠ 0) ∨
  (altflags &&& FUSE_MOPT_NO_SYNCWRITES ≠ 0 ∧ altflags &&& FUSE_MOPT_NO_READAHEAD ≠ 0)

instance (altflags : Nat) : Decidable (excluded_pair altflags) := by
  unfold excluded_pair; infer_instance

/-- A timeout of the request lies outside its bounds. -/
def timeouts_out_of_range (P : fuse_param) (args : fuse_mount_args) : Prop :=
  (args.daemon_timeout > P.FUSE_MAX_DAEMON_TIMEOUT ∨
    args.daemon_timeout < P.FUSE_MIN_DAEMON_TIMEOUT) ∨
  (args.init_timeout > P.FUSE_MAX_INIT_TIMEOUT ∨ args.init_timeout < P.FUSE_MIN_INIT_TIMEOUT)

instance (P : fuse_param) (args : fuse_mount_args) : Decidable (timeouts_out_of_range P args) := by
  unfold timeouts_out_of_range; infer_instance

/-- The `allow_root` request of a caller who is not known to be in the admin
group (the query failed, or answered no). -/
def allow_root_denied (env : Env) (w : World) (altflags : Nat) : Prop :=
  altflags &&& FUSE_MOPT_ALLOW_ROOT ≠ 0 ∧
  ¬ ((env.kauth_cred_ismember_gid w.fuse_admin_group).1 = 0 ∧
      (env.kauth_cred_ismember_gid w.fuse_admin_group).2 ≠ 0)

/-- The `allow_other` request (without `allow_root`) of a caller who is not
superuser while the global policy flag is off. -/
def allow_other_denied (context : vfs_context) (w : World) (altflags : Nat) : Prop :=
  altflags &&& FUSE_MOPT_ALLOW_ROOT = 0 ∧ altflags &&& FUSE_MOPT_ALLOW_OTHER ≠ 0 ∧
  w.fuse_allow_other = 0 ∧ context.issuser = false

instance (env : Env) (w : World) (a : Nat) : Decidable (allow_root_denied env w a) := by
  unfold allow_root_denied; infer_instance

instance (context : vfs_context) (w : World) (a : Nat) :
    Decidable (allow_other_denied context w a) := by
  unfold allow_other_denied; infer_instance

/-- The request asks for a custom file-system id that an active mount uses. -/
def fsid_in_use (P : fuse_param) (env : Env) (args : fuse_mount_args) : Prop :=
  (args.altflags &&& FUSE_MOPT_FSID ≠ 0 ∧ args.fsid ≠ 0) ∧
  env.vfs_getvfs
    (P.FUSE_MAKEDEV P.FUSE_CUSTOM_FSID_DEVICE_MAJOR args.fsid, P.FUSE_CUSTOM_FSID_VAL1) = true

instance (P : fuse_param) (env : Env) (args : fuse_mount_args) :
    Decidable (fsid_in_use P env args) := by
  unfold fsid_in_use; infer_instance

/-- The option word after the `nolocalcaches` rewrite of lines 263-267. -/
def altflags_rewritten (altflags : Nat) : Nat :=
  if altflags &&& FUSE_MOPT_NO_LOCALCACHES ≠ 0 then
    ((altflags ||| FUSE_MOPT_NO_READAHEAD) ||| FUSE_MOPT_NO_UBC) ||| FUSE_MOPT_NO_VNCACHE
  else altflags

/-- Nothing outside the mount descriptor's option fields has changed: the
device table (channels and sessions), the active-mount counter, the
global settings and the private-data pointer are what they were. -/
def Quiet (w w' : World) : Prop :=
  w'.devices = w.devices ∧ w'.fuse_mount_count = w.fuse_mount_count ∧
  w'.fuse_admin_group = w.fuse_admin_group ∧ w'.fuse_allow_other = w.fuse_allow_other ∧
  w'.mp.fsprivate = w.mp.fsprivate ∧ w'.mp.mp_id = w.mp.mp_id

/-- An event that looks up, locks, unlocks or finalizes a device channel. -/
def Event.isDevice : Event → Bool
  | .device_get _ => true
  | .device_lock _ => true
  | .device_unlock _ => true
  | .device_close_final _ => true
  | _ => false

/-- Every flag of `m` is a flag of `m'`. -/
def flags_sub (m m' : Nat) : Prop := ∀ i, m.testBit i = true → m'.testBit i = true

/-- The active-mount counter is a value of its type, `SInt32`. -/
def count_in_range (w : World) : Prop :=
  -(2 ^ 31 : Int) ≤ w.fuse_mount_count ∧ w.fuse_mount_count < 2 ^ 31

instance (w : World) : Decidable (count_in_range w) := by
  unfold count_in_range; infer_instance

/-- The `nosyncwrites` check of lines 274-280, made on the rewritten option
word. -/
def sync_conflict (a : Nat) : Prop :=
  altflags_rewritten a &&& FUSE_MOPT_NO_SYNCWRITES ≠ 0 ∧
  altflags_rewritten a &&& (FUSE_MOPT_NO_UBC ||| FUSE_MOPT_NO_READAHEAD) ≠ 0

/-- The permission check of lines 301-304. -/
def perms_conflict (a : Nat) : Prop :=
  a &&& FUSE_MOPT_DEFAULT_PERMISSIONS ≠ 0 ∧ a &&& FUSE_MOPT_DEFER_PERMISSIONS ≠ 0

/-- The request trips one of the three compatibility checks the code makes. -/
def options_conflict (a : Nat) : Prop :=
  (a &&& FUSE_MOPT_NO_VNCACHE ≠ 0 ∧ a &&& FUSE_MOPT_EXTENDED_SECURITY ≠ 0) ∨
  sync_conflict a ∨ perms_conflict (altflags_rewritten a)

/-- The caller fails the `allow_root` or the `allow_other` check. -/
def allow_denied (env : Env) (context : vfs_context) (w : World) (a : Nat) : Prop :=
  allow_root_denied env w a ∨ allow_other_denied context w a

instance (a : Nat) : Decidable (sync_conflict a) := by
  unfold sync_conflict; infer_instance

instance (a : Nat) : Decidable (perms_conflict a) := by
  unfold perms_conflict; infer_instance

instance (a : Nat) : Decidable (options_conflict a) := by
  unfold options_conflict; infer_instance

instance (env : Env) (context : vfs_context) (w : World) (a : Nat) :
    Decidable (allow_denied env context w a) := by
  unfold allow_denied; infer_instance

/-- What option processing decides, read off the request: which way control
leaves, with which error, and what it has left untouched. -/
def OptChar (P : fuse_param) (env : Env) (context : vfs_context) (args : fuse_mount_args)
    (w : World) : OptStep → Prop
  | .ret e w' =>
    Quiet w w' ∧ (w'.trace = w.trace ∨ w'.trace = w.trace ++ [.iolog]) ∧
    ((e = EPERM ∧ ¬ timeouts_out_of_range P args ∧ allow_denied env context w args.altflags) ∨
     (e = EINVAL ∧ (timeouts_out_of_range P args ∨
        (¬ allow_denied env context w args.altflags ∧ ¬ fsid_in_use P env args ∧
          options_conflict args.altflags))))
  | .out e w' =>
    e = EPERM ∧ Quiet w w' ∧ w'.trace = w.trace ∧ ¬ timeouts_out_of_range P args ∧
    ¬ allow_denied env context w args.altflags ∧ fsid_in_use P env args
  | .next m a w' =>
    Quiet w w' ∧ w'.trace = w.trace ∧ a = altflags_rewritten args.altflags ∧
    ¬ timeouts_out_of_range P args ∧ ¬ allow_denied env context w args.altflags ∧
    ¬ fsid_in_use P env args ∧ ¬ options_conflict args.altflags ∧
    (args.altflags &&& FUSE_MOPT_ALLOW_ROOT ≠ 0 → m &&& FSESS_ALLOW_ROOT ≠ 0) ∧
    (args.altflags &&& FUSE_MOPT_ALLOW_ROOT = 0 → args.altflags &&& FUSE_MOPT_ALLOW_OTHER ≠ 0 →
      m &&& FSESS_ALLOW_OTHER ≠ 0)

/-! ## A concrete setting

One device channel (id 0, token 42) opened by a daemon of user 501, a fresh
mount descriptor, and collaborators that all answer "no error". -/

/-- Bounds as a clamp; the values are for illustration. -/
def demo_param : fuse_param where
  FUSE_MIN_DAEMON_TIMEOUT := 0
  FUSE_MAX_DAEMON_TIMEOUT := 600
  FUSE_MIN_INIT_TIMEOUT := 1
  FUSE_MAX_INIT_TIMEOUT := 300
  FUSE_MIN_BLOCKSIZE := 512
  FUSE_MAX_BLOCKSIZE := 65536
  FUSE_MIN_IOSIZE := 512
  FUSE_MAX_IOSIZE := 1048576
  fuse_round_size := fun size b_min b_max =>
    if size < b_min then b_min else if size > b_max then b_max else size
  FUSE_MAKEDEV := fun x y => ((x <<< 24) ||| y) % 2 ^ 32
  FUSE_CUSTOM_FSID_DEVICE_MAJOR := 255
  FUSE_CUSTOM_FSID_VAL1 := 0x55464553
  FUSEFS_SIGNATURE := 0x55464553 % 2 ^ 16
  OSSwapBigToHostInt16 := fun x => (x % 256) * 256 + x / 256 % 256

/-- A session as it is after the daemon has opened the channel. -/
def demo_session : fuse_data where
  mount_state := FM_NOTMOUNTED
  dataflags := FSESS_OPENED
  dead := false
  daemoncred := some 501
  daemonpid := 77
  mp := none
  fdev := none
  daemon_timeout := 0
  daemon_timeout_p := false
  init_timeout := 0
  max_read := 0
  fssubtype := 0
  mountaltflags := 0
  noimplflags := 0
  blocksize := 0
  iosize := 0
  volname := []
  rootvp := none

def demo_device : fuse_device where
  random := 42
  data := some demo_session
  locked := false

def demo_mp : mount where
  mp_id := 1
  mnt_flag := 0
  authopaque := false
  authopaqueaccess := false
  extendedsecurity := false
  fsprivate := none
  f_fsid := (0, 0)
  f_mntfromname := []
  f_owner := 501

def demo_world : World where
  fuse_mount_count := 0
  fuse_admin_group := 80
  fuse_allow_other := 0
  devices := fun r => if r = 0 then some demo_device else none
  mp := demo_mp
  trace := []

/-- The daemon answers the handshake with `init_err`; a successful handshake
marks the session initialized.  The caller is not in the admin group. -/
def demo_env (init_err : Nat) : Env where
  copyin_err := 0
  kauth_cred_ismember_gid := fun _ => (0, 0)
  vfs_getvfs := fun _ => false
  vfs_getnewfsid := (7, 8)
  fuse_internal_send_init := fun d =>
    (init_err, some (if init_err = 0 then { d with dataflags := d.dataflags ||| FSESS_INITED }
      else d))
  vnode_get_err := 0
  node_create := (0, some 1)
  vnode_ref_err := 0
  vflush := fun _ _ => 0
  vnode_isinuse := fun _ => false
  fdisp_wait_answ := fun d => (0, d)
  fdisp_simple_vfs_getattr :=
    (0, { blocks := 1000, bfree := 400, bavail := 300, files := 50, ffree := 20,
          bsize := 256, namelen := 255, frsize := 100 })

/-- A well-formed request for device 0 with the given option bits. -/
def demo_args (altflags : Nat) : fuse_mount_args where
  altflags := altflags
  blocksize := 100
  daemon_timeout := 60
  fsid := 0
  fssubtype := 0
  init_timeout := 10
  iosize := 256
  random := 42
  rdev := 0
  fsname := [102, 115, 0]
  volname := [118, 111, 108, 0]

/-- The daemon's own user, without superuser privilege. -/
def demo_context : vfs_context where
  cr_uid := 501
  issuser := false

/-- Option processing fell through to the device-channel lookup. -/
def OptStep.isNext : OptStep → Bool
  | .next _ _ _ => true
  | _ => false

/-- The option flags decoded by option processing (`mntopts`). -/
def OptStep.mntopts : OptStep → Nat
  | .next m _ _ => m
  | _ => 0

/-- The option word as option processing leaves it (`fusefs_args.altflags`). -/
def OptStep.altflags : OptStep → Nat
  | .next _ a _ => a
  | _ => 0

/-- The session as `fuse_vfs_mount` hands it to the handshake: marked mounted
and populated from the request. -/
def handshake_session (P : fuse_param) (env : Env) (context : vfs_context)
    (args : fuse_mount_args) (w : World) (data : fuse_data) : fuse_data :=
  mount_populate P args (mount_options P env context args w).mntopts
    (mount_options P env context args w).altflags args.rdev w.mp.mp_id
    { data with mount_state := FM_MOUNTED }

/-- What the failure unwind leaves of a session: nothing if the daemon no
longer holds the channel open, else the session marked not-mounted. -/
def unwound_session (data : Option fuse_data) : Option fuse_data :=
  data.bind fun d =>
    if d.dataflags &&& FSESS_OPENED = 0 then none
    else some { d with mount_state := FM_NOTMOUNTED }

/-- The device calls of the failure unwind. -/
def unwind_events (r : Nat) (data : Option fuse_data) : List Event :=
  match data with
  | none => [.device_lock r, .device_unlock r]
  | some d =>
    if d.dataflags &&& FSESS_OPENED = 0 then
      [.device_lock r, .device_close_final r, .device_unlock r]
    else [.device_lock r, .device_unlock r]

/-- Every session and the active-mount counter are what they were, and the
lock of channel `r` is not held. -/
def sessions_untouched (w w' : World) (r : Nat) : Prop :=
  (∀ r', fuse_device_get_mpdata w' r' = fuse_device_get_mpdata w r') ∧
  w'.fuse_mount_count = w.fuse_mount_count ∧
  (∀ dev', w'.devices r = some dev' → dev'.locked = false)

/-- A caller of another user than the daemon, without superuser privilege. -/
def other_user_context : vfs_context where
  cr_uid := 502
  issuser := false

/-- The superuser. -/
def superuser_context : vfs_context where
  cr_uid := 0
  issuser := true

/-- The concrete setting after a successful mount of device 0. -/
def mounted_world : World :=
  (fuse_vfs_mount demo_param (demo_env 0) demo_context (demo_args 0) demo_world).world

/-- A second mount descriptor, offered while device 0 is mounted. -/
def second_mount_world : World :=
  { mounted_world with mp := { demo_mp with mp_id := 2 } }

/-- What the local teardown of `fuse_vfs_unmount` leaves of the session:
nothing if the daemon no longer holds the channel open (the channel is
finalized), else the session with the root handle cleared and not-mounted. -/
def torn_down_session (data : fuse_data) : Option fuse_data :=
  if data.dataflags &&& FSESS_OPENED = 0 then none
  else some { data with rootvp := none, mount_state := FM_NOTMOUNTED }

/-- The calls of the local teardown (label `alreadydead`), in order. -/
def teardown_events (p : Nat) (rootvp : Option Nat) (data : fuse_data) : List Event :=
  [.vnode_rele rootvp, .vflush none FORCECLOSE, .device_lock p] ++
  (if data.dataflags &&& FSESS_OPENED = 0 then [.device_close_final p] else []) ++
  [.device_unlock p] ++
  (if data.daemonpid ≠ 0 ∧ data.dataflags &&& FSESS_KILL_ON_UNMOUNT ≠ 0 then
    [.proc_signal data.daemonpid] else [])

/-- The mount's private-data pointer refers to the session `data` of channel
`p`, and that session names `p` as its channel. -/
def mounted_on (w : World) (p : Nat) (dev : fuse_device) (data : fuse_data) : Prop :=
  w.mp.fsprivate = some p ∧ w.devices p = some dev ∧ dev.data = some data ∧
  data.fdev = some p

instance (w : World) (p : Nat) (dev : fuse_device) (data : fuse_data) :
    Decidable (mounted_on w p dev data) := by
  unfold mounted_on; infer_instance

/-- The `vflush` flags `fuse_vfs_unmount` derives from the caller's flags
(lines 468-470). -/
def unmount_flags (mntflags : Nat) : Nat :=
  if mntflags &&& MNT_FORCE ≠ 0 then 0 ||| FORCECLOSE else 0

/-- The channel and the session of the concrete mounted setting. -/
def mounted_device : fuse_device := (mounted_world.devices 0).getD demo_device

def mounted_session : fuse_data := (fuse_device_get_mpdata mounted_world 0).getD demo_session

/-- The mounted setting after the daemon has died. -/
def dead_world : World := set_mpdata mounted_world 0 (some (fdata_set_dead mounted_session))

/-- Collaborators as in `demo_env`, with the root node in use elsewhere and
a `DESTROY` request answered with `wait_err`. -/
def busy_env (wait_err : Nat) : Env :=
  { demo_env 0 with
    vnode_isinuse := fun _ => true
    fdisp_wait_answ := fun d => (wait_err, d) }

/-- An update-remount request on the mounted setting. -/
def update_world : World :=
  { mounted_world with mp := { mounted_world.mp with mnt_flag := MNT_UPDATE } }

/-- A size-bounding function that clamps into `[b_min, b_max]`. -/
def clamp_size (size b_min b_max : Nat) : Nat :=
  if size < b_min then b_min else if size > b_max then b_max else size

/-- Collaborators as in `demo_env 0`, with every custom file-system id in use
by an active mount. -/
def fsid_taken_env : Env :=
  { demo_env 0 with vfs_getvfs := fun _ => true }

/-- A well-formed request for device 0 that asks for custom file-system id 5. -/
def fsid_args : fuse_mount_args :=
  { demo_args FUSE_MOPT_FSID with fsid := 5 }

/-- The mounted setting with a session that never completed the handshake. -/
def uninit_world : World :=
  set_mpdata mounted_world 0 (some { mounted_session with dataflags := FSESS_OPENED })

/-- Collaborators as in `demo_env 0`, with a node flush that fails with
`EBUSY`. -/
def flush_fail_env : Env :=
  { demo_env 0 with vflush := fun _ _ => EBUSY }

/-- The session as the escalation of lines 479-498 leaves it: a live session
that never completed the handshake is marked dead. -/
def escalated_session (data : fuse_data) : fuse_data :=
  if data.dead = false ∧ data.dataflags &&& FSESS_INITED = 0 then fdata_set_dead data else data

/-- The session as `fuse_vfs_unmount` has it on reaching the local teardown
(label `alreadydead`): untouched if it was dead on entry, marked dead if it
had never completed the handshake, and otherwise what the wait for the
answer to `DESTROY` left of it, marked dead. -/
def session_at_teardown (env : Env) (data : fuse_data) : fuse_data :=
  if data.dead = true then data
  else if data.dataflags &&& FSESS_INITED = 0 then fdata_set_dead data
  else fdata_set_dead (env.fdisp_wait_answ data).2

/-! ## Volume attributes: predicates and a concrete setting -/

/-- `VFSATTR_IS_SUPPORTED(attr, field)` (`sys/mount.h`), by the field's mask bit. -/
def VFSATTR_IS_SUPPORTED (attr : vfs_attr) (bit : Nat) : Bool :=
  attr.f_supported &&& bit != 0

/-- The seven counters of a volume-attribute record are all zero: file
count, total, free, available and used blocks, total and free files. -/
def reports_zero (a : vfs_attr) : Prop :=
  a.f_filecount = 0 ∧ a.f_blocks = 0 ∧ a.f_bfree = 0 ∧ a.f_bavail = 0 ∧ a.f_bused = 0 ∧
  a.f_files = 0 ∧ a.f_ffree = 0

instance (a : vfs_attr) : Decidable (reports_zero a) := by
  unfold reports_zero; infer_instance

/-- The statistics `fuse_vfs_getattr` works from: the zeroed record when
faking, else the daemon's reply. -/
def statfs_used (faking : Bool) (answ : fuse_kstatfs) : fuse_kstatfs :=
  if faking then faked_statfs else answ

/-- A request record that asks for the fields of mask `active`, nothing
supported yet, with a name buffer that holds `name`. -/
def demo_attr (active : Nat) (name : List Nat) : vfs_attr where
  f_supported := 0
  f_active := active
  f_filecount := 0
  f_bsize := 0
  f_iosize := 0
  f_blocks := 0
  f_bfree := 0
  f_bavail := 0
  f_bused := 0
  f_files := 0
  f_ffree := 0
  f_capabilities :=
    { capabilities := { format := 0, interfaces := 0, reserved1 := 0, reserved2 := 0 }
      valid := { format := 0, interfaces := 0, reserved1 := 0, reserved2 := 0 } }
  f_attributes :=
    { validattr := { commonattr := 0, volattr := 0, dirattr := 0, fileattr := 0, forkattr := 0 }
      nativeattr :=
        { commonattr := 0, volattr := 0, dirattr := 0, fileattr := 0, forkattr := 0 } }
  f_create_time := (1, 1)
  f_modify_time := (1, 1)
  f_access_time := (1, 1)
  f_backup_time := (1, 1)
  f_fssubtype := 0
  f_vol_name := name
  f_signature := 0
  f_carbon_fsid := 0

/-- Collaborators as in `demo_env 0`, with the statfs exchange ending in
`err` (the reply is the one of `demo_env`). -/
def statfs_env (err : Nat) : Env :=
  { demo_env 0 with fdisp_simple_vfs_getattr := (err, (demo_env 0).fdisp_simple_vfs_getattr.2) }

/-- The mounted setting with the volume-rename option enabled. -/
def rename_world : World :=
  set_mpdata mounted_world 0
    (some { mounted_session with dataflags := mounted_session.dataflags ||| FSESS_VOL_RENAME })

/-- The session of the mount, if the mount has one. -/
def mount_session (w : World) : Option fuse_data :=
  (fuse_get_mpdata w).map fun x => x.2

/-- The stored volume name of the mount's session. -/
def stored_volname (w : World) : Option (List Nat) :=
  (mount_session w).map fun d => d.volname

/-- The calls an operation added to the trace of `w` are `l`. -/
def added_events (w w' : World) (l : List Event) : Prop :=
  w'.trace = w.trace ++ l

/-- The requests among a list of calls: statfs and fsync messages. -/
def Event.isRequest : Event → Bool
  | .statfs_request => true
  | .fsync_request _ _ => true
  | .send_init => true
  | .destroy_submit => true
  | _ => false

/-- The handle types of a node whose handle is valid, ascending from `type`. -/
def valid_handles : Nat → List Nat → List Nat
  | _, [] => []
  | type, fufh_flags :: rest =>
    if fufh_flags &&& FUFH_VALID ≠ 0 then type :: valid_handles (type + 1) rest
    else valid_handles (type + 1) rest

/-- A dirty regular file with three handle slots, the first and the last
valid. -/
def demo_vnode : fuse_vnode where
  vp := 9
  hasdirtyblks := true
  isdir := false
  fufh_flags := [FUFH_VALID, 0, FUFH_VALID]

/-- The mounted setting with the daemon recorded as not implementing the
operations of bitset `noimpl`. -/
def noimpl_world (noimpl : Nat) : World :=
  set_mpdata mounted_world 0 (some { mounted_session with noimplflags := noimpl })

/-- The condition under which `fuse_vfs_getattr` fakes the statistics: the
session lacks `FSESS_INITED`, or the statfs exchange failed with `ENOTCONN`. -/
def getattr_fakes (env : Env) (data : fuse_data) : Bool :=
  data.dataflags &&& FSESS_INITED == 0 || env.fdisp_simple_vfs_getattr.1 == ENOTCONN

/-- Collaborators as in `demo_env 0`, with a daemon that reports the
fundamental block size `frsize` and the preferred I/O size `bsize`. -/
def sizes_env (frsize bsize : Nat) : Env :=
  { demo_env 0 with
    fdisp_simple_vfs_getattr :=
      (0, { (demo_env 0).fdisp_simple_vfs_getattr.2 with frsize := frsize, bsize := bsize }) }

/-- Modelled from the spec: what a name buffer of `size` bytes is to hold
after the name `n` has been stored, "the first min(len(n), size-1) bytes of
n followed by zero bytes up to the end of the buffer". -/
def spec_name_buffer (n : List Nat) (size : Nat) : List Nat :=
  n.take (min n.length (size - 1)) ++ List.replicate (size - min n.length (size - 1)) 0

/-- A request to name the volume "AB"; the caller's buffer goes on after the
terminating NUL. -/
def rename_request : vfs_attr := demo_attr VFSATTR_f_vol_name [65, 66, 0, 7]

/-- The C string a buffer holds: its bytes before the first NUL. -/
def cstring (buf : List Nat) : List Nat :=
  buf.takeWhile fun c => c ≠ 0

/-- The fields `fuse_vfs_getattr` has marked supported when it reaches the
volume name (lines 896-916), on top of those the record came with. -/
def getattr_supported (attr : vfs_attr) : Nat :=
  attr.f_supported ||| VFSATTR_f_filecount ||| VFSATTR_f_bsize ||| VFSATTR_f_iosize |||
    VFSATTR_f_blocks ||| VFSATTR_f_bfree ||| VFSATTR_f_bavail ||| VFSATTR_f_bused |||
    VFSATTR_f_files ||| VFSATTR_f_ffree ||| VFSATTR_f_capabilities ||| VFSATTR_f_attributes |||
    VFSATTR_f_create_time ||| VFSATTR_f_modify_time ||| VFSATTR_f_access_time |||
    VFSATTR_f_backup_time ||| VFSATTR_f_fssubtype

/-- A call the sync walk makes for a node: a cache push or an fsync request. -/
def Event.isNodeSync : Event → Bool
  | .cluster_push _ => true
  | .fsync_request _ _ => true
  | _ => false

/-- The mounted setting, mounted read-only. -/
def rdonly_world : World :=
  { mounted_world with mp := { mounted_world.mp with mnt_flag := MNT_RDONLY } }

/-- The mounted setting during an update-remount to read-only. -/
def update_rdonly_world : World :=
  { mounted_world with mp := { mounted_world.mp with mnt_flag := MNT_UPDATE ||| MNT_RDONLY } }

/-- The session holds one of the two excluded pairs: no-node-cache with
extended-security, or default-permissions with defer-permissions. -/
def session_excluded_pair (data : fuse_data) : Prop :=
  (data.dataflags &&& FSESS_NO_VNCACHE ≠ 0 ∧ data.dataflags &&& FSESS_EXTENDED_SECURITY ≠ 0) ∨
  (data.dataflags &&& FSESS_DEFAULT_PERMISSIONS ≠ 0 ∧
    data.dataflags &&& FSESS_DEFER_PERMISSIONS ≠ 0)

instance (data : fuse_data) : Decidable (session_excluded_pair data) := by
  unfold session_excluded_pair; infer_instance

/-- The mounted setting with the private-data pointer cleared. -/
def detached_world : World := vfs_setfsprivate mounted_world none

/-- A call that is not to be made with the device-channel lock held: the
handshake request, and the calls that resolve the root node. -/
def Event.needsUnlocked : Event → Bool
  | .send_init => true
  | .vfs_root => true
  | .node_create => true
  | .vnode_get _ => true
  | _ => false

/-- One call against the lock discipline; `held` is the channel whose lock
is held, if any.  The lock is taken only when none is held, released only by
its holder, and not held across a call of `Event.needsUnlocked`; `none` is a
breach. -/
def lock_step (held : Option Nat) (ev : Event) : Option (Option Nat) :=
  match ev with
  | .device_lock r => if held = none then some (some r) else none
  | .device_unlock r => if held = some r then some none else none
  | ev => if ev.needsUnlocked = true ∧ held ≠ none then none else some held

/-- A sequence of calls against the lock discipline, from the state `held`:
the state at the end, or `none` after a breach. -/
def lock_run : Option Nat → List Event → Option (Option Nat)
  | held, [] => some held
  | held, ev :: l => (lock_step held ev).bind fun held' => lock_run held' l

/-- An acquisition of a device-channel lock. -/
def Event.isLock : Event → Bool
  | .device_lock _ => true
  | _ => false

/-- A release of a device-channel lock. -/
def Event.isUnlock : Event → Bool
  | .device_unlock _ => true
  | _ => false

/-- What a failed mount leaves of the requested channel's session once the
handshake has been sent: the session `d` found on the channel, populated by
the mount (option flags `m`, option word `a`, mount descriptor `mp_id`) and
handed to the handshake, is `dH` when the handshake wait ends; `d'` is `dH`
put in the not-mounted state, with the root-node handle `vp`. -/
def handshake_residue (P : fuse_param) (env : Env) (args : fuse_mount_args) (m a mp_id : Nat)
    (before : Option fuse_data) (d' : fuse_data) : Prop :=
  ∃ d dH vp, before = some d ∧
    (env.fuse_internal_send_init
      (mount_populate P args m a args.rdev mp_id { d with mount_state := FM_MOUNTED })).2 =
        some dH ∧
    d' = { dH with rootvp := vp, mount_state := FM_NOTMOUNTED }

/-- Collaborators as in `demo_env`, with a handshake that fails with
`ENOTCONN` after the daemon side has reset the session's option flags to
`FSESS_OPENED` and its daemon timeout to 7. -/
def rewriting_env : Env :=
  { demo_env 0 with
    fuse_internal_send_init := fun d =>
      (ENOTCONN, some { d with dataflags := FSESS_OPENED, daemon_timeout := 7 }) }

/-! ## Flag words -/

theorem and_ne_zero_iff (x f : Nat) :
    x &&& f ≠ 0 ↔ ∃ i, x.testBit i = true ∧ f.testBit i = true := by
  constructor
  · intro h
    obtain ⟨i, hi⟩ := Nat.ne_zero_implies_bit_true h
    exact ⟨i, by simpa using hi⟩
  · rintro ⟨i, hx, hf⟩ h0
    have : (x &&& f).testBit i = true := by simp [hx, hf]
    rw [h0] at this
    simp at this

theorem flags_sub_refl (m : Nat) : flags_sub m m := fun _ h => h

theorem flags_sub_trans {a b c : Nat} (h1 : flags_sub a b) (h2 : flags_sub b c) :
    flags_sub a c := fun i h => h2 i (h1 i h)

theorem flags_sub_or_left (m c : Nat) : flags_sub m (m ||| c) := by
  intro i h; simp [h]

theorem flags_sub_or_right (m c : Nat) : flags_sub c (m ||| c) := by
  intro i h; simp [h]

theorem flags_sub_ite (c : Prop) [Decidable c] (m k : Nat) :
    flags_sub m (if c then m ||| k else m) := by
  split
  · exact flags_sub_or_left m k
  · exact flags_sub_refl m

theorem flags_sub_test {m m' : Nat} (h : flags_sub m m') {f : Nat} (hf : m &&& f ≠ 0) :
    m' &&& f ≠ 0 := by
  rw [and_ne_zero_iff] at hf ⊢
  obtain ⟨i, hm, hb⟩ := hf
  exact ⟨i, h i hm, hb⟩

theorem or_test_self (m f : Nat) (hf : f ≠ 0) : (m ||| f) &&& f ≠ 0 := by
  have h : f &&& f ≠ 0 := by simpa using hf
  exact flags_sub_test (flags_sub_or_right m f) h

theorem test_or_mask {a f : Nat} (g : Nat) (h : a &&& f ≠ 0) : a &&& (f ||| g) ≠ 0 := by
  rw [and_ne_zero_iff] at h ⊢
  obtain ⟨i, ha, hb⟩ := h
  exact ⟨i, ha, by simp [hb]⟩

theorem test_or_mask_right {a f : Nat} (g : Nat) (h : a &&& f ≠ 0) : a &&& (g ||| f) ≠ 0 := by
  rw [and_ne_zero_iff] at h ⊢
  obtain ⟨i, ha, hb⟩ := h
  exact ⟨i, ha, by simp [hb]⟩

theorem altflags_rewritten_sub (a : Nat) : flags_sub a (altflags_rewritten a) := by
  unfold altflags_rewritten
  split
  · exact flags_sub_trans (flags_sub_trans (flags_sub_or_left _ _) (flags_sub_or_left _ _))
      (flags_sub_or_left _ _)
  · exact flags_sub_refl a

/-! ## Kernel state outside the option fields -/

theorem Quiet.refl (w : World) : Quiet w w := ⟨rfl, rfl, rfl, rfl, rfl, rfl⟩

theorem Quiet.trans {a b c : World} (h1 : Quiet a b) (h2 : Quiet b c) : Quiet a c := by
  obtain ⟨h11, h12, h13, h14, h15, h16⟩ := h1
  obtain ⟨h21, h22, h23, h24, h25, h26⟩ := h2
  exact ⟨h21.trans h11, h22.trans h12, h23.trans h13, h24.trans h14, h25.trans h15,
    h26.trans h16⟩

theorem Quiet_setflags (w : World) (f : Nat) : Quiet w (vfs_setflags w f) :=
  ⟨rfl, rfl, rfl, rfl, rfl, rfl⟩

theorem Quiet_clearflags (w : World) (f : Nat) : Quiet w (vfs_clearflags w f) :=
  ⟨rfl, rfl, rfl, rfl, rfl, rfl⟩

theorem Quiet_log (w : World) (e : Event) : Quiet w (w.log e) :=
  ⟨rfl, rfl, rfl, rfl, rfl, rfl⟩

/-! ## Option processing, block by block -/

theorem opt_timeouts_bad (P : fuse_param) (args : fuse_mount_args) (w : World)
    (h : timeouts_out_of_range P args) : opt_timeouts P args w = .ret EINVAL w := by
  unfold opt_timeouts
  rcases h with h | h
  · rw [if_pos h]
  · by_cases h1 : args.daemon_timeout > P.FUSE_MAX_DAEMON_TIMEOUT ∨
        args.daemon_timeout < P.FUSE_MIN_DAEMON_TIMEOUT
    · rw [if_pos h1]
    · rw [if_neg h1, if_pos h]

theorem opt_timeouts_ok (P : fuse_param) (args : fuse_mount_args) (w : World)
    (h : ¬ timeouts_out_of_range P args) :
    ∃ m w', opt_timeouts P args w = .next m args.altflags w' ∧ Quiet w w' ∧
      w'.trace = w.trace := by
  unfold timeouts_out_of_range at h
  push_neg at h
  unfold opt_timeouts
  rw [if_neg (by omega), if_neg (by omega)]
  refine ⟨_, _, rfl, ?_, ?_⟩
  · dsimp only; split
    · exact Quiet_setflags _ _
    · exact Quiet.refl _
  · dsimp only; split <;> rfl

theorem opt_allow_root_denied (env : Env) (context : vfs_context) (m a : Nat) (w : World)
    (h : allow_root_denied env w a) :
    opt_allow env context m a w = .ret EPERM (w.log .iolog) := by
  unfold opt_allow
  rw [if_pos h.1]
  dsimp only
  rw [if_neg h.2]

theorem opt_allow_other_denied (env : Env) (context : vfs_context) (m a : Nat) (w : World)
    (h : allow_other_denied context w a) :
    opt_allow env context m a w = .ret EPERM w := by
  unfold opt_allow
  obtain ⟨h1, h2, h3, h4⟩ := h
  rw [if_neg (by simpa using h1), if_pos h2, if_pos ⟨h3, by simp [h4]⟩]

theorem opt_allow_ok (env : Env) (context : vfs_context) (m a : Nat) (w : World)
    (h1 : ¬ allow_root_denied env w a) (h2 : ¬ allow_other_denied context w a) :
    ∃ m', opt_allow env context m a w = .next m' a w ∧ flags_sub m m' ∧
      (a &&& FUSE_MOPT_ALLOW_ROOT ≠ 0 → m' &&& FSESS_ALLOW_ROOT ≠ 0) ∧
      (a &&& FUSE_MOPT_ALLOW_ROOT = 0 → a &&& FUSE_MOPT_ALLOW_OTHER ≠ 0 →
        m' &&& FSESS_ALLOW_OTHER ≠ 0) := by
  unfold opt_allow
  by_cases hr : a &&& FUSE_MOPT_ALLOW_ROOT ≠ 0
  · rw [if_pos hr]
    have hm : (env.kauth_cred_ismember_gid w.fuse_admin_group).1 = 0 ∧
        (env.kauth_cred_ismember_gid w.fuse_admin_group).2 ≠ 0 := by
      by_contra hc
      exact h1 ⟨hr, hc⟩
    dsimp only
    rw [if_pos hm]
    exact ⟨_, rfl, flags_sub_or_left _ _, fun _ => or_test_self _ _ (by decide),
      fun h0 => absurd h0 hr⟩
  · rw [if_neg hr]
    have hr0 : a &&& FUSE_MOPT_ALLOW_ROOT = 0 := by simpa using hr
    by_cases ho : a &&& FUSE_MOPT_ALLOW_OTHER ≠ 0
    · rw [if_pos ho]
      have hn : ¬ (w.fuse_allow_other = 0 ∧ ¬ context.issuser = true) := by
        intro hc
        exact h2 ⟨hr0, ho, hc.1, by simpa using hc.2⟩
      rw [if_neg hn]
      exact ⟨_, rfl, flags_sub_or_left _ _, fun h0 => absurd h0 hr,
        fun _ _ => or_test_self _ _ (by decide)⟩
    · rw [if_neg ho]
      exact ⟨_, rfl, flags_sub_refl _, fun h0 => absurd h0 hr, fun _ h0 => absurd h0 ho⟩

theorem opt_apple_eq (m a : Nat) (w : World) :
    ∃ m', opt_apple m a w = .next m' a w ∧ flags_sub m m' := by
  unfold opt_apple
  exact ⟨_, rfl, flags_sub_trans (flags_sub_ite _ _ _) (flags_sub_ite _ _ _)⟩

theorem opt_fsid_collide (P : fuse_param) (env : Env) (args : fuse_mount_args) (m : Nat)
    (w : World) (h : fsid_in_use P env args) :
    opt_fsid P env args m args.altflags w = .out EPERM w := by
  unfold opt_fsid
  rw [if_pos h.1]
  dsimp only
  rw [if_pos h.2]

theorem opt_fsid_ok (P : fuse_param) (env : Env) (args : fuse_mount_args) (m : Nat)
    (w : World) (h : ¬ fsid_in_use P env args) :
    ∃ w', opt_fsid P env args m args.altflags w = .next m args.altflags w' ∧ Quiet w w' ∧
      w'.trace = w.trace := by
  unfold opt_fsid
  by_cases h1 : args.altflags &&& FUSE_MOPT_FSID ≠ 0 ∧ args.fsid ≠ 0
  · rw [if_pos h1]
    dsimp only
    rw [if_neg (fun hc => h ⟨h1, hc⟩)]
    exact ⟨_, rfl, ⟨rfl, rfl, rfl, rfl, rfl, rfl⟩, rfl⟩
  · rw [if_neg h1]
    exact ⟨_, rfl, ⟨rfl, rfl, rfl, rfl, rfl, rfl⟩, rfl⟩

theorem opt_caches_bad (m a : Nat) (w : World)
    (h : a &&& FUSE_MOPT_NO_VNCACHE ≠ 0 ∧ a &&& FUSE_MOPT_EXTENDED_SECURITY ≠ 0) :
    opt_caches m a w = .ret EINVAL w := by
  unfold opt_caches
  dsimp only
  rw [if_pos h.1, if_pos h.2]

theorem opt_caches_ok (m a : Nat) (w : World)
    (h : ¬ (a &&& FUSE_MOPT_NO_VNCACHE ≠ 0 ∧ a &&& FUSE_MOPT_EXTENDED_SECURITY ≠ 0)) :
    ∃ m', opt_caches m a w = .next m' a w ∧ flags_sub m m' := by
  unfold opt_caches
  dsimp only
  have hsub := flags_sub_trans (flags_sub_trans (flags_sub_trans
    (flags_sub_ite (a &&& FUSE_MOPT_KILL_ON_UNMOUNT ≠ 0) m FSESS_KILL_ON_UNMOUNT)
    (flags_sub_ite (a &&& FUSE_MOPT_NO_ATTRCACHE ≠ 0) _ FSESS_NO_ATTRCACHE))
    (flags_sub_ite (a &&& FUSE_MOPT_NO_READAHEAD ≠ 0) _ FSESS_NO_READAHEAD))
    (flags_sub_ite (a &&& (FUSE_MOPT_NO_UBC ||| FUSE_MOPT_DIRECT_IO) ≠ 0) _ FSESS_NO_UBC)
  by_cases h1 : a &&& FUSE_MOPT_NO_VNCACHE ≠ 0
  · have h2 : ¬ a &&& FUSE_MOPT_EXTENDED_SECURITY ≠ 0 := fun hc => h ⟨h1, hc⟩
    rw [if_pos h1, if_neg h2]
    exact ⟨_, rfl, flags_sub_trans hsub
      (flags_sub_trans (flags_sub_or_left _ _) (flags_sub_or_left _ _))⟩
  · rw [if_neg h1]
    exact ⟨_, rfl, hsub⟩

theorem opt_sync_bad (m a : Nat) (w : World) (h : sync_conflict a) :
    ∃ w', opt_sync m a w = .ret EINVAL w' ∧ Quiet w w' ∧ w'.trace = w.trace := by
  unfold opt_sync
  unfold sync_conflict altflags_rewritten at h
  dsimp only
  rw [if_pos h.1, if_pos h.2]
  refine ⟨_, rfl, ?_, ?_⟩
  · split
    · exact Quiet_setflags _ _
    · exact Quiet.refl _
  · split <;> rfl

theorem opt_sync_ok (m a : Nat) (w : World) (h : ¬ sync_conflict a) :
    ∃ m' w', opt_sync m a w = .next m' (altflags_rewritten a) w' ∧ flags_sub m m' ∧
      Quiet w w' ∧ w'.trace = w.trace := by
  unfold opt_sync
  unfold sync_conflict at h
  unfold altflags_rewritten at h ⊢
  dsimp only
  have hq : ∀ (c : Prop) [Decidable c], Quiet w (if c then vfs_setflags w MNT_NOEXEC else w) := by
    intro c _; split
    · exact Quiet_setflags _ _
    · exact Quiet.refl _
  have ht : ∀ (c : Prop) [Decidable c],
      (if c then vfs_setflags w MNT_NOEXEC else w).trace = w.trace := by
    intro c _; split <;> rfl
  generalize (if a &&& FUSE_MOPT_NO_LOCALCACHES ≠ 0 then
      ((a ||| FUSE_MOPT_NO_READAHEAD) ||| FUSE_MOPT_NO_UBC) ||| FUSE_MOPT_NO_VNCACHE
    else a) = b at h ⊢
  by_cases h1 : b &&& FUSE_MOPT_NO_SYNCWRITES ≠ 0
  · rw [if_pos h1, if_neg (fun hc => h ⟨h1, hc⟩)]
    refine ⟨_, _, rfl, ?_, ?_, ?_⟩
    · exact flags_sub_trans (flags_sub_or_left _ _) (flags_sub_ite _ _ _)
    · exact Quiet.trans (hq _) (Quiet.trans (Quiet_clearflags _ _) (Quiet_setflags _ _))
    · exact ht _
  · rw [if_neg h1]
    refine ⟨_, _, rfl, flags_sub_refl _, ?_, ?_⟩
    · exact Quiet.trans (hq _) (Quiet.trans (Quiet_clearflags _ _) (Quiet_setflags _ _))
    · exact ht _

theorem opt_perms_bad (m a : Nat) (w : World) (h : perms_conflict a) :
    ∃ w', opt_perms m a w = .ret EINVAL w' ∧ Quiet w w' ∧ w'.trace = w.trace := by
  unfold opt_perms
  unfold perms_conflict at h
  dsimp only
  rw [if_pos h]
  exact ⟨_, rfl, ⟨rfl, rfl, rfl, rfl, rfl, rfl⟩, rfl⟩

theorem opt_perms_ok (m a : Nat) (w : World) (h : ¬ perms_conflict a) :
    ∃ m' w', opt_perms m a w = .next m' a w' ∧ flags_sub m m' ∧ Quiet w w' ∧
      w'.trace = w.trace := by
  unfold opt_perms
  unfold perms_conflict at h
  dsimp only
  rw [if_neg h]
  refine ⟨_, _, rfl, ?_, ?_, ?_⟩
  · exact flags_sub_trans (flags_sub_trans (flags_sub_ite _ _ _) (flags_sub_ite _ _ _))
      (flags_sub_ite _ _ _)
  · split <;> split <;> exact ⟨rfl, rfl, rfl, rfl, rfl, rfl⟩
  · split <;> split <;> rfl

theorem allow_denied_congr (env : Env) (context : vfs_context) (a : Nat) {w w' : World}
    (h : Quiet w w') :
    (allow_root_denied env w' a ↔ allow_root_denied env w a) ∧
    (allow_other_denied context w' a ↔ allow_other_denied context w a) := by
  obtain ⟨_, _, h3, h4, _, _⟩ := h
  unfold allow_root_denied allow_other_denied
  rw [h3, h4]
  exact ⟨Iff.rfl, Iff.rfl⟩

theorem excluded_pair_conflict {a : Nat} (h : excluded_pair a) : options_conflict a := by
  have hs := altflags_rewritten_sub a
  rcases h with h | h | h | h
  · exact Or.inl h
  · exact Or.inr (Or.inr ⟨flags_sub_test hs h.1, flags_sub_test hs h.2⟩)
  · exact Or.inr (Or.inl ⟨flags_sub_test hs h.1, test_or_mask _ (flags_sub_test hs h.2)⟩)
  · exact Or.inr (Or.inl ⟨flags_sub_test hs h.1, test_or_mask_right _ (flags_sub_test hs h.2)⟩)

/-- Option processing never touches a device channel, a session or the
counter, and leaves by the exit the request determines. -/
theorem mount_options_char (P : fuse_param) (env : Env) (context : vfs_context)
    (args : fuse_mount_args) (w : World) :
    OptChar P env context args w (mount_options P env context args w) := by
  unfold mount_options
  by_cases ht : timeouts_out_of_range P args
  · rw [opt_timeouts_bad P args w ht]
    exact ⟨Quiet.refl w, Or.inl rfl, Or.inr ⟨rfl, Or.inl ht⟩⟩
  obtain ⟨m1, w1, e1, q1, t1⟩ := opt_timeouts_ok P args w ht
  rw [e1]
  simp only [OptStep.andThen]
  have hc := allow_denied_congr env context args.altflags q1
  by_cases hr : allow_root_denied env w args.altflags
  · rw [opt_allow_root_denied env context m1 _ w1 (hc.1.2 hr)]
    refine ⟨Quiet.trans q1 (Quiet_log _ _), Or.inr ?_, Or.inl ⟨rfl, ht, Or.inl hr⟩⟩
    show w1.trace ++ [Event.iolog] = w.trace ++ [Event.iolog]
    rw [t1]
  by_cases ho : allow_other_denied context w args.altflags
  · rw [opt_allow_other_denied env context m1 _ w1 (hc.2.2 ho)]
    exact ⟨q1, Or.inl t1, Or.inl ⟨rfl, ht, Or.inr ho⟩⟩
  have hden : ¬ allow_denied env context w args.altflags := fun h => h.elim hr ho
  obtain ⟨m2, e2, s2, hroot, hother⟩ := opt_allow_ok env context m1 args.altflags w1
    (fun h => hr (hc.1.1 h)) (fun h => ho (hc.2.1 h))
  rw [e2]
  simp only [OptStep.andThen]
  obtain ⟨m3, e3, s3⟩ := opt_apple_eq m2 args.altflags w1
  rw [e3]
  simp only [OptStep.andThen]
  by_cases hf : fsid_in_use P env args
  · rw [opt_fsid_collide P env args m3 w1 hf]
    exact ⟨rfl, q1, t1, ht, hden, hf⟩
  obtain ⟨w4, e4, q4, t4⟩ := opt_fsid_ok P env args m3 w1 hf
  rw [e4]
  simp only [OptStep.andThen]
  by_cases hv : args.altflags &&& FUSE_MOPT_NO_VNCACHE ≠ 0 ∧
      args.altflags &&& FUSE_MOPT_EXTENDED_SECURITY ≠ 0
  · rw [opt_caches_bad m3 _ w4 hv]
    exact ⟨Quiet.trans q1 q4, Or.inl (t4.trans t1), Or.inr ⟨rfl, Or.inr ⟨hden, hf, Or.inl hv⟩⟩⟩
  obtain ⟨m5, e5, s5⟩ := opt_caches_ok m3 args.altflags w4 hv
  rw [e5]
  simp only [OptStep.andThen]
  by_cases hs : sync_conflict args.altflags
  · obtain ⟨w6, e6, q6, t6⟩ := opt_sync_bad m5 args.altflags w4 hs
    rw [e6]
    exact ⟨Quiet.trans q1 (Quiet.trans q4 q6), Or.inl (t6.trans (t4.trans t1)),
      Or.inr ⟨rfl, Or.inr ⟨hden, hf, Or.inr (Or.inl hs)⟩⟩⟩
  obtain ⟨m6, w6, e6, s6, q6, t6⟩ := opt_sync_ok m5 args.altflags w4 hs
  rw [e6]
  simp only [OptStep.andThen]
  by_cases hp : perms_conflict (altflags_rewritten args.altflags)
  · obtain ⟨w7, e7, q7, t7⟩ := opt_perms_bad m6 _ w6 hp
    rw [e7]
    exact ⟨Quiet.trans q1 (Quiet.trans q4 (Quiet.trans q6 q7)),
      Or.inl (t7.trans (t6.trans (t4.trans t1))),
      Or.inr ⟨rfl, Or.inr ⟨hden, hf, Or.inr (Or.inr hp)⟩⟩⟩
  obtain ⟨m7, w7, e7, s7, q7, t7⟩ := opt_perms_ok m6 _ w6 hp
  rw [e7]
  have hsub : flags_sub m2 m7 :=
    flags_sub_trans s3 (flags_sub_trans s5 (flags_sub_trans s6 s7))
  refine ⟨Quiet.trans q1 (Quiet.trans q4 (Quiet.trans q6 q7)),
    t7.trans (t6.trans (t4.trans t1)), rfl, ht, hden, hf, ?_,
    fun h => flags_sub_test hsub (hroot h), fun h h' => flags_sub_test hsub (hother h h')⟩
  rintro (h | h | h)
  · exact hv h
  · exact hs h
  · exact hp h

/-! ## Claims on option validation -/

/-- C1 (amended): a non-update mount request whose option bitset contains an
excluded pair, and whose custom file-system id is not in use, is refused
without any device channel or session being looked up, locked or modified
and with the active-mount counter unchanged: with `EPERM` when the option
block was read, the timeouts are in range and the `allow_root` or
`allow_other` check fails (that check comes first), with `EINVAL` otherwise. -/
theorem excluded_pair_refused (P : fuse_param) (env : Env) (context : vfs_context)
    (args : fuse_mount_args) (w : World)
    (hupd : vfs_isupdate w = false) (hpair : excluded_pair args.altflags)
    (hfsid : ¬ fsid_in_use P env args) :
    ∃ w', fuse_vfs_mount P env context args w =
        .returned (if env.copyin_err = 0 ∧ ¬ timeouts_out_of_range P args ∧
          allow_denied env context w args.altflags then EPERM else EINVAL) w' ∧
      w'.devices = w.devices ∧ w'.fuse_mount_count = w.fuse_mount_count ∧
      w'.mp.fsprivate = w.mp.fsprivate ∧
      (w'.trace = w.trace ∨ w'.trace = w.trace ++ [.iolog]) := by
  unfold fuse_vfs_mount
  rw [hupd]
  simp only [Bool.false_eq_true, if_false]
  by_cases hc : env.copyin_err = 0
  swap
  · rw [if_pos hc, if_neg (fun h => hc h.1)]
    exact ⟨w, rfl, rfl, rfl, rfl, Or.inl rfl⟩
  rw [if_neg (not_not.mpr hc)]
  have hchar := mount_options_char P env context args w
  rcases hopt : mount_options P env context args w with ⟨e, w'⟩ | ⟨e, w'⟩ | ⟨m, a, w'⟩
  · rw [hopt] at hchar
    obtain ⟨hq, htr, hcase⟩ := hchar
    refine ⟨w', ?_, hq.1, hq.2.1, hq.2.2.2.2.1, htr⟩
    rcases hcase with ⟨he, ht, hd⟩ | ⟨he, hrest⟩
    · rw [if_pos ⟨hc, ht, hd⟩, he]
    · have : ¬ (env.copyin_err = 0 ∧ ¬ timeouts_out_of_range P args ∧
          allow_denied env context w args.altflags) := by
        rintro ⟨_, ht, hd⟩
        rcases hrest with h | h
        · exact ht h
        · exact h.1 hd
      rw [if_neg this, he]
  · rw [hopt] at hchar
    exact absurd hchar.2.2.2.2.2 hfsid
  · rw [hopt] at hchar
    exact absurd (excluded_pair_conflict hpair) hchar.2.2.2.2.2.2.1

/-- Witness for C1: `default_permissions` with `defer_permissions` on the
concrete channel. -/
theorem excluded_pair_refused_witness :
    ∃ w', fuse_vfs_mount demo_param (demo_env 0) demo_context
        (demo_args (FUSE_MOPT_DEFAULT_PERMISSIONS ||| FUSE_MOPT_DEFER_PERMISSIONS)) demo_world =
        .returned EINVAL w' ∧
      w'.devices = demo_world.devices ∧ w'.fuse_mount_count = demo_world.fuse_mount_count ∧
      w'.mp.fsprivate = demo_world.mp.fsprivate ∧
      (w'.trace = demo_world.trace ∨ w'.trace = demo_world.trace ++ [.iolog]) :=
  excluded_pair_refused demo_param (demo_env 0) demo_context
    (demo_args (FUSE_MOPT_DEFAULT_PERMISSIONS ||| FUSE_MOPT_DEFER_PERMISSIONS)) demo_world
    (by decide) (by decide) (by decide)

/-- C1 as stated fails: `novncache` with `extended_security`, requested
together with `allow_root` by a caller outside the admin group, is refused
with `EPERM`, not `EINVAL`. -/
theorem excluded_pair_not_always_einval :
    vfs_isupdate demo_world = false ∧
    excluded_pair (demo_args (FUSE_MOPT_NO_VNCACHE ||| FUSE_MOPT_EXTENDED_SECURITY |||
      FUSE_MOPT_ALLOW_ROOT)).altflags ∧
    (fuse_vfs_mount demo_param (demo_env 0) demo_context
      (demo_args (FUSE_MOPT_NO_VNCACHE ||| FUSE_MOPT_EXTENDED_SECURITY |||
        FUSE_MOPT_ALLOW_ROOT)) demo_world).err? = some EPERM ∧
    EPERM ≠ EINVAL := by
  decide

/-! ## Projections of the kernel state through the primitive operations -/

@[simp] theorem log_count (w : World) (e : Event) :
    (World.log w e).fuse_mount_count = w.fuse_mount_count := rfl

@[simp] theorem log_trace (w : World) (e : Event) :
    (World.log w e).trace = w.trace ++ [e] := rfl

@[simp] theorem log_mp (w : World) (e : Event) :
    (World.log w e).mp = w.mp := rfl

@[simp] theorem log_devices (w : World) (e : Event) :
    (World.log w e).devices = w.devices := rfl

@[simp] theorem setfsprivate_count (w : World) (p : Option Nat) :
    (vfs_setfsprivate w p).fuse_mount_count = w.fuse_mount_count := rfl

@[simp] theorem setfsprivate_trace (w : World) (p : Option Nat) :
    (vfs_setfsprivate w p).trace = w.trace := rfl

@[simp] theorem setfsprivate_fsprivate (w : World) (p : Option Nat) :
    (vfs_setfsprivate w p).mp.fsprivate = p := rfl

@[simp] theorem setfsprivate_mp_id (w : World) (p : Option Nat) :
    (vfs_setfsprivate w p).mp.mp_id = w.mp.mp_id := rfl

@[simp] theorem setfsprivate_devices (w : World) (p : Option Nat) :
    (vfs_setfsprivate w p).devices = w.devices := rfl

@[simp] theorem lock_count (f : Nat) (w : World) :
    (fuse_device_lock f w).fuse_mount_count = w.fuse_mount_count := rfl

@[simp] theorem lock_trace (f : Nat) (w : World) :
    (fuse_device_lock f w).trace = w.trace ++ [.device_lock f] := rfl

@[simp] theorem lock_mp (f : Nat) (w : World) :
    (fuse_device_lock f w).mp = w.mp := rfl

@[simp] theorem lock_devices (f : Nat) (w : World) (r : Nat) :
    (fuse_device_lock f w).devices r =
      if r = f then (w.devices r).map fun x => { x with locked := true } else w.devices r := rfl

@[simp] theorem unlock_count (f : Nat) (w : World) :
    (fuse_device_unlock f w).fuse_mount_count = w.fuse_mount_count := rfl

@[simp] theorem unlock_trace (f : Nat) (w : World) :
    (fuse_device_unlock f w).trace = w.trace ++ [.device_unlock f] := rfl

@[simp] theorem unlock_mp (f : Nat) (w : World) :
    (fuse_device_unlock f w).mp = w.mp := rfl

@[simp] theorem unlock_devices (f : Nat) (w : World) (r : Nat) :
    (fuse_device_unlock f w).devices r =
      if r = f then (w.devices r).map fun x => { x with locked := false } else w.devices r := rfl

@[simp] theorem set_mpdata_count (w : World) (f : Nat) (d : Option fuse_data) :
    (set_mpdata w f d).fuse_mount_count = w.fuse_mount_count := rfl

@[simp] theorem set_mpdata_trace (w : World) (f : Nat) (d : Option fuse_data) :
    (set_mpdata w f d).trace = w.trace := rfl

@[simp] theorem set_mpdata_mp (w : World) (f : Nat) (d : Option fuse_data) :
    (set_mpdata w f d).mp = w.mp := rfl

@[simp] theorem set_mpdata_devices (w : World) (f : Nat) (d : Option fuse_data) (r : Nat) :
    (set_mpdata w f d).devices r =
      if r = f then (w.devices r).map fun x => { x with data := d } else w.devices r := rfl

@[simp] theorem close_final_count (f : Nat) (w : World) :
    (fuse_device_close_final f w).fuse_mount_count = w.fuse_mount_count := rfl

@[simp] theorem close_final_trace (f : Nat) (w : World) :
    (fuse_device_close_final f w).trace = w.trace ++ [.device_close_final f] := rfl

@[simp] theorem close_final_mp (f : Nat) (w : World) :
    (fuse_device_close_final f w).mp = w.mp := rfl

@[simp] theorem close_final_devices (f : Nat) (w : World) (r : Nat) :
    (fuse_device_close_final f w).devices r =
      if r = f then (w.devices r).map fun x => { x with data := none } else w.devices r := rfl

@[simp] theorem count_add_count (n : Int) (w : World) :
    (fuse_mount_count_add n w).fuse_mount_count = OSAddAtomic n w.fuse_mount_count := rfl

@[simp] theorem count_add_trace (n : Int) (w : World) :
    (fuse_mount_count_add n w).trace = w.trace := rfl

@[simp] theorem count_add_mp (n : Int) (w : World) :
    (fuse_mount_count_add n w).mp = w.mp := rfl

@[simp] theorem count_add_devices (n : Int) (w : World) :
    (fuse_mount_count_add n w).devices = w.devices := rfl

@[simp] theorem set_mntfromname_count (w : World) (l : List Nat) :
    (set_mntfromname w l).fuse_mount_count = w.fuse_mount_count := rfl

@[simp] theorem set_mntfromname_trace (w : World) (l : List Nat) :
    (set_mntfromname w l).trace = w.trace := rfl

@[simp] theorem set_mntfromname_fsprivate (w : World) (l : List Nat) :
    (set_mntfromname w l).mp.fsprivate = w.mp.fsprivate := rfl

@[simp] theorem set_mntfromname_mp_id (w : World) (l : List Nat) :
    (set_mntfromname w l).mp.mp_id = w.mp.mp_id := rfl

@[simp] theorem set_mntfromname_devices (w : World) (l : List Nat) :
    (set_mntfromname w l).devices = w.devices := rfl

/-! ## The failure unwind -/

theorem OSAddAtomic_undo (c : Int) (h : -(2 ^ 31 : Int) ≤ c ∧ c < 2 ^ 31) :
    OSAddAtomic (-1) (OSAddAtomic 1 c) = c := by
  unfold OSAddAtomic
  omega

theorem isNext_eq {s : OptStep} (h : s.isNext = true) :
    s = .next s.mntopts s.altflags s.world := by
  cases s <;> simp_all [OptStep.isNext, OptStep.mntopts, OptStep.altflags, OptStep.world]

theorem mount_unwind_returned (r : Nat) (mounted : Bool) (err : Nat) (w : World)
    (dev : fuse_device) (hdev : w.devices r = some dev) :
    ∃ w', mount_unwind (some r) mounted err w = .returned err w' ∧
      w'.fuse_mount_count =
        (if mounted then OSAddAtomic (-1) w.fuse_mount_count else w.fuse_mount_count) ∧
      w'.mp.fsprivate = none ∧
      (∀ r', r' ≠ r → w'.devices r' = w.devices r') ∧
      w'.devices r = some { dev with locked := false, data := unwound_session dev.data } ∧
      w'.trace = w.trace ++ unwind_events r dev.data := by
  unfold mount_unwind
  simp only [setfsprivate_devices, hdev]
  refine ⟨_, rfl, ?_, ?_, ?_, ?_, ?_⟩
  · cases mounted <;> cases hd : dev.data <;>
      simp [fuse_device_get_mpdata, hdev, hd] <;> split <;> simp
  · cases mounted <;> cases hd : dev.data <;>
      simp [fuse_device_get_mpdata, hdev, hd] <;> split <;> simp
  · intro r' hr'
    cases mounted <;> cases hd : dev.data <;>
      simp [fuse_device_get_mpdata, hdev, hd, hr'] <;> split <;> simp [hr']
  · cases mounted <;> cases hd : dev.data <;>
      simp [fuse_device_get_mpdata, hdev, hd, unwound_session] <;> split <;> simp [hdev, *]
  · cases mounted <;> cases hd : dev.data <;>
      simp [fuse_device_get_mpdata, hdev, hd, unwind_events] <;> split <;> simp [*]

/-! ## The device phase of the mount -/

theorem mount_device_handshake (P : fuse_param) (env : Env) (context : vfs_context)
    (args : fuse_mount_args) (m a : Nat) (w : World) (dev : fuse_device) (data : fuse_data)
    (uid : Nat)
    (hdev : w.devices args.rdev = some dev) (htok : args.random = dev.random)
    (hdata : dev.data = some data) (hnm : data.mount_state = FM_NOTMOUNTED)
    (hop : data.dataflags &&& FSESS_OPENED ≠ 0) (halive : data.dead = false)
    (hcred : data.daemoncred = some uid)
    (hown : ¬ (context.issuser = true ∧ context.cr_uid ≠ uid)) :
    ∃ wH, mount_device P env context args m a w =
        mount_out env (some args.rdev) true
          (env.fuse_internal_send_init (mount_populate P args m a args.rdev w.mp.mp_id
            { data with mount_state := FM_MOUNTED })).1 wH ∧
      wH.fuse_mount_count = OSAddAtomic 1 w.fuse_mount_count ∧
      wH.mp.fsprivate = some args.rdev ∧
      (∀ r, r ≠ args.rdev → wH.devices r = w.devices r) ∧
      wH.devices args.rdev = some { dev with locked := false, data :=
        (env.fuse_internal_send_init (mount_populate P args m a args.rdev w.mp.mp_id
            { data with mount_state := FM_MOUNTED })).2 } ∧
      wH.trace = w.trace ++ [.device_get args.rdev, .device_lock args.rdev,
        .device_unlock args.rdev, .send_init] := by
  unfold mount_device
  simp only [log_devices, setfsprivate_devices, hdev, htok, hdata, hnm, ne_eq, not_true_eq_false,
    if_false, hop, fdata_dead_get, halive, Bool.false_eq_true, hcred, hown]
  refine ⟨_, rfl, ?_, ?_, ?_, ?_, ?_⟩
  · simp
  · simp
  · intro r hr; simp [hr]
  · simp [hdev]
  · simp

theorem unwound_session_notmounted {o : Option fuse_data} {d : fuse_data}
    (h : unwound_session o = some d) : d.mount_state = FM_NOTMOUNTED := by
  unfold unwound_session at h
  cases o with
  | none => simp at h
  | some x =>
    simp only [Option.bind] at h
    split at h
    · simp at h
    · simp only [Option.some.injEq] at h
      rw [← h]

theorem unwind_events_device (r : Nat) (o : Option fuse_data) :
    ∀ ev ∈ unwind_events r o, ev.isDevice = true := by
  intro ev hev
  unfold unwind_events at hev
  split at hev
  · simp only [List.mem_cons, List.mem_singleton, List.not_mem_nil, or_false] at hev
    rcases hev with rfl | rfl <;> rfl
  · split at hev
    · simp only [List.mem_cons, List.mem_singleton, List.not_mem_nil, or_false] at hev
      rcases hev with rfl | rfl | rfl <;> rfl
    · simp only [List.mem_cons, List.mem_singleton, List.not_mem_nil, or_false] at hev
      rcases hev with rfl | rfl <;> rfl

theorem mount_out_err (env : Env) (fdev : Option Nat) (mounted : Bool) (err : Nat) (w : World)
    (h : err ≠ 0) : mount_out env fdev mounted err w = mount_unwind fdev mounted err w := by
  unfold mount_out
  rw [if_pos h]

/-- C3: when a mount request reaches the handshake and the handshake fails
with `e`, `fuse_vfs_mount` returns `e`; the active-mount counter is back at
its value on entry, the session (if the channel still has one) is
not-mounted, the private-data pointer is null, and `fuse_vfs_root` was not
called nor a root node created: the calls made are the device lookup, one
lock/unlock pair, the handshake and the unwind's device calls. -/
theorem handshake_failure_unwinds (P : fuse_param) (env : Env) (context : vfs_context)
    (args : fuse_mount_args) (w : World) (dev : fuse_device) (data : fuse_data) (uid e : Nat)
    (hupd : vfs_isupdate w = false) (hcopy : env.copyin_err = 0)
    (hopt : (mount_options P env context args w).isNext = true)
    (hdev : w.devices args.rdev = some dev) (htok : args.random = dev.random)
    (hdata : dev.data = some data) (hnm : data.mount_state = FM_NOTMOUNTED)
    (hop : data.dataflags &&& FSESS_OPENED ≠ 0) (halive : data.dead = false)
    (hcred : data.daemoncred = some uid)
    (hown : ¬ (context.issuser = true ∧ context.cr_uid ≠ uid))
    (hinit : (env.fuse_internal_send_init (handshake_session P env context args w data)).1 = e)
    (he : e ≠ 0) (hcount : count_in_range w) :
    ∃ w', fuse_vfs_mount P env context args w = .returned e w' ∧
      w'.fuse_mount_count = w.fuse_mount_count ∧
      fuse_device_get_mpdata w' args.rdev = unwound_session
        (env.fuse_internal_send_init (handshake_session P env context args w data)).2 ∧
      (∀ d, fuse_device_get_mpdata w' args.rdev = some d → d.mount_state = FM_NOTMOUNTED) ∧
      w'.mp.fsprivate = none ∧
      w'.trace = w.trace ++ [.device_get args.rdev, .device_lock args.rdev,
        .device_unlock args.rdev, .send_init] ++ unwind_events args.rdev
          (env.fuse_internal_send_init (handshake_session P env context args w data)).2 ∧
      (∀ ev ∈ w'.trace, ev = .vfs_root ∨ ev = .node_create → ev ∈ w.trace) := by
  have hchar := mount_options_char P env context args w
  have hnext := isNext_eq hopt
  rw [hnext] at hchar
  obtain ⟨hq, htr, -⟩ := hchar
  obtain ⟨hqd, hqc, -, -, -, hqid⟩ := hq
  obtain ⟨wH, hH, hHc, hHp, hHo, hHd, hHt⟩ := mount_device_handshake P env context args
    (mount_options P env context args w).mntopts (mount_options P env context args w).altflags
    (mount_options P env context args w).world dev data uid (by rw [hqd]; exact hdev) htok hdata
    hnm hop halive hcred hown
  rw [hqid] at hH hHd
  change (env.fuse_internal_send_init (handshake_session P env context args w data)).1 = _ at hinit
  unfold handshake_session at hinit ⊢
  rw [hinit, mount_out_err _ _ _ _ _ he] at hH
  obtain ⟨w', hU, hUc, hUp, -, hUd, hUt⟩ := mount_unwind_returned args.rdev true e wH _ hHd
  have hfinal : fuse_vfs_mount P env context args w = .returned e w' := by
    unfold fuse_vfs_mount
    rw [hupd]
    simp only [Bool.false_eq_true, if_false, hcopy, ne_eq, not_true_eq_false]
    rw [hnext]
    exact hH.trans hU
  have hsess : fuse_device_get_mpdata w' args.rdev = unwound_session
      (env.fuse_internal_send_init (mount_populate P args
        (mount_options P env context args w).mntopts (mount_options P env context args w).altflags
        args.rdev w.mp.mp_id { data with mount_state := FM_MOUNTED })).2 := by
    unfold fuse_device_get_mpdata
    rw [hUd]
    rfl
  have htrace : w'.trace = w.trace ++ [.device_get args.rdev, .device_lock args.rdev,
        .device_unlock args.rdev, .send_init] ++ unwind_events args.rdev
          (env.fuse_internal_send_init (mount_populate P args
        (mount_options P env context args w).mntopts (mount_options P env context args w).altflags
        args.rdev w.mp.mp_id { data with mount_state := FM_MOUNTED })).2 := by
    rw [hUt, hHt, htr]
  refine ⟨w', hfinal, ?_, hsess, ?_, hUp, htrace, ?_⟩
  · rw [hUc, hHc, hqc]
    simp only [if_true]
    exact OSAddAtomic_undo _ hcount
  · intro d hd
    rw [hsess] at hd
    exact unwound_session_notmounted hd
  · intro ev hev hcase
    rw [htrace] at hev
    simp only [List.mem_append, List.mem_cons, List.mem_singleton, List.not_mem_nil,
      or_false] at hev
    rcases hev with (hev | hev) | hev
    · exact hev
    · rcases hcase with h | h <;> rw [h] at hev <;> simp at hev
    · have := unwind_events_device _ _ ev hev
      rcases hcase with h | h <;> rw [h] at this <;> simp [Event.isDevice] at this

/-- Witness for C3: on the concrete channel the daemon fails the handshake
with `ENOTCONN`. -/
theorem handshake_failure_unwinds_witness :
    ∃ w', fuse_vfs_mount demo_param (demo_env ENOTCONN) demo_context (demo_args 0) demo_world =
        .returned ENOTCONN w' ∧
      w'.fuse_mount_count = demo_world.fuse_mount_count ∧
      fuse_device_get_mpdata w' 0 = unwound_session
        ((demo_env ENOTCONN).fuse_internal_send_init (handshake_session demo_param
          (demo_env ENOTCONN) demo_context (demo_args 0) demo_world demo_session)).2 ∧
      (∀ d, fuse_device_get_mpdata w' 0 = some d → d.mount_state = FM_NOTMOUNTED) ∧
      w'.mp.fsprivate = none ∧
      w'.trace = demo_world.trace ++ [.device_get 0, .device_lock 0,
        .device_unlock 0, .send_init] ++ unwind_events 0
          ((demo_env ENOTCONN).fuse_internal_send_init (handshake_session demo_param
          (demo_env ENOTCONN) demo_context (demo_args 0) demo_world demo_session)).2 ∧
      (∀ ev ∈ w'.trace, ev = .vfs_root ∨ ev = .node_create → ev ∈ demo_world.trace) :=
  handshake_failure_unwinds demo_param (demo_env ENOTCONN) demo_context (demo_args 0) demo_world
    demo_device demo_session 501 ENOTCONN (by decide) (by decide) (by decide) (by decide)
    (by decide) (by decide) (by decide) (by decide) (by decide) (by decide) (by decide)
    (by decide) (by decide) (by decide)

/-- C2 (code defect): option processing lets `nosyncwrites` through next to
`direct_io`, and next to `novncache`; the decoded flags then hold
`FSESS_NO_SYNCWRITES` together with `FSESS_NO_UBC` (and, for `novncache`,
with `FSESS_NO_READAHEAD`), and the mount merges them into the session. -/
theorem nosyncwrites_meets_noubc :
    (mount_options demo_param (demo_env 0) demo_context
      (demo_args (FUSE_MOPT_NO_SYNCWRITES ||| FUSE_MOPT_DIRECT_IO)) demo_world).isNext = true ∧
    (mount_options demo_param (demo_env 0) demo_context
      (demo_args (FUSE_MOPT_NO_SYNCWRITES ||| FUSE_MOPT_DIRECT_IO)) demo_world).mntopts =
      FSESS_NO_SYNCWRITES ||| FSESS_NO_UBC ∧
    (fuse_vfs_mount demo_param (demo_env 0) demo_context
      (demo_args (FUSE_MOPT_NO_SYNCWRITES ||| FUSE_MOPT_DIRECT_IO)) demo_world).err? = some 0 ∧
    (fuse_device_get_mpdata (fuse_vfs_mount demo_param (demo_env 0) demo_context
      (demo_args (FUSE_MOPT_NO_SYNCWRITES ||| FUSE_MOPT_DIRECT_IO)) demo_world).world 0).map
        (fun d => (d.dataflags &&& FSESS_NO_SYNCWRITES, d.dataflags &&& FSESS_NO_UBC)) =
      some (FSESS_NO_SYNCWRITES, FSESS_NO_UBC) ∧
    (mount_options demo_param (demo_env 0) demo_context
      (demo_args (FUSE_MOPT_NO_SYNCWRITES ||| FUSE_MOPT_NO_VNCACHE)) demo_world).isNext = true ∧
    (mount_options demo_param (demo_env 0) demo_context
      (demo_args (FUSE_MOPT_NO_SYNCWRITES ||| FUSE_MOPT_NO_VNCACHE)) demo_world).mntopts =
      FSESS_NO_SYNCWRITES ||| FSESS_NO_VNCACHE ||| FSESS_NO_ATTRCACHE ||| FSESS_NO_READAHEAD |||
        FSESS_NO_UBC := by
  decide

/-- C4 (code defect): the owner check of lines 368-373 fires for the
superuser and not for an unprivileged caller.  A caller of user 502 without
superuser privilege mounts on the channel of the daemon of user 501
(`fuse_vfs_mount` returns 0, the session is mounted, the counter goes up),
while the superuser is refused with `EPERM`. -/
theorem owner_check_inverted :
    (fuse_vfs_mount demo_param (demo_env 0) other_user_context (demo_args 0) demo_world).err? =
      some 0 ∧
    (fuse_device_get_mpdata (fuse_vfs_mount demo_param (demo_env 0) other_user_context
      (demo_args 0) demo_world).world 0).map (fun d => d.mount_state) = some FM_MOUNTED ∧
    (fuse_vfs_mount demo_param (demo_env 0) other_user_context (demo_args 0)
      demo_world).world.fuse_mount_count = 1 ∧
    (fuse_vfs_mount demo_param (demo_env 0) superuser_context (demo_args 0) demo_world).err? =
      some EPERM := by
  decide

/-- C5: a non-update request whose option block was read with in-range
timeouts is refused with `EPERM`, without any device channel or session being
accessed, when it asks for `allow_root` and the caller is not known to be in
the admin group, or asks for `allow_other` (without `allow_root`) while the
global policy flag is off and the caller is not superuser.  When option
processing passes, the session flag of the granted request is among the
decoded options. -/
theorem allow_checks (P : fuse_param) (env : Env) (context : vfs_context)
    (args : fuse_mount_args) (w : World)
    (hupd : vfs_isupdate w = false) (hcopy : env.copyin_err = 0)
    (ht : ¬ timeouts_out_of_range P args) :
    (allow_root_denied env w args.altflags ∨ allow_other_denied context w args.altflags →
      ∃ w', fuse_vfs_mount P env context args w = .returned EPERM w' ∧
        w'.devices = w.devices ∧ w'.fuse_mount_count = w.fuse_mount_count ∧
        (∀ ev ∈ w'.trace, ev.isDevice = true → ev ∈ w.trace)) ∧
    ((mount_options P env context args w).isNext = true →
      (args.altflags &&& FUSE_MOPT_ALLOW_ROOT ≠ 0 →
        (mount_options P env context args w).mntopts &&& FSESS_ALLOW_ROOT ≠ 0) ∧
      (args.altflags &&& FUSE_MOPT_ALLOW_ROOT = 0 →
        args.altflags &&& FUSE_MOPT_ALLOW_OTHER ≠ 0 →
        (mount_options P env context args w).mntopts &&& FSESS_ALLOW_OTHER ≠ 0)) := by
  have hchar := mount_options_char P env context args w
  constructor
  · intro hden
    unfold fuse_vfs_mount
    rw [hupd]
    simp only [Bool.false_eq_true, if_false, hcopy, ne_eq, not_true_eq_false]
    rcases hopt : mount_options P env context args w with ⟨e, w'⟩ | ⟨e, w'⟩ | ⟨m, a, w'⟩
    · rw [hopt] at hchar
      obtain ⟨hq, htr, hcase⟩ := hchar
      have he : e = EPERM := by
        rcases hcase with ⟨he, -⟩ | ⟨-, h | h⟩
        · exact he
        · exact absurd h ht
        · exact absurd hden h.1
      rw [he]
      refine ⟨w', rfl, hq.1, hq.2.1, ?_⟩
      intro ev hev hdevice
      rcases htr with h | h
      · rw [h] at hev; exact hev
      · rw [h] at hev
        simp only [List.mem_append, List.mem_singleton] at hev
        rcases hev with hev | hev
        · exact hev
        · rw [hev] at hdevice; simp [Event.isDevice] at hdevice
    · rw [hopt] at hchar
      exact absurd hden hchar.2.2.2.2.1
    · rw [hopt] at hchar
      exact absurd hden hchar.2.2.2.2.1
  · intro hnext
    rw [isNext_eq hnext] at hchar
    exact ⟨hchar.2.2.2.2.2.2.2.1, hchar.2.2.2.2.2.2.2.2⟩

/-- Witness for C5: `allow_root` asked by a caller outside the admin group. -/
theorem allow_checks_witness :
    ∃ w', fuse_vfs_mount demo_param (demo_env 0) demo_context (demo_args FUSE_MOPT_ALLOW_ROOT)
        demo_world = .returned EPERM w' ∧
      w'.devices = demo_world.devices ∧ w'.fuse_mount_count = demo_world.fuse_mount_count ∧
      (∀ ev ∈ w'.trace, ev.isDevice = true → ev ∈ demo_world.trace) :=
  (allow_checks demo_param (demo_env 0) demo_context (demo_args FUSE_MOPT_ALLOW_ROOT) demo_world
    (by decide) (by decide) (by decide)).1 (Or.inl (by decide))

theorem fuse_vfs_mount_next (P : fuse_param) (env : Env) (context : vfs_context)
    (args : fuse_mount_args) (w : World)
    (hupd : vfs_isupdate w = false) (hcopy : env.copyin_err = 0)
    (hopt : (mount_options P env context args w).isNext = true) :
    fuse_vfs_mount P env context args w =
      mount_device P env context args (mount_options P env context args w).mntopts
        (mount_options P env context args w).altflags
        (mount_options P env context args w).world ∧
    Quiet w (mount_options P env context args w).world ∧
    (mount_options P env context args w).world.trace = w.trace := by
  have hchar := mount_options_char P env context args w
  have hnext := isNext_eq hopt
  rw [hnext] at hchar
  refine ⟨?_, hchar.1, hchar.2.1⟩
  unfold fuse_vfs_mount
  rw [hupd]
  simp only [Bool.false_eq_true, if_false, hcopy, ne_eq, not_true_eq_false]
  rw [hnext]
  rfl

/-- C6: once option processing has passed, `fuse_vfs_mount` returns `EINVAL`
when no device channel exists for the device id, `EINVAL` when the token
differs from the channel's, `ENXIO` when the channel has no session and
`EALREADY` when the session is already mounted; in each case every session
and the active-mount counter are unchanged and the channel lock is released
again (each lock is followed by its unlock). -/
theorem device_checks (P : fuse_param) (env : Env) (context : vfs_context)
    (args : fuse_mount_args) (w : World)
    (hupd : vfs_isupdate w = false) (hcopy : env.copyin_err = 0)
    (hopt : (mount_options P env context args w).isNext = true) :
    (w.devices args.rdev = none →
      ∃ w', fuse_vfs_mount P env context args w = .returned EINVAL w' ∧
        sessions_untouched w w' args.rdev ∧
        w'.trace = w.trace ++ [.device_get args.rdev]) ∧
    (∀ dev, w.devices args.rdev = some dev → args.random ≠ dev.random →
      ∃ w', fuse_vfs_mount P env context args w = .returned EINVAL w' ∧
        sessions_untouched w w' args.rdev ∧
        w'.trace = w.trace ++ [.device_get args.rdev, .device_lock args.rdev,
          .device_unlock args.rdev, .iolog]) ∧
    (∀ dev, w.devices args.rdev = some dev → args.random = dev.random → dev.data = none →
      ∃ w', fuse_vfs_mount P env context args w = .returned ENXIO w' ∧
        sessions_untouched w w' args.rdev ∧
        w'.trace = w.trace ++ [.device_get args.rdev, .device_lock args.rdev,
          .device_unlock args.rdev]) ∧
    (∀ dev data, w.devices args.rdev = some dev → args.random = dev.random →
      dev.data = some data → data.mount_state ≠ FM_NOTMOUNTED →
      ∃ w', fuse_vfs_mount P env context args w = .returned EALREADY w' ∧
        sessions_untouched w w' args.rdev ∧
        w'.trace = w.trace ++ [.device_get args.rdev, .device_lock args.rdev,
          .device_unlock args.rdev]) := by
  obtain ⟨hmount, hq, htr⟩ := fuse_vfs_mount_next P env context args w hupd hcopy hopt
  obtain ⟨hqd, hqc, -⟩ := hq
  rw [hmount]
  generalize (mount_options P env context args w).world = w1 at hqd hqc htr ⊢
  generalize (mount_options P env context args w).mntopts = m
  generalize (mount_options P env context args w).altflags = a
  have hsess : ∀ (w2 : World), (∀ r, (w2.devices r).bind (fun d => d.data) =
      (w1.devices r).bind (fun d => d.data)) →
      ∀ r', fuse_device_get_mpdata w2 r' = fuse_device_get_mpdata w r' := by
    intro w2 h r'
    unfold fuse_device_get_mpdata
    rw [h r', hqd]
  refine ⟨?_, ?_, ?_, ?_⟩
  · intro hdev
    rw [← hqd] at hdev
    unfold mount_device
    simp only [log_devices, setfsprivate_devices, hdev]
    refine ⟨_, rfl, ⟨hsess _ ?_, ?_, ?_⟩, ?_⟩
    · intro r; simp
    · simpa using hqc
    · intro dev' h; simp [hdev] at h
    · simp [htr]
  · intro dev hdev htok
    rw [← hqd] at hdev
    unfold mount_device
    simp only [log_devices, setfsprivate_devices, hdev, ne_eq, htok, not_false_eq_true, if_true]
    refine ⟨_, rfl, ⟨hsess _ ?_, ?_, ?_⟩, ?_⟩
    · intro r
      by_cases hr : r = args.rdev
      · subst hr; simp [hdev]
      · simp [hr]
    · simpa using hqc
    · intro dev' h
      simp [hdev] at h
      rw [← h]
    · simp [htr]
  · intro dev hdev htok hdata
    rw [← hqd] at hdev
    unfold mount_device
    simp only [log_devices, setfsprivate_devices, hdev, ne_eq, htok, not_true_eq_false, if_false,
      hdata]
    refine ⟨_, rfl, ⟨hsess _ ?_, ?_, ?_⟩, ?_⟩
    · intro r
      by_cases hr : r = args.rdev
      · subst hr; simp [hdev]
      · simp [hr]
    · simpa using hqc
    · intro dev' h
      simp [hdev] at h
      rw [← h]
    · simp [htr]
  · intro dev data hdev htok hdata hmnt
    rw [← hqd] at hdev
    unfold mount_device
    simp only [log_devices, setfsprivate_devices, hdev, ne_eq, htok, not_true_eq_false, if_false,
      hdata, hmnt, not_false_eq_true, if_true]
    refine ⟨_, rfl, ⟨hsess _ ?_, ?_, ?_⟩, ?_⟩
    · intro r
      by_cases hr : r = args.rdev
      · subst hr; simp [hdev]
      · simp [hr]
    · simpa using hqc
    · intro dev' h
      simp [hdev] at h
      rw [← h]
    · simp [htr]

/-- Witness for C6: a request whose token is not the channel's. -/
theorem device_checks_witness :
    ∃ w', fuse_vfs_mount demo_param (demo_env 0) demo_context
        { demo_args 0 with random := 7 } demo_world = .returned EINVAL w' ∧
      sessions_untouched demo_world w' 0 ∧
      w'.trace = demo_world.trace ++ [.device_get 0, .device_lock 0, .device_unlock 0, .iolog] :=
  (device_checks demo_param (demo_env 0) demo_context { demo_args 0 with random := 7 } demo_world
    (by decide) (by decide) (by decide)).2.1 demo_device (by decide) (by decide)

/-! ## Root resolution and the label `out` -/

theorem fuse_vfs_root_done (env : Env) (w : World) (r err : Nat) (vp : Option Nat) (w5 : World)
    (hp : w.mp.fsprivate = some r) (h : fuse_vfs_root env w = .done err vp w5) :
    w5.fuse_mount_count = w.fuse_mount_count ∧ w5.mp.fsprivate = w.mp.fsprivate ∧
    (∀ r', r' ≠ r → w5.devices r' = w.devices r') ∧
    (∀ dev, w.devices r = some dev → ∃ dev5, w5.devices r = some dev5) ∧
    ∃ l, w5.trace = w.trace ++ l ∧ Event.vfs_root ∈ l := by
  unfold fuse_vfs_root fuse_get_mpdata at h
  simp only [log_mp, hp] at h
  cases hd : fuse_device_get_mpdata (w.log .vfs_root) r with
  | none => rw [hd] at h; simp at h
  | some data =>
    rw [hd] at h
    simp only at h
    cases hroot : data.rootvp with
    | some v =>
      rw [hroot] at h
      simp only [RootResult.done.injEq] at h
      obtain ⟨-, -, rfl⟩ := h
      exact ⟨rfl, rfl, fun _ _ => rfl, fun dev hdev => ⟨dev, hdev⟩,
        [.vfs_root, .vnode_get (some v)], by simp, by simp⟩
    | none =>
      rw [hroot] at h
      simp only at h
      split at h
      · simp only [RootResult.done.injEq] at h
        obtain ⟨-, -, rfl⟩ := h
        refine ⟨rfl, rfl, ?_, ?_, [.vfs_root, .node_create], by simp, by simp⟩
        · intro r' hr'; simp [hr']
        · intro dev hdev; simp [hdev]
      · simp only [RootResult.done.injEq] at h
        obtain ⟨-, -, rfl⟩ := h
        exact ⟨rfl, rfl, fun _ _ => rfl, fun dev hdev => ⟨dev, hdev⟩,
          [.vfs_root, .node_create], by simp, by simp⟩

theorem mount_out_returned (env : Env) (r : Nat) (mounted : Bool) (err : Nat) (w : World)
    (dev : fuse_device) (e : Nat) (w' : World)
    (hdev : w.devices r = some dev) (hp : err = 0 → w.mp.fsprivate = some r)
    (h : mount_out env (some r) mounted err w = .returned e w') (he : e ≠ 0) :
    w'.fuse_mount_count =
      (if mounted then OSAddAtomic (-1) w.fuse_mount_count else w.fuse_mount_count) ∧
    w'.mp.fsprivate = none ∧
    (∀ r', r' ≠ r → w'.devices r' = w.devices r') ∧
    (∀ d', fuse_device_get_mpdata w' r = some d' → d'.mount_state = FM_NOTMOUNTED) ∧
    (err ≠ 0 → e = err ∧ fuse_device_get_mpdata w' r = unwound_session dev.data) ∧
    ∃ l, w'.trace = w.trace ++ l := by
  have key : ∀ (w2 : World) (dev2 : fuse_device) (e2 : Nat), w2.devices r = some dev2 →
      mount_unwind (some r) mounted e2 w2 = .returned e w' →
      e = e2 ∧
      w'.fuse_mount_count =
        (if mounted then OSAddAtomic (-1) w2.fuse_mount_count else w2.fuse_mount_count) ∧
      w'.mp.fsprivate = none ∧
      (∀ r', r' ≠ r → w'.devices r' = w2.devices r') ∧
      fuse_device_get_mpdata w' r = unwound_session dev2.data ∧
      w'.trace = w2.trace ++ unwind_events r dev2.data := by
    intro w2 dev2 e2 hdev2 hu
    obtain ⟨w3, h3, hc, hf, ho, hd, ht⟩ := mount_unwind_returned r mounted e2 w2 dev2 hdev2
    rw [h3] at hu
    simp only [Outcome.returned.injEq] at hu
    obtain ⟨rfl, rfl⟩ := hu
    refine ⟨rfl, hc, hf, ho, ?_, ht⟩
    unfold fuse_device_get_mpdata
    rw [hd]
    rfl
  unfold mount_out at h
  by_cases herr : err ≠ 0
  · rw [if_pos herr] at h
    obtain ⟨h1, hc, hf, ho, hs, ht⟩ := key w dev err hdev h
    refine ⟨hc, hf, ho, ?_, fun _ => ⟨h1, hs⟩, _, ht⟩
    intro d' hd'
    rw [hs] at hd'
    exact unwound_session_notmounted hd'
  · rw [if_neg herr] at h
    have hp' := hp (not_not.mp herr)
    cases hroot : fuse_vfs_root env w with
    | fault w5 => rw [hroot] at h; simp at h
    | done err2 vp w5 =>
      rw [hroot] at h
      simp only at h
      obtain ⟨h5c, h5f, h5o, h5d, l5, h5t, -⟩ := fuse_vfs_root_done env w r err2 vp w5 hp' hroot
      obtain ⟨dev5, hdev5⟩ := h5d dev hdev
      by_cases herr2 : err2 ≠ 0
      · rw [if_pos herr2] at h
        obtain ⟨-, hc, hf, ho, hs, ht⟩ := key w5 dev5 err2 hdev5 h
        refine ⟨by rw [hc, h5c], hf, ?_, ?_, fun hc => absurd hc herr,
          l5 ++ unwind_events r dev5.data, ?_⟩
        · intro r' hr'; rw [ho r' hr', h5o r' hr']
        · intro d' hd'
          rw [hs] at hd'
          exact unwound_session_notmounted hd'
        · rw [ht, h5t, List.append_assoc]
      · rw [if_neg herr2] at h
        by_cases herr3 : env.vnode_ref_err ≠ 0
        · rw [if_pos herr3] at h
          obtain ⟨-, hc, hf, ho, hs, ht⟩ := key _ dev5 _ (by simpa using hdev5) h
          refine ⟨by rw [hc]; simp [h5c], hf, ?_, ?_, fun hc => absurd hc herr,
            l5 ++ ([.vnode_ref vp, .vnode_put vp] ++ unwind_events r dev5.data), ?_⟩
          · intro r' hr'; rw [ho r' hr']; simp [h5o r' hr']
          · intro d' hd'
            rw [hs] at hd'
            exact unwound_session_notmounted hd'
          · rw [ht]
            simp [h5t, List.append_assoc]
        · rw [if_neg herr3] at h
          simp only [Outcome.returned.injEq] at h
          exact absurd h.1.symm (by rw [not_not.mp herr3] at *; exact he)

theorem remount_state (data : fuse_data) (h : data.mount_state = FM_NOTMOUNTED) :
    { ({ data with mount_state := FM_MOUNTED } : fuse_data) with mount_state := FM_NOTMOUNTED } =
      data := by
  cases data
  simp_all

theorem reset_mounted_eq (data : fuse_data) (dead : Bool) (cred : Option Nat)
    (h1 : data.mount_state = FM_NOTMOUNTED) (h2 : data.dead = dead)
    (h3 : data.daemoncred = cred) :
    ({ ({ data with mount_state := FM_MOUNTED, dead := dead, daemoncred := cred } : fuse_data)
        with mount_state := FM_NOTMOUNTED } : fuse_data) = data := by
  cases data
  simp_all

/-- Every failing return of the device phase: counter restored, private-data
pointer null, and a surviving session either the one that was there or,
after the handshake, not-mounted. -/
theorem mount_device_returned (P : fuse_param) (env : Env) (context : vfs_context)
    (args : fuse_mount_args) (m a : Nat) (w : World) (e : Nat) (w' : World)
    (h : mount_device P env context args m a w = .returned e w') (he : e ≠ 0)
    (hcount : count_in_range w) :
    w'.fuse_mount_count = w.fuse_mount_count ∧ w'.mp.fsprivate = none ∧
    (∀ r d', fuse_device_get_mpdata w' r = some d' →
      fuse_device_get_mpdata w r = some d' ∨
      (r = args.rdev ∧ d'.mount_state = FM_NOTMOUNTED ∧
        ∃ l, w'.trace = w.trace ++ l ∧ Event.send_init ∈ l)) := by
  have hother : ∀ (w2 : World), (∀ r, r ≠ args.rdev → w'.devices r = w2.devices r) →
      (∀ r, r ≠ args.rdev → w2.devices r = w.devices r) →
      ∀ r d', r ≠ args.rdev → fuse_device_get_mpdata w' r = some d' →
        fuse_device_get_mpdata w r = some d' := by
    intro w2 h1 h2 r d' hr hd
    unfold fuse_device_get_mpdata at hd ⊢
    rw [h1 r hr, h2 r hr] at hd
    exact hd
  cases hdev : w.devices args.rdev with
  | none =>
    unfold mount_device at h
    simp only [log_devices, setfsprivate_devices, hdev, Outcome.returned.injEq] at h
    obtain ⟨-, rfl⟩ := h
    exact ⟨rfl, rfl, fun r d' hd => Or.inl hd⟩
  | some dev =>
    have early : ∀ (ev : List Event),
        w' = (fuse_device_unlock args.rdev (fuse_device_lock args.rdev
          ((vfs_setfsprivate w none).log (.device_get args.rdev)))) ∨
        w' = (fuse_device_unlock args.rdev (fuse_device_lock args.rdev
          ((vfs_setfsprivate w none).log (.device_get args.rdev)))).log .iolog →
        w'.fuse_mount_count = w.fuse_mount_count ∧ w'.mp.fsprivate = none ∧
        (∀ r d', fuse_device_get_mpdata w' r = some d' →
          fuse_device_get_mpdata w r = some d' ∨
          (r = args.rdev ∧ d'.mount_state = FM_NOTMOUNTED ∧
            ∃ l, w'.trace = w.trace ++ l ∧ Event.send_init ∈ l)) := by
      intro _ hw
      have hsame : ∀ r, fuse_device_get_mpdata w' r = fuse_device_get_mpdata w r := by
        intro r
        unfold fuse_device_get_mpdata
        by_cases hr : r = args.rdev
        · subst hr
          rcases hw with rfl | rfl <;> simp [hdev]
        · rcases hw with rfl | rfl <;> simp [hr]
      refine ⟨?_, ?_, fun r d' hd => Or.inl ((hsame r).symm.trans hd)⟩
      · rcases hw with rfl | rfl <;> simp
      · rcases hw with rfl | rfl <;> simp
    by_cases htok : args.random = dev.random
    swap
    · unfold mount_device at h
      simp only [log_devices, setfsprivate_devices, hdev, ne_eq, htok, not_false_eq_true,
        if_true, Outcome.returned.injEq] at h
      exact early [] (Or.inr h.2.symm)
    cases hdata : dev.data with
    | none =>
      unfold mount_device at h
      simp only [log_devices, setfsprivate_devices, hdev, ne_eq, htok, not_true_eq_false,
        if_false, hdata, Outcome.returned.injEq] at h
      exact early [] (Or.inl h.2.symm)
    | some data =>
      by_cases hnm : data.mount_state = FM_NOTMOUNTED
      swap
      · unfold mount_device at h
        simp only [log_devices, setfsprivate_devices, hdev, ne_eq, htok, not_true_eq_false,
          if_false, hdata, hnm, not_false_eq_true, if_true, Outcome.returned.injEq] at h
        exact early [] (Or.inl h.2.symm)
      have hsess0 : fuse_device_get_mpdata w args.rdev = some data := by
        unfold fuse_device_get_mpdata
        rw [hdev]
        exact hdata
      by_cases hop : data.dataflags &&& FSESS_OPENED = 0
      · unfold mount_device at h
        simp only [log_devices, setfsprivate_devices, hdev, ne_eq, htok, not_true_eq_false,
          if_false, hdata, hnm, hop, if_true] at h
        obtain ⟨hc, hf, ho, -, hs, -⟩ := mount_out_returned env args.rdev false ENXIO _
          { dev with locked := false } e w' (by simp [hdev])
          (fun h0 => absurd h0 (by decide)) h he
        refine ⟨by simpa using hc, hf, ?_⟩
        intro r d' hd
        by_cases hr : r = args.rdev
        · subst hr
          rw [(hs (by decide)).2] at hd
          simp [unwound_session, hdata, hop] at hd
        · exact Or.inl (hother _ ho (fun r hr => by simp [hr]) r d' hr hd)
      have undo : ∀ (w2 : World) (err : Nat) (dM : fuse_data), err ≠ 0 →
          dM.dataflags = data.dataflags →
          ({ dM with mount_state := FM_NOTMOUNTED } : fuse_data) = data →
          w2 = fuse_device_unlock args.rdev (fuse_mount_count_add 1 (set_mpdata
            (fuse_device_lock args.rdev ((vfs_setfsprivate w none).log (.device_get args.rdev)))
            args.rdev (some dM))) →
          mount_out env (some args.rdev) true err w2 = .returned e w' →
          w'.fuse_mount_count = w.fuse_mount_count ∧ w'.mp.fsprivate = none ∧
          (∀ r d', fuse_device_get_mpdata w' r = some d' →
            fuse_device_get_mpdata w r = some d' ∨
            (r = args.rdev ∧ d'.mount_state = FM_NOTMOUNTED ∧
              ∃ l, w'.trace = w.trace ++ l ∧ Event.send_init ∈ l)) := by
        intro w2 err dM herr hflags hreset hw2 hout
        subst hw2
        obtain ⟨hc, hf, ho, -, hs, -⟩ := mount_out_returned env args.rdev true err _
          { dev with locked := false, data := some dM }
          e w' (by simp [hdev]) (fun h0 => absurd h0 herr) hout he
        refine ⟨?_, hf, ?_⟩
        · rw [hc]
          simp only [if_true, unlock_count, count_add_count, set_mpdata_count, lock_count,
            log_count, setfsprivate_count]
          exact OSAddAtomic_undo _ hcount
        · intro r d' hd
          by_cases hr : r = args.rdev
          · subst hr
            have hop' : ¬ dM.dataflags &&& FSESS_OPENED = 0 := by rw [hflags]; exact hop
            rw [(hs herr).2] at hd
            simp only [unwound_session, Option.bind, hop', if_false, Option.some.injEq] at hd
            rw [hreset] at hd
            rw [← hd]
            exact Or.inl hsess0
          · exact Or.inl (hother _ ho (fun r hr => by simp [hr]) r d' hr hd)
      by_cases hdead : data.dead = true
      · unfold mount_device at h
        simp only [log_devices, setfsprivate_devices, hdev, ne_eq, htok, not_true_eq_false,
          if_false, hdata, hnm, hop, fdata_dead_get, hdead, if_true] at h
        exact undo _ ENOTCONN
          { data with mount_state := FM_MOUNTED, dead := true, daemoncred := data.daemoncred }
          (by decide) rfl (reset_mounted_eq data true data.daemoncred hnm hdead rfl) rfl h
      cases hcred : data.daemoncred with
      | none =>
        unfold mount_device at h
        simp only [log_devices, setfsprivate_devices, hdev, ne_eq, htok, not_true_eq_false,
          if_false, hdata, hnm, hop, fdata_dead_get, hdead, hcred] at h
        simp at h
      | some uid =>
        by_cases hown : context.issuser = true ∧ context.cr_uid ≠ uid
        · unfold mount_device at h
          simp only [log_devices, setfsprivate_devices, hdev, ne_eq, htok, not_true_eq_false,
            if_false, hdata, hnm, hop, fdata_dead_get, hdead, hcred, Bool.false_eq_true] at h
          rw [if_pos (by simpa using hown)] at h
          exact undo _ EPERM
            { data with mount_state := FM_MOUNTED, dead := false, daemoncred := some uid }
            (by decide) rfl
            (reset_mounted_eq data false (some uid) hnm (by simpa using hdead) hcred) rfl h
        · obtain ⟨wH, hH, hHc, hHp, hHo, hHd, hHt⟩ := mount_device_handshake P env context args
            m a w dev data uid hdev htok hdata hnm hop (by simpa using hdead) hcred hown
          rw [hH] at h
          obtain ⟨hc, hf, ho, hs, -, l, hl⟩ := mount_out_returned env args.rdev true _ wH _ e w'
            hHd (fun _ => hHp) h he
          refine ⟨?_, hf, ?_⟩
          · rw [hc, hHc]
            simp only [if_true]
            exact OSAddAtomic_undo _ hcount
          · intro r d' hd
            by_cases hr : r = args.rdev
            · subst hr
              refine Or.inr ⟨rfl, hs d' hd, [.device_get args.rdev, .device_lock args.rdev,
                .device_unlock args.rdev, .send_init] ++ l, ?_, ?_⟩
              · rw [hl, hHt, List.append_assoc]
              · simp
            · exact Or.inl (hother _ ho hHo r d' hr hd)

theorem unwound_session_some {o : Option fuse_data} {d' : fuse_data}
    (h : unwound_session o = some d') :
    ∃ d, o = some d ∧ d' = { d with mount_state := FM_NOTMOUNTED } := by
  unfold unwound_session at h
  cases o with
  | none => simp at h
  | some x =>
    simp only [Option.bind] at h
    split at h
    · simp at h
    · simp only [Option.some.injEq] at h
      exact ⟨x, rfl, h.symm⟩

theorem mount_unwind_session (r : Nat) (mounted : Bool) (err : Nat) (w : World)
    (dev : fuse_device) (e : Nat) (w' : World) (hdev : w.devices r = some dev)
    (h : mount_unwind (some r) mounted err w = .returned e w') :
    fuse_device_get_mpdata w' r = unwound_session dev.data := by
  obtain ⟨w3, h3, -, -, -, hd, -⟩ := mount_unwind_returned r mounted err w dev hdev
  rw [h3] at h
  simp only [Outcome.returned.injEq] at h
  obtain ⟨-, rfl⟩ := h
  unfold fuse_device_get_mpdata
  rw [hd]
  rfl

theorem fuse_vfs_root_session (env : Env) (w : World) (r err : Nat) (vp : Option Nat)
    (w5 : World) (dev : fuse_device) (hp : w.mp.fsprivate = some r)
    (hdev : w.devices r = some dev) (h : fuse_vfs_root env w = .done err vp w5) :
    ∃ dev5, w5.devices r = some dev5 ∧
      (dev5.data = dev.data ∨
        ∃ d vp', dev.data = some d ∧ dev5.data = some { d with rootvp := vp' }) := by
  unfold fuse_vfs_root fuse_get_mpdata at h
  simp only [log_mp, hp] at h
  cases hd : fuse_device_get_mpdata (w.log .vfs_root) r with
  | none => rw [hd] at h; simp at h
  | some data =>
    rw [hd] at h
    simp only at h
    have hdata : dev.data = some data := by
      unfold fuse_device_get_mpdata at hd
      simpa [hdev] using hd
    cases hroot : data.rootvp with
    | some v =>
      rw [hroot] at h
      simp only [RootResult.done.injEq] at h
      obtain ⟨-, -, rfl⟩ := h
      exact ⟨dev, by simpa using hdev, Or.inl rfl⟩
    | none =>
      rw [hroot] at h
      simp only at h
      split at h
      · simp only [RootResult.done.injEq] at h
        obtain ⟨-, -, rfl⟩ := h
        exact ⟨{ dev with data := some { data with rootvp := env.node_create.2 } },
          by simp [hdev], Or.inr ⟨data, _, hdata, rfl⟩⟩
      · simp only [RootResult.done.injEq] at h
        obtain ⟨-, -, rfl⟩ := h
        exact ⟨dev, by simpa using hdev, Or.inl rfl⟩

theorem mount_out_session (env : Env) (r : Nat) (mounted : Bool) (err : Nat) (w : World)
    (dev : fuse_device) (e : Nat) (w' : World)
    (hdev : w.devices r = some dev) (hp : err = 0 → w.mp.fsprivate = some r)
    (h : mount_out env (some r) mounted err w = .returned e w') (he : e ≠ 0) :
    ∃ o, fuse_device_get_mpdata w' r = unwound_session o ∧
      (o = dev.data ∨ ∃ d vp, dev.data = some d ∧ o = some { d with rootvp := vp }) := by
  unfold mount_out at h
  by_cases herr : err ≠ 0
  · rw [if_pos herr] at h
    exact ⟨dev.data, mount_unwind_session r mounted err w dev e w' hdev h, Or.inl rfl⟩
  · rw [if_neg herr] at h
    have hp' := hp (not_not.mp herr)
    cases hroot : fuse_vfs_root env w with
    | fault w5 => rw [hroot] at h; simp at h
    | done err2 vp w5 =>
      rw [hroot] at h
      simp only at h
      obtain ⟨dev5, hdev5, hdata5⟩ := fuse_vfs_root_session env w r err2 vp w5 dev hp' hdev hroot
      by_cases herr2 : err2 ≠ 0
      · rw [if_pos herr2] at h
        refine ⟨dev5.data, mount_unwind_session r mounted err2 w5 dev5 e w' hdev5 h, ?_⟩
        rcases hdata5 with h5 | ⟨d, vp', h5, h6⟩
        · exact Or.inl h5
        · exact Or.inr ⟨d, vp', h5, h6⟩
      · rw [if_neg herr2] at h
        by_cases herr3 : env.vnode_ref_err ≠ 0
        · rw [if_pos herr3] at h
          refine ⟨dev5.data,
            mount_unwind_session r mounted _ _ dev5 e w' (by simpa using hdev5) h, ?_⟩
          rcases hdata5 with h5 | ⟨d, vp', h5, h6⟩
          · exact Or.inl h5
          · exact Or.inr ⟨d, vp', h5, h6⟩
        · rw [if_neg herr3] at h
          simp only [Outcome.returned.injEq] at h
          exact absurd h.1.symm (by rw [not_not.mp herr3] at *; exact he)

/-- Every failing return of the device phase: counter restored, private-data
pointer null, and a surviving session either the one that was there or,
after the handshake, what the handshake left of the populated session, put
in the not-mounted state. -/
theorem mount_device_residue (P : fuse_param) (env : Env) (context : vfs_context)
    (args : fuse_mount_args) (m a : Nat) (w : World) (e : Nat) (w' : World)
    (h : mount_device P env context args m a w = .returned e w') (he : e ≠ 0)
    (hcount : count_in_range w) :
    w'.fuse_mount_count = w.fuse_mount_count ∧ w'.mp.fsprivate = none ∧
    (∀ r d', fuse_device_get_mpdata w' r = some d' →
      fuse_device_get_mpdata w r = some d' ∨
      (r = args.rdev ∧ d'.mount_state = FM_NOTMOUNTED ∧
        handshake_residue P env args m a w.mp.mp_id (fuse_device_get_mpdata w args.rdev) d' ∧
        ∃ l, w'.trace = w.trace ++ l ∧ Event.send_init ∈ l)) := by
  have hother : ∀ (w2 : World), (∀ r, r ≠ args.rdev → w'.devices r = w2.devices r) →
      (∀ r, r ≠ args.rdev → w2.devices r = w.devices r) →
      ∀ r d', r ≠ args.rdev → fuse_device_get_mpdata w' r = some d' →
        fuse_device_get_mpdata w r = some d' := by
    intro w2 h1 h2 r d' hr hd
    unfold fuse_device_get_mpdata at hd ⊢
    rw [h1 r hr, h2 r hr] at hd
    exact hd
  cases hdev : w.devices args.rdev with
  | none =>
    unfold mount_device at h
    simp only [log_devices, setfsprivate_devices, hdev, Outcome.returned.injEq] at h
    obtain ⟨-, rfl⟩ := h
    exact ⟨rfl, rfl, fun r d' hd => Or.inl hd⟩
  | some dev =>
    have early : ∀ (ev : List Event),
        w' = (fuse_device_unlock args.rdev (fuse_device_lock args.rdev
          ((vfs_setfsprivate w none).log (.device_get args.rdev)))) ∨
        w' = (fuse_device_unlock args.rdev (fuse_device_lock args.rdev
          ((vfs_setfsprivate w none).log (.device_get args.rdev)))).log .iolog →
        w'.fuse_mount_count = w.fuse_mount_count ∧ w'.mp.fsprivate = none ∧
        (∀ r d', fuse_device_get_mpdata w' r = some d' →
          fuse_device_get_mpdata w r = some d' ∨
          (r = args.rdev ∧ d'.mount_state = FM_NOTMOUNTED ∧
            handshake_residue P env args m a w.mp.mp_id (fuse_device_get_mpdata w args.rdev) d' ∧
            ∃ l, w'.trace = w.trace ++ l ∧ Event.send_init ∈ l)) := by
      intro _ hw
      have hsame : ∀ r, fuse_device_get_mpdata w' r = fuse_device_get_mpdata w r := by
        intro r
        unfold fuse_device_get_mpdata
        by_cases hr : r = args.rdev
        · subst hr
          rcases hw with rfl | rfl <;> simp [hdev]
        · rcases hw with rfl | rfl <;> simp [hr]
      refine ⟨?_, ?_, fun r d' hd => Or.inl ((hsame r).symm.trans hd)⟩
      · rcases hw with rfl | rfl <;> simp
      · rcases hw with rfl | rfl <;> simp
    by_cases htok : args.random = dev.random
    swap
    · unfold mount_device at h
      simp only [log_devices, setfsprivate_devices, hdev, ne_eq, htok, not_false_eq_true,
        if_true, Outcome.returned.injEq] at h
      exact early [] (Or.inr h.2.symm)
    cases hdata : dev.data with
    | none =>
      unfold mount_device at h
      simp only [log_devices, setfsprivate_devices, hdev, ne_eq, htok, not_true_eq_false,
        if_false, hdata, Outcome.returned.injEq] at h
      exact early [] (Or.inl h.2.symm)
    | some data =>
      by_cases hnm : data.mount_state = FM_NOTMOUNTED
      swap
      · unfold mount_device at h
        simp only [log_devices, setfsprivate_devices, hdev, ne_eq, htok, not_true_eq_false,
          if_false, hdata, hnm, not_false_eq_true, if_true, Outcome.returned.injEq] at h
        exact early [] (Or.inl h.2.symm)
      have hsess0 : fuse_device_get_mpdata w args.rdev = some data := by
        unfold fuse_device_get_mpdata
        rw [hdev]
        exact hdata
      by_cases hop : data.dataflags &&& FSESS_OPENED = 0
      · unfold mount_device at h
        simp only [log_devices, setfsprivate_devices, hdev, ne_eq, htok, not_true_eq_false,
          if_false, hdata, hnm, hop, if_true] at h
        obtain ⟨hc, hf, ho, -, hs, -⟩ := mount_out_returned env args.rdev false ENXIO _
          { dev with locked := false } e w' (by simp [hdev])
          (fun h0 => absurd h0 (by decide)) h he
        refine ⟨by simpa using hc, hf, ?_⟩
        intro r d' hd
        by_cases hr : r = args.rdev
        · subst hr
          rw [(hs (by decide)).2] at hd
          simp [unwound_session, hdata, hop] at hd
        · exact Or.inl (hother _ ho (fun r hr => by simp [hr]) r d' hr hd)
      have undo : ∀ (w2 : World) (err : Nat) (dM : fuse_data), err ≠ 0 →
          dM.dataflags = data.dataflags →
          ({ dM with mount_state := FM_NOTMOUNTED } : fuse_data) = data →
          w2 = fuse_device_unlock args.rdev (fuse_mount_count_add 1 (set_mpdata
            (fuse_device_lock args.rdev ((vfs_setfsprivate w none).log (.device_get args.rdev)))
            args.rdev (some dM))) →
          mount_out env (some args.rdev) true err w2 = .returned e w' →
          w'.fuse_mount_count = w.fuse_mount_count ∧ w'.mp.fsprivate = none ∧
          (∀ r d', fuse_device_get_mpdata w' r = some d' →
            fuse_device_get_mpdata w r = some d' ∨
            (r = args.rdev ∧ d'.mount_state = FM_NOTMOUNTED ∧
              handshake_residue P env args m a w.mp.mp_id (fuse_device_get_mpdata w args.rdev) d' ∧
              ∃ l, w'.trace = w.trace ++ l ∧ Event.send_init ∈ l)) := by
        intro w2 err dM herr hflags hreset hw2 hout
        subst hw2
        obtain ⟨hc, hf, ho, -, hs, -⟩ := mount_out_returned env args.rdev true err _
          { dev with locked := false, data := some dM }
          e w' (by simp [hdev]) (fun h0 => absurd h0 herr) hout he
        refine ⟨?_, hf, ?_⟩
        · rw [hc]
          simp only [if_true, unlock_count, count_add_count, set_mpdata_count, lock_count,
            log_count, setfsprivate_count]
          exact OSAddAtomic_undo _ hcount
        · intro r d' hd
          by_cases hr : r = args.rdev
          · subst hr
            have hop' : ¬ dM.dataflags &&& FSESS_OPENED = 0 := by rw [hflags]; exact hop
            rw [(hs herr).2] at hd
            simp only [unwound_session, Option.bind, hop', if_false, Option.some.injEq] at hd
            rw [hreset] at hd
            rw [← hd]
            exact Or.inl hsess0
          · exact Or.inl (hother _ ho (fun r hr => by simp [hr]) r d' hr hd)
      by_cases hdead : data.dead = true
      · unfold mount_device at h
        simp only [log_devices, setfsprivate_devices, hdev, ne_eq, htok, not_true_eq_false,
          if_false, hdata, hnm, hop, fdata_dead_get, hdead, if_true] at h
        exact undo _ ENOTCONN
          { data with mount_state := FM_MOUNTED, dead := true, daemoncred := data.daemoncred }
          (by decide) rfl (reset_mounted_eq data true data.daemoncred hnm hdead rfl) rfl h
      cases hcred : data.daemoncred with
      | none =>
        unfold mount_device at h
        simp only [log_devices, setfsprivate_devices, hdev, ne_eq, htok, not_true_eq_false,
          if_false, hdata, hnm, hop, fdata_dead_get, hdead, hcred] at h
        simp at h
      | some uid =>
        by_cases hown : context.issuser = true ∧ context.cr_uid ≠ uid
        · unfold mount_device at h
          simp only [log_devices, setfsprivate_devices, hdev, ne_eq, htok, not_true_eq_false,
            if_false, hdata, hnm, hop, fdata_dead_get, hdead, hcred, Bool.false_eq_true] at h
          rw [if_pos (by simpa using hown)] at h
          exact undo _ EPERM
            { data with mount_state := FM_MOUNTED, dead := false, daemoncred := some uid }
            (by decide) rfl
            (reset_mounted_eq data false (some uid) hnm (by simpa using hdead) hcred) rfl h
        · obtain ⟨wH, hH, hHc, hHp, hHo, hHd, hHt⟩ := mount_device_handshake P env context args
            m a w dev data uid hdev htok hdata hnm hop (by simpa using hdead) hcred hown
          rw [hH] at h
          obtain ⟨hc, hf, ho, hs, -, l, hl⟩ := mount_out_returned env args.rdev true _ wH _ e w'
            hHd (fun _ => hHp) h he
          obtain ⟨o, ho1, ho2⟩ := mount_out_session env args.rdev true _ wH _ e w'
            hHd (fun _ => hHp) h he
          refine ⟨?_, hf, ?_⟩
          · rw [hc, hHc]
            simp only [if_true]
            exact OSAddAtomic_undo _ hcount
          · intro r d' hd
            by_cases hr : r = args.rdev
            · subst hr
              refine Or.inr ⟨rfl, hs d' hd, ?_, [.device_get args.rdev, .device_lock args.rdev,
                .device_unlock args.rdev, .send_init] ++ l, ?_, ?_⟩
              · rw [ho1] at hd
                obtain ⟨x, hx, rfl⟩ := unwound_session_some hd
                rcases ho2 with rfl | ⟨d, vp, hd2, rfl⟩
                · exact ⟨data, x, x.rootvp, hsess0, hx, rfl⟩
                · simp only [Option.some.injEq] at hx
                  subst hx
                  exact ⟨data, d, vp, hsess0, hd2, rfl⟩
              · rw [hl, hHt, List.append_assoc]
              · simp
            · exact Or.inl (hother _ ho hHo r d' hr hd)


/-! ## Claims on failed mounts -/

/-- C7 (amended): after a call of `fuse_vfs_mount` that returns a non-zero
error, the active-mount counter has its value on entry; the private-data
pointer is null or was not touched; and every session that exists afterwards
either is exactly the session that was there before the call (same mount
state, option flags, timeouts, sizes, volume name and binding), or belongs
to the requested channel and the handshake had been sent.  In that case it
is the session the handshake left, put in the not-mounted state, with at
most the root-node handle set in addition: the handshake was handed the
session found on the channel as the mount had populated it (the decoded
option flags added, the request's timeouts, the bounded sizes, the copied
volume name, the mount descriptor and the channel bound), and nothing puts
back what the session held before the call. -/
theorem failed_mount_residue (P : fuse_param) (env : Env) (context : vfs_context)
    (args : fuse_mount_args) (w : World) (e : Nat) (w' : World)
    (hret : fuse_vfs_mount P env context args w = .returned e w') (he : e ≠ 0)
    (hcount : count_in_range w) :
    w'.fuse_mount_count = w.fuse_mount_count ∧
    (w'.mp.fsprivate = none ∨ w'.mp.fsprivate = w.mp.fsprivate) ∧
    (∀ r d', fuse_device_get_mpdata w' r = some d' →
      fuse_device_get_mpdata w r = some d' ∨
      (r = args.rdev ∧ d'.mount_state = FM_NOTMOUNTED ∧
        (∃ d dH vp, fuse_device_get_mpdata w args.rdev = some d ∧
          (env.fuse_internal_send_init (handshake_session P env context args w d)).2 =
            some dH ∧
          d' = { dH with rootvp := vp, mount_state := FM_NOTMOUNTED }) ∧
        ∃ l, w'.trace = w.trace ++ l ∧ Event.send_init ∈ l)) ∧
    (∀ d, (handshake_session P env context args w d).dataflags =
        d.dataflags ||| (mount_options P env context args w).mntopts ∧
      (handshake_session P env context args w d).daemon_timeout = args.daemon_timeout ∧
      (handshake_session P env context args w d).init_timeout = args.init_timeout ∧
      (handshake_session P env context args w d).blocksize =
        P.fuse_round_size args.blocksize P.FUSE_MIN_BLOCKSIZE P.FUSE_MAX_BLOCKSIZE ∧
      (handshake_session P env context args w d).iosize =
        max (P.fuse_round_size args.iosize P.FUSE_MIN_IOSIZE P.FUSE_MAX_IOSIZE)
          (P.fuse_round_size args.blocksize P.FUSE_MIN_BLOCKSIZE P.FUSE_MAX_BLOCKSIZE) ∧
      (handshake_session P env context args w d).volname = copy_name args.volname MAXPATHLEN ∧
      (handshake_session P env context args w d).mp = some w.mp.mp_id ∧
      (handshake_session P env context args w d).fdev = some args.rdev) := by
  have hfields : (∀ d, (handshake_session P env context args w d).dataflags =
          d.dataflags ||| (mount_options P env context args w).mntopts ∧
        (handshake_session P env context args w d).daemon_timeout = args.daemon_timeout ∧
        (handshake_session P env context args w d).init_timeout = args.init_timeout ∧
        (handshake_session P env context args w d).blocksize =
          P.fuse_round_size args.blocksize P.FUSE_MIN_BLOCKSIZE P.FUSE_MAX_BLOCKSIZE ∧
        (handshake_session P env context args w d).iosize =
          max (P.fuse_round_size args.iosize P.FUSE_MIN_IOSIZE P.FUSE_MAX_IOSIZE)
            (P.fuse_round_size args.blocksize P.FUSE_MIN_BLOCKSIZE P.FUSE_MAX_BLOCKSIZE) ∧
        (handshake_session P env context args w d).volname = copy_name args.volname MAXPATHLEN ∧
        (handshake_session P env context args w d).mp = some w.mp.mp_id ∧
        (handshake_session P env context args w d).fdev = some args.rdev) := by
    intro d
    refine ⟨rfl, rfl, rfl, rfl, ?_, rfl, rfl, rfl⟩
    show (if _ < _ then _ else _) = max _ _
    split <;> omega
  have hmain : w'.fuse_mount_count = w.fuse_mount_count ∧
      (w'.mp.fsprivate = none ∨ w'.mp.fsprivate = w.mp.fsprivate) ∧
      (∀ r d', fuse_device_get_mpdata w' r = some d' →
        fuse_device_get_mpdata w r = some d' ∨
        (r = args.rdev ∧ d'.mount_state = FM_NOTMOUNTED ∧
          (∃ d dH vp, fuse_device_get_mpdata w args.rdev = some d ∧
            (env.fuse_internal_send_init (handshake_session P env context args w d)).2 =
              some dH ∧
            d' = { dH with rootvp := vp, mount_state := FM_NOTMOUNTED }) ∧
          ∃ l, w'.trace = w.trace ++ l ∧ Event.send_init ∈ l)) := by
    unfold fuse_vfs_mount at hret
    by_cases hupd : vfs_isupdate w = true
    · rw [if_pos hupd] at hret
      simp only [Outcome.returned.injEq] at hret
      obtain ⟨-, rfl⟩ := hret
      exact ⟨rfl, Or.inr rfl, fun r d' hd => Or.inl hd⟩
    rw [if_neg hupd] at hret
    by_cases hcopy : env.copyin_err ≠ 0
    · rw [if_pos hcopy] at hret
      simp only [Outcome.returned.injEq] at hret
      obtain ⟨-, rfl⟩ := hret
      exact ⟨rfl, Or.inr rfl, fun r d' hd => Or.inl hd⟩
    rw [if_neg hcopy] at hret
    have hchar := mount_options_char P env context args w
    rcases hopt : mount_options P env context args w with ⟨e1, w1⟩ | ⟨e1, w1⟩ | ⟨m, a, w1⟩
    · rw [hopt] at hret hchar
      simp only [Outcome.returned.injEq] at hret
      obtain ⟨-, rfl⟩ := hret
      obtain ⟨⟨hd, hc, -, -, hf, -⟩, -, -⟩ := hchar
      refine ⟨hc, Or.inr hf, fun r d' hd' => Or.inl ?_⟩
      unfold fuse_device_get_mpdata at hd' ⊢
      rw [hd] at hd'
      exact hd'
    · rw [hopt] at hret hchar
      obtain ⟨rfl, -⟩ := hchar
      simp [mount_out, mount_unwind, EPERM] at hret
    · rw [hopt] at hret hchar
      simp only at hret
      obtain ⟨⟨hd, hc, -, -, hf, hid⟩, ht, -⟩ := hchar
      have hcount1 : count_in_range w1 := by
        unfold count_in_range at hcount ⊢
        rw [hc]
        exact hcount
      obtain ⟨h1, h2, h3⟩ := mount_device_residue P env context args m a w1 e w' hret he hcount1
      refine ⟨h1.trans hc, Or.inl h2, ?_⟩
      intro r d' hd'
      have hsame : ∀ r, fuse_device_get_mpdata w1 r = fuse_device_get_mpdata w r := by
        intro r
        unfold fuse_device_get_mpdata
        rw [hd]
      rcases h3 r d' hd' with h4 | ⟨hr, hnm, hres, l, hl, hsend⟩
      · exact Or.inl ((hsame r).symm.trans h4)
      · refine Or.inr ⟨hr, hnm, ?_, l, by rw [hl, ht], hsend⟩
        obtain ⟨d, dH, vp, hd0, hH, hd'eq⟩ := hres
        refine ⟨d, dH, vp, (hsame args.rdev).symm.trans hd0, ?_, hd'eq⟩
        unfold handshake_session
        rw [hopt, ← hid]
        exact hH
  exact ⟨hmain.1, hmain.2.1, hmain.2.2, hfields⟩

/-- Witness for C7: on the concrete channel the handshake fails with
`ENOTCONN` after the daemon side has rewritten the session. -/
theorem failed_mount_residue_witness :
    (fuse_vfs_mount demo_param rewriting_env demo_context (demo_args 0)
      demo_world).world.fuse_mount_count = demo_world.fuse_mount_count ∧
    (∀ r d', fuse_device_get_mpdata (fuse_vfs_mount demo_param rewriting_env demo_context
        (demo_args 0) demo_world).world r = some d' →
      fuse_device_get_mpdata demo_world r = some d' ∨
      (r = (demo_args 0).rdev ∧ d'.mount_state = FM_NOTMOUNTED ∧
        (∃ d dH vp, fuse_device_get_mpdata demo_world (demo_args 0).rdev = some d ∧
          (rewriting_env.fuse_internal_send_init
            (handshake_session demo_param rewriting_env demo_context (demo_args 0) demo_world
              d)).2 = some dH ∧
          d' = { dH with rootvp := vp, mount_state := FM_NOTMOUNTED }) ∧
        ∃ l, (fuse_vfs_mount demo_param rewriting_env demo_context (demo_args 0)
          demo_world).world.trace = demo_world.trace ++ l ∧ Event.send_init ∈ l)) :=
  ⟨(failed_mount_residue demo_param rewriting_env demo_context (demo_args 0) demo_world
      ENOTCONN _ rfl (by decide) (by decide)).1,
   (failed_mount_residue demo_param rewriting_env demo_context (demo_args 0) demo_world
      ENOTCONN _ rfl (by decide) (by decide)).2.2.1⟩

/-- A handshake that fails after the daemon side has rewritten the session:
the failed mount leaves the rewritten fields (option flags `FSESS_OPENED`,
daemon timeout 7), neither those the mount wrote nor all of those the
session held before the call. -/
theorem handshake_rewrite_survives :
    (fuse_vfs_mount demo_param rewriting_env demo_context
      (demo_args FUSE_MOPT_JAIL_SYMLINKS) demo_world).err? = some ENOTCONN ∧
    (fuse_device_get_mpdata (fuse_vfs_mount demo_param rewriting_env demo_context
      (demo_args FUSE_MOPT_JAIL_SYMLINKS) demo_world).world 0).map
        (fun d => (d.mount_state, d.dataflags, d.daemon_timeout, d.init_timeout, d.mp)) =
      some (FM_NOTMOUNTED, FSESS_OPENED, 7, 10, some 1) := by
  refine ⟨by decide, by decide⟩

/-- C7 as stated fails.  A handshake that fails with `ENOTCONN` while the
daemon keeps the channel open leaves the session with the option flags,
timeouts, sizes and binding the mount wrote, not those it had before; a
mount refused with `EALREADY` leaves the session of the existing mount
mounted; and an update-remount refused with `ENOTSUP` leaves the
private-data pointer of the existing mount in place. -/
theorem failed_mount_leaves_state :
    (fuse_vfs_mount demo_param (demo_env ENOTCONN) demo_context
      (demo_args FUSE_MOPT_JAIL_SYMLINKS) demo_world).err? = some ENOTCONN ∧
    (fuse_device_get_mpdata (fuse_vfs_mount demo_param (demo_env ENOTCONN) demo_context
      (demo_args FUSE_MOPT_JAIL_SYMLINKS) demo_world).world 0).map
        (fun d => (d.dataflags, d.daemon_timeout, d.init_timeout, d.blocksize, d.iosize, d.mp)) =
      some (FSESS_OPENED ||| FSESS_JAIL_SYMLINKS, 60, 10, 512, 512, some 1) ∧
    (fuse_device_get_mpdata demo_world 0).map
        (fun d => (d.dataflags, d.daemon_timeout, d.init_timeout, d.blocksize, d.iosize, d.mp)) =
      some (FSESS_OPENED, 0, 0, 0, 0, none) ∧
    (fuse_vfs_mount demo_param (demo_env 0) demo_context (demo_args 0)
      second_mount_world).err? = some EALREADY ∧
    (fuse_device_get_mpdata (fuse_vfs_mount demo_param (demo_env 0) demo_context (demo_args 0)
      second_mount_world).world 0).map (fun d => d.mount_state) = some FM_MOUNTED ∧
    (fuse_vfs_mount demo_param (demo_env 0) demo_context (demo_args 0) update_world).err? =
      some ENOTSUP ∧
    (fuse_vfs_mount demo_param (demo_env 0) demo_context (demo_args 0)
      update_world).world.mp.fsprivate = some 0 := by
  refine ⟨by decide, by decide, by decide, by decide, by decide, by decide, by decide⟩

/-! ## Unmount -/

theorem unmount_alreadydead_eq (p : Nat) (rootvp : Option Nat) (data : fuse_data) (w : World)
    (dev : fuse_device) (hdev : w.devices p = some dev) :
    ∃ w', unmount_alreadydead p (some p) rootvp data w = .returned 0 w' ∧
      w'.fuse_mount_count = OSAddAtomic (-1) w.fuse_mount_count ∧
      w'.mp.fsprivate = none ∧
      (∀ r, r ≠ p → w'.devices r = w.devices r) ∧
      w'.devices p = some { dev with locked := false, data := torn_down_session data } ∧
      w'.trace = w.trace ++ teardown_events p rootvp data := by
  unfold unmount_alreadydead
  simp only [log_devices, set_mpdata_devices, if_true, hdev, Option.map_some']
  refine ⟨_, rfl, ?_, ?_, ?_, ?_, ?_⟩
  · split <;> split <;> simp
  · split <;> split <;> simp
  · intro r hr
    split <;> split <;> simp [hr]
  · unfold torn_down_session
    split <;> split <;> simp [hdev]
  · unfold teardown_events
    split <;> split <;> simp_all

theorem fuse_get_mpdata_mounted {w : World} {p : Nat} {dev : fuse_device} {data : fuse_data}
    (hm : mounted_on w p dev data) : fuse_get_mpdata w = some (p, data) := by
  obtain ⟨h1, h2, h3, -⟩ := hm
  unfold fuse_get_mpdata fuse_device_get_mpdata
  simp [h1, h2, h3]

theorem unmount_flags_or (mntflags : Nat) : unmount_flags mntflags ||| FORCECLOSE = FORCECLOSE := by
  unfold unmount_flags
  split <;> decide

theorem unmount_flags_forced {mntflags : Nat} (h : mntflags &&& MNT_FORCE ≠ 0) :
    unmount_flags mntflags = FORCECLOSE := by
  unfold unmount_flags
  rw [if_pos h]
  decide

theorem unmount_flags_unforced {mntflags : Nat} (h : mntflags &&& MNT_FORCE = 0) :
    unmount_flags mntflags = 0 := by
  unfold unmount_flags
  rw [if_neg (by simpa using h)]

/-- Unmount of a session that is dead on entry (lines 479-493, then 500-512). -/
theorem unmount_dead (env : Env) (mntflags : Nat) (w : World) (p : Nat) (dev : fuse_device)
    (data : fuse_data) (hm : mounted_on w p dev data) (hdead : data.dead = true) :
    fuse_vfs_unmount env mntflags w =
      if env.vflush data.rootvp FORCECLOSE ≠ 0 then
        .returned (env.vflush data.rootvp FORCECLOSE)
          ((w.log .iolog).log (.vflush data.rootvp FORCECLOSE))
      else unmount_alreadydead p (some p) data.rootvp data
          ((w.log .iolog).log (.vflush data.rootvp FORCECLOSE)) := by
  unfold fuse_vfs_unmount
  have hfl : (if mntflags &&& MNT_FORCE ≠ 0 then 0 ||| FORCECLOSE else 0) =
      unmount_flags mntflags := rfl
  simp only [fuse_get_mpdata_mounted hm, hfl, fdata_dead_get, hdead, if_true, unmount_flags_or,
    hm.2.2.2]
  split
  · rfl
  · rw [if_neg (by simp [FORCECLOSE])]

/-- Unmount of a live session that never completed the handshake (lines
494-498, then 500-512). -/
theorem unmount_uninit (env : Env) (mntflags : Nat) (w : World) (p : Nat) (dev : fuse_device)
    (data : fuse_data) (hm : mounted_on w p dev data) (hdead : data.dead = false)
    (hinit : data.dataflags &&& FSESS_INITED = 0) :
    fuse_vfs_unmount env mntflags w =
      if env.vflush data.rootvp FORCECLOSE ≠ 0 then
        .returned (env.vflush data.rootvp FORCECLOSE)
          (((set_mpdata (w.log .iolog) p (some (fdata_set_dead data))).log .set_dead).log
            (.vflush data.rootvp FORCECLOSE))
      else unmount_alreadydead p (some p) data.rootvp (fdata_set_dead data)
          (((set_mpdata (w.log .iolog) p (some (fdata_set_dead data))).log .set_dead).log
            (.vflush data.rootvp FORCECLOSE)) := by
  unfold fuse_vfs_unmount
  have hfl : (if mntflags &&& MNT_FORCE ≠ 0 then 0 ||| FORCECLOSE else 0) =
      unmount_flags mntflags := rfl
  simp only [fuse_get_mpdata_mounted hm, hfl, fdata_dead_get, hdead, Bool.false_eq_true,
    if_false, hinit, if_true, unmount_flags_or, hm.2.2.2]
  have h1 : (fdata_set_dead data).rootvp = data.rootvp := rfl
  have h2 : (fdata_set_dead data).dead = true := rfl
  have h3 : (fdata_set_dead data).fdev = some p := hm.2.2.2
  simp only [h1, h2, h3, if_true]
  split
  · rfl
  · rw [if_neg (by simp [FORCECLOSE])]

/-- Unmount of a live, initialized session (lines 500-529). -/
theorem unmount_live (env : Env) (mntflags : Nat) (w : World) (p : Nat) (dev : fuse_device)
    (data : fuse_data) (hm : mounted_on w p dev data) (hdead : data.dead = false)
    (hinit : data.dataflags &&& FSESS_INITED ≠ 0) :
    fuse_vfs_unmount env mntflags w =
      if env.vflush data.rootvp (unmount_flags mntflags) ≠ 0 then
        .returned (env.vflush data.rootvp (unmount_flags mntflags))
          (w.log (.vflush data.rootvp (unmount_flags mntflags)))
      else if env.vnode_isinuse data.rootvp = true ∧
          unmount_flags mntflags &&& FORCECLOSE = 0 then
        .returned EBUSY (w.log (.vflush data.rootvp (unmount_flags mntflags)))
      else
        unmount_alreadydead p (some p) data.rootvp (fdata_set_dead (env.fdisp_wait_answ data).2)
          ((set_mpdata
            (if (env.fdisp_wait_answ data).1 = 0 then
              (set_mpdata ((w.log (.vflush data.rootvp (unmount_flags mntflags))).log
                .destroy_submit) p (some (env.fdisp_wait_answ data).2)).log .ticket_drop
            else
              set_mpdata ((w.log (.vflush data.rootvp (unmount_flags mntflags))).log
                .destroy_submit) p (some (env.fdisp_wait_answ data).2))
            p (some (fdata_set_dead (env.fdisp_wait_answ data).2))).log .set_dead) := by
  unfold fuse_vfs_unmount
  have hfl : (if mntflags &&& MNT_FORCE ≠ 0 then 0 ||| FORCECLOSE else 0) =
      unmount_flags mntflags := rfl
  simp only [fuse_get_mpdata_mounted hm, hfl, fdata_dead_get, hdead, Bool.false_eq_true,
    if_false, hinit, hm.2.2.2]

/-! ## Claims on unmount -/

/-- C8: with the root node in use elsewhere and a flush that reports no
error, a forced `fuse_vfs_unmount` returns 0; an unforced one on a live,
initialized session returns `EBUSY` having only called the flush: no
termination request, and the device table (so the session's liveness, mount
state and root handle), the mount descriptor (so its private-data pointer)
and the active-mount counter are unchanged. -/
theorem busy_root_unmount (env : Env) (mntflags : Nat) (w : World) (p : Nat)
    (dev : fuse_device) (data : fuse_data) (hm : mounted_on w p dev data)
    (hbusy : env.vnode_isinuse data.rootvp = true)
    (hflush : ∀ fl, env.vflush data.rootvp fl = 0) :
    (mntflags &&& MNT_FORCE ≠ 0 → ∃ w', fuse_vfs_unmount env mntflags w = .returned 0 w') ∧
    (mntflags &&& MNT_FORCE = 0 → data.dead = false → data.dataflags &&& FSESS_INITED ≠ 0 →
      ∃ w', fuse_vfs_unmount env mntflags w = .returned EBUSY w' ∧
        w'.devices = w.devices ∧ w'.mp = w.mp ∧ w'.fuse_mount_count = w.fuse_mount_count ∧
        w'.trace = w.trace ++ [.vflush data.rootvp 0]) := by
  have hdev := hm.2.1
  constructor
  · intro hforce
    by_cases hdead : data.dead = true
    · rw [unmount_dead env mntflags w p dev data hm hdead, hflush, if_neg (by simp)]
      obtain ⟨w', h, -⟩ := unmount_alreadydead_eq p data.rootvp data
        ((w.log .iolog).log (.vflush data.rootvp FORCECLOSE)) dev (by simpa using hdev)
      exact ⟨w', h⟩
    have hdead' : data.dead = false := by simpa using hdead
    by_cases hinit : data.dataflags &&& FSESS_INITED = 0
    · rw [unmount_uninit env mntflags w p dev data hm hdead' hinit, hflush, if_neg (by simp)]
      obtain ⟨w', h, -⟩ := unmount_alreadydead_eq p data.rootvp (fdata_set_dead data)
        (((set_mpdata (w.log .iolog) p (some (fdata_set_dead data))).log .set_dead).log
          (.vflush data.rootvp FORCECLOSE)) { dev with data := some (fdata_set_dead data) }
        (by simp [hdev])
      exact ⟨w', h⟩
    · rw [unmount_live env mntflags w p dev data hm hdead' hinit, hflush, if_neg (by simp),
        if_neg (by rw [unmount_flags_forced hforce]; simp [FORCECLOSE])]
      refine Exists.imp (fun _ h => h.1) (unmount_alreadydead_eq p data.rootvp _ _
        { dev with data := some (fdata_set_dead (env.fdisp_wait_answ data).2) } ?_)
      split <;> simp [hdev]
  · intro hforce hdead hinit
    rw [unmount_live env mntflags w p dev data hm hdead hinit, hflush, if_neg (by simp),
      if_pos ⟨hbusy, by rw [unmount_flags_unforced hforce]; rfl⟩, unmount_flags_unforced hforce]
    exact ⟨_, rfl, rfl, rfl, rfl, rfl⟩

theorem mounted_world_mounted : mounted_on mounted_world 0 mounted_device mounted_session :=
  ⟨rfl, rfl, rfl, rfl⟩

theorem dead_world_mounted :
    mounted_on dead_world 0 { mounted_device with data := some (fdata_set_dead mounted_session) }
      (fdata_set_dead mounted_session) :=
  ⟨rfl, rfl, rfl, rfl⟩

/-- Witness for C8: an unforced unmount of the concrete mounted setting while
the root node is in use. -/
theorem busy_root_unmount_witness :
    ∃ w', fuse_vfs_unmount (busy_env 0) 0 mounted_world = .returned EBUSY w' ∧
      w'.devices = mounted_world.devices ∧ w'.mp = mounted_world.mp ∧
      w'.fuse_mount_count = mounted_world.fuse_mount_count ∧
      w'.trace = mounted_world.trace ++ [.vflush mounted_session.rootvp 0] :=
  (busy_root_unmount (busy_env 0) 0 mounted_world 0 mounted_device mounted_session
    mounted_world_mounted rfl (fun _ => rfl)).2 (by decide) (by decide) (by decide)

/-- C9: when the session is dead on entry, or lacks the initialized flag,
`fuse_vfs_unmount` runs with forced semantics whatever flags the caller
gave: the flush is issued with `FORCECLOSE` and its result is the result
of the call (the busy-root check cannot yield `EBUSY`); a never-initialized
session is marked dead before the flush (and is dead even when the flush
fails); and no `DESTROY` request is submitted. -/
theorem forced_when_dead_or_uninit (env : Env) (mntflags : Nat) (w : World) (p : Nat)
    (dev : fuse_device) (data : fuse_data) (hm : mounted_on w p dev data)
    (h : data.dead = true ∨ data.dataflags &&& FSESS_INITED = 0) :
    ∃ w', fuse_vfs_unmount env mntflags w =
        .returned (env.vflush data.rootvp FORCECLOSE) w' ∧
      w'.trace = w.trace ++ [.iolog] ++ (if data.dead = true then [] else [.set_dead]) ++
        [.vflush data.rootvp FORCECLOSE] ++
        (if env.vflush data.rootvp FORCECLOSE ≠ 0 then []
          else teardown_events p data.rootvp data) ∧
      (data.dead = false → env.vflush data.rootvp FORCECLOSE ≠ 0 →
        fuse_device_get_mpdata w' p = some (fdata_set_dead data)) ∧
      (∀ ev ∈ w'.trace, ev = .destroy_submit → ev ∈ w.trace) := by
  have hdev := hm.2.1
  have hnodestroy : ∀ (w' : World) (l : List Event), w'.trace = w.trace ++ l →
      Event.destroy_submit ∉ l → ∀ ev ∈ w'.trace, ev = .destroy_submit → ev ∈ w.trace := by
    intro w' l hl hn ev hev he
    rw [hl, List.mem_append] at hev
    rcases hev with hev | hev
    · exact hev
    · rw [he] at hev; exact absurd hev hn
  have htd : ∀ (d : fuse_data), Event.destroy_submit ∉ teardown_events p data.rootvp d := by
    intro d
    unfold teardown_events
    split <;> split <;> simp
  by_cases hdead : data.dead = true
  · rw [unmount_dead env mntflags w p dev data hm hdead]
    by_cases hfl : env.vflush data.rootvp FORCECLOSE ≠ 0
    · rw [if_pos hfl]
      refine ⟨_, rfl, by simp [hdead, hfl], fun h0 => by simp [hdead] at h0, ?_⟩
      exact hnodestroy _ [.iolog, .vflush data.rootvp FORCECLOSE] (by simp) (by simp)
    · rw [if_neg hfl]
      obtain ⟨w', hw, -, -, -, -, ht⟩ := unmount_alreadydead_eq p data.rootvp data
        ((w.log .iolog).log (.vflush data.rootvp FORCECLOSE)) dev (by simpa using hdev)
      rw [not_not.mp hfl]
      refine ⟨w', hw, ?_, fun h0 => by simp [hdead] at h0, ?_⟩
      · rw [ht]; simp [hdead]
      · refine hnodestroy w' ([.iolog, .vflush data.rootvp FORCECLOSE] ++
          teardown_events p data.rootvp data) (by rw [ht]; simp) ?_
        simp only [List.mem_append, not_or]
        exact ⟨by simp, htd data⟩
  · have hdead' : data.dead = false := by simpa using hdead
    have hinit : data.dataflags &&& FSESS_INITED = 0 := h.resolve_left hdead
    rw [unmount_uninit env mntflags w p dev data hm hdead' hinit]
    by_cases hfl : env.vflush data.rootvp FORCECLOSE ≠ 0
    · rw [if_pos hfl]
      refine ⟨_, rfl, by simp [hdead', hfl], fun _ _ => ?_, ?_⟩
      · simp [fuse_device_get_mpdata, hdev]
      · exact hnodestroy _ [.iolog, .set_dead, .vflush data.rootvp FORCECLOSE] (by simp)
          (by simp)
    · rw [if_neg hfl]
      obtain ⟨w', hw, -, -, -, -, ht⟩ := unmount_alreadydead_eq p data.rootvp
        (fdata_set_dead data)
        (((set_mpdata (w.log .iolog) p (some (fdata_set_dead data))).log .set_dead).log
          (.vflush data.rootvp FORCECLOSE)) { dev with data := some (fdata_set_dead data) }
        (by simp [hdev])
      have hte : teardown_events p data.rootvp (fdata_set_dead data) =
          teardown_events p data.rootvp data := rfl
      rw [not_not.mp hfl]
      refine ⟨w', hw, ?_, fun _ h0 => absurd rfl h0, ?_⟩
      · rw [ht, hte]; simp [hdead']
      · refine hnodestroy w' ([.iolog, .set_dead, .vflush data.rootvp FORCECLOSE] ++
          teardown_events p data.rootvp data) (by rw [ht, hte]; simp) ?_
        simp only [List.mem_append, not_or]
        exact ⟨by simp, htd data⟩

/-- Witness for C9: an unforced unmount request on the concrete setting after
the daemon has died. -/
theorem forced_when_dead_or_uninit_witness :
    ∃ w', fuse_vfs_unmount (busy_env 0) 0 dead_world =
        .returned ((busy_env 0).vflush (fdata_set_dead mounted_session).rootvp FORCECLOSE) w' ∧
      w'.trace = dead_world.trace ++ [.iolog] ++
        (if (fdata_set_dead mounted_session).dead = true then [] else [.set_dead]) ++
        [.vflush (fdata_set_dead mounted_session).rootvp FORCECLOSE] ++
        (if (busy_env 0).vflush (fdata_set_dead mounted_session).rootvp FORCECLOSE ≠ 0 then []
          else teardown_events 0 (fdata_set_dead mounted_session).rootvp
            (fdata_set_dead mounted_session)) ∧
      ((fdata_set_dead mounted_session).dead = false →
        (busy_env 0).vflush (fdata_set_dead mounted_session).rootvp FORCECLOSE ≠ 0 →
        fuse_device_get_mpdata w' 0 = some (fdata_set_dead (fdata_set_dead mounted_session))) ∧
      (∀ ev ∈ w'.trace, ev = .destroy_submit → ev ∈ dead_world.trace) :=
  forced_when_dead_or_uninit (busy_env 0) 0 dead_world 0
    { mounted_device with data := some (fdata_set_dead mounted_session) }
    (fdata_set_dead mounted_session) dead_world_mounted (Or.inl rfl)

theorem teardown_events_counts (p : Nat) (rootvp : Option Nat) (d : fuse_data) :
    (teardown_events p rootvp d).count .destroy_submit = 0 ∧
    (teardown_events p rootvp d).count .ticket_drop = 0 := by
  unfold teardown_events
  split <;> split <;> simp [List.count_cons]

theorem torn_down_session_state {data d : fuse_data}
    (h : torn_down_session (fdata_set_dead data) = some d) :
    d.dead = true ∧ d.rootvp = none ∧ d.mount_state = FM_NOTMOUNTED := by
  unfold torn_down_session at h
  split at h
  · simp at h
  · simp only [Option.some.injEq] at h
    rw [← h]
    exact ⟨rfl, rfl, rfl⟩

/-- C10: the unmount of a live, initialized session that passes the flush
and the busy-root check submits exactly one `DESTROY` request, returns 0, and
ends in the torn-down state (private-data pointer null, counter decremented,
the session finalized with its channel or else dead, root handle cleared,
not-mounted) that depends on the answer to `DESTROY` only through what the
wait left of the session, not through its error; the ticket is dropped once
when the wait succeeded and not at all when it failed. -/
theorem destroy_best_effort (env : Env) (mntflags : Nat) (w : World) (p : Nat)
    (dev : fuse_device) (data : fuse_data) (hm : mounted_on w p dev data)
    (hdead : data.dead = false) (hinit : data.dataflags &&& FSESS_INITED ≠ 0)
    (hflush : env.vflush data.rootvp (unmount_flags mntflags) = 0)
    (hbusy : ¬ (env.vnode_isinuse data.rootvp = true ∧
      unmount_flags mntflags &&& FORCECLOSE = 0)) :
    ∃ w' l, fuse_vfs_unmount env mntflags w = .returned 0 w' ∧
      w'.trace = w.trace ++ l ∧
      l = [.vflush data.rootvp (unmount_flags mntflags), .destroy_submit] ++
        (if (env.fdisp_wait_answ data).1 = 0 then [.ticket_drop] else []) ++ [.set_dead] ++
        teardown_events p data.rootvp (env.fdisp_wait_answ data).2 ∧
      l.count .destroy_submit = 1 ∧
      l.count .ticket_drop = (if (env.fdisp_wait_answ data).1 = 0 then 1 else 0) ∧
      fuse_device_get_mpdata w' p =
        torn_down_session (fdata_set_dead (env.fdisp_wait_answ data).2) ∧
      (∀ d, fuse_device_get_mpdata w' p = some d →
        d.dead = true ∧ d.rootvp = none ∧ d.mount_state = FM_NOTMOUNTED) ∧
      w'.mp.fsprivate = none ∧
      w'.fuse_mount_count = OSAddAtomic (-1) w.fuse_mount_count := by
  have hdev := hm.2.1
  rw [unmount_live env mntflags w p dev data hm hdead hinit, hflush, if_neg (by simp),
    if_neg hbusy]
  obtain ⟨w', hw, hc, hf, -, hd, ht⟩ := unmount_alreadydead_eq p data.rootvp
    (fdata_set_dead (env.fdisp_wait_answ data).2)
    ((set_mpdata
      (if (env.fdisp_wait_answ data).1 = 0 then
        (set_mpdata ((w.log (.vflush data.rootvp (unmount_flags mntflags))).log
          .destroy_submit) p (some (env.fdisp_wait_answ data).2)).log .ticket_drop
      else
        set_mpdata ((w.log (.vflush data.rootvp (unmount_flags mntflags))).log
          .destroy_submit) p (some (env.fdisp_wait_answ data).2))
      p (some (fdata_set_dead (env.fdisp_wait_answ data).2))).log .set_dead)
    { dev with data := some (fdata_set_dead (env.fdisp_wait_answ data).2) }
    (by split <;> simp [hdev])
  have hte : teardown_events p data.rootvp (fdata_set_dead (env.fdisp_wait_answ data).2) =
      teardown_events p data.rootvp (env.fdisp_wait_answ data).2 := rfl
  have hcounts := teardown_events_counts p data.rootvp (env.fdisp_wait_answ data).2
  have hsess : fuse_device_get_mpdata w' p =
      torn_down_session (fdata_set_dead (env.fdisp_wait_answ data).2) := by
    unfold fuse_device_get_mpdata
    rw [hd]
    rfl
  refine ⟨w', _, hw, ?_, rfl, ?_, ?_, hsess, ?_, hf, ?_⟩
  · rw [ht, hte]
    split <;> simp
  · split <;> simp [List.count_cons, hcounts.1]
  · split <;> simp [List.count_cons, hcounts.2]
  · intro d hd'
    rw [hsess] at hd'
    exact torn_down_session_state hd'
  · rw [hc]
    split <;> simp

/-- Witness for C10: an unforced unmount of the concrete mounted setting
with an idle root node. -/
theorem destroy_best_effort_witness :
    ∃ w' l, fuse_vfs_unmount (demo_env 0) 0 mounted_world = .returned 0 w' ∧
      w'.trace = mounted_world.trace ++ l ∧
      l = [.vflush mounted_session.rootvp (unmount_flags 0), .destroy_submit] ++
        (if ((demo_env 0).fdisp_wait_answ mounted_session).1 = 0 then [.ticket_drop] else []) ++
        [.set_dead] ++
        teardown_events 0 mounted_session.rootvp
          ((demo_env 0).fdisp_wait_answ mounted_session).2 ∧
      l.count .destroy_submit = 1 ∧
      l.count .ticket_drop =
        (if ((demo_env 0).fdisp_wait_answ mounted_session).1 = 0 then 1 else 0) ∧
      fuse_device_get_mpdata w' 0 =
        torn_down_session (fdata_set_dead ((demo_env 0).fdisp_wait_answ mounted_session).2) ∧
      (∀ d, fuse_device_get_mpdata w' 0 = some d →
        d.dead = true ∧ d.rootvp = none ∧ d.mount_state = FM_NOTMOUNTED) ∧
      w'.mp.fsprivate = none ∧
      w'.fuse_mount_count = OSAddAtomic (-1) mounted_world.fuse_mount_count :=
  destroy_best_effort (demo_env 0) 0 mounted_world 0 mounted_device mounted_session
    mounted_world_mounted (by decide) (by decide) (by decide) (by decide)

/-! ## Claims on timeouts, the custom file-system id and the size hints -/

/-- C20: a non-update mount request with `daemon_timeout` or `init_timeout`
outside its bounds returns `EINVAL` with the kernel state exactly as on entry
(so before any device channel is looked up or locked), whatever the other
arguments, the caller and the answers of the collaborators. -/
theorem timeouts_checked_first (P : fuse_param) (env : Env) (context : vfs_context)
    (args : fuse_mount_args) (w : World)
    (hupd : vfs_isupdate w = false) (ht : timeouts_out_of_range P args) :
    fuse_vfs_mount P env context args w = .returned EINVAL w := by
  unfold fuse_vfs_mount
  rw [hupd]
  simp only [Bool.false_eq_true, if_false]
  split
  · rfl
  · unfold mount_options
    rw [opt_timeouts_bad P args w ht]
    rfl

/-- Witness for C20: an init timeout of 0 where the minimum is 1. -/
theorem timeouts_checked_first_witness :
    fuse_vfs_mount demo_param (demo_env 0) superuser_context
        { demo_args 0 with init_timeout := 0 } demo_world = .returned EINVAL demo_world :=
  timeouts_checked_first demo_param (demo_env 0) superuser_context
    { demo_args 0 with init_timeout := 0 } demo_world (by decide) (by decide)

/-- C18 (code defect): a request for a custom file-system id that an active
mount uses does not return `EPERM`.  Control goes to label `out` with the
local device pointer still null, where the unwind locks and reads that
device: the call ends in a fault instead of a return.  Without the custom
id the same request mounts, with the fresh id the kernel allocated. -/
theorem fsid_collision_faults :
    fsid_in_use demo_param fsid_taken_env fsid_args ∧
    (mount_options demo_param fsid_taken_env demo_context fsid_args demo_world).isNext = false ∧
    (fuse_vfs_mount demo_param fsid_taken_env demo_context fsid_args demo_world).err? = none ∧
    (fuse_vfs_mount demo_param fsid_taken_env demo_context (demo_args 0) demo_world).err? =
      some 0 ∧
    (fuse_vfs_mount demo_param fsid_taken_env demo_context (demo_args 0)
      demo_world).world.mp.f_fsid = fsid_taken_env.vfs_getnewfsid := by
  refine ⟨by decide, by decide, by decide, by decide, by decide⟩

/-- C19: a mount request that reaches session population hands the handshake
a session with `blocksize` the bounded block-size hint and `iosize` the
larger of the bounded I/O-size hint and `blocksize`, hence
`iosize >= blocksize`.  With a clamping bound function, block bounds
`[512, 65536]` and an I/O minimum not above 512, a block-size hint of 100
gives `blocksize = 512` and an I/O-size hint of 256 gives `iosize = 512`. -/
theorem populated_sizes (P : fuse_param) (env : Env) (context : vfs_context)
    (args : fuse_mount_args) (w : World) (dev : fuse_device) (data : fuse_data) (uid : Nat)
    (hupd : vfs_isupdate w = false) (hcopy : env.copyin_err = 0)
    (hopt : (mount_options P env context args w).isNext = true)
    (hdev : w.devices args.rdev = some dev) (htok : args.random = dev.random)
    (hdata : dev.data = some data) (hnm : data.mount_state = FM_NOTMOUNTED)
    (hop : data.dataflags &&& FSESS_OPENED ≠ 0) (halive : data.dead = false)
    (hcred : data.daemoncred = some uid)
    (hown : ¬ (context.issuser = true ∧ context.cr_uid ≠ uid)) :
    (∃ wH, fuse_vfs_mount P env context args w =
        mount_out env (some args.rdev) true
          (env.fuse_internal_send_init (handshake_session P env context args w data)).1 wH ∧
      fuse_device_get_mpdata wH args.rdev =
        (env.fuse_internal_send_init (handshake_session P env context args w data)).2) ∧
    (handshake_session P env context args w data).blocksize =
      P.fuse_round_size args.blocksize P.FUSE_MIN_BLOCKSIZE P.FUSE_MAX_BLOCKSIZE ∧
    (handshake_session P env context args w data).iosize =
      max (P.fuse_round_size args.iosize P.FUSE_MIN_IOSIZE P.FUSE_MAX_IOSIZE)
        (handshake_session P env context args w data).blocksize ∧
    (handshake_session P env context args w data).blocksize ≤
      (handshake_session P env context args w data).iosize ∧
    (P.fuse_round_size = clamp_size → P.FUSE_MIN_BLOCKSIZE = 512 →
      P.FUSE_MAX_BLOCKSIZE = 65536 → P.FUSE_MIN_IOSIZE ≤ 512 →
      args.blocksize = 100 → args.iosize = 256 →
      (handshake_session P env context args w data).blocksize = 512 ∧
      (handshake_session P env context args w data).iosize = 512) := by
  obtain ⟨hmount, hq, -⟩ := fuse_vfs_mount_next P env context args w hupd hcopy hopt
  obtain ⟨hqd, -, -, -, -, hqid⟩ := hq
  obtain ⟨wH, hH, -, -, -, hHd, -⟩ := mount_device_handshake P env context args
    (mount_options P env context args w).mntopts (mount_options P env context args w).altflags
    (mount_options P env context args w).world dev data uid (by rw [hqd]; exact hdev) htok hdata
    hnm hop halive hcred hown
  rw [hqid] at hH hHd
  have hb : (handshake_session P env context args w data).blocksize =
      P.fuse_round_size args.blocksize P.FUSE_MIN_BLOCKSIZE P.FUSE_MAX_BLOCKSIZE := rfl
  have hi : (handshake_session P env context args w data).iosize =
      max (P.fuse_round_size args.iosize P.FUSE_MIN_IOSIZE P.FUSE_MAX_IOSIZE)
        (handshake_session P env context args w data).blocksize := by
    rw [hb]
    show (if _ < _ then _ else _) = _
    split <;> omega
  refine ⟨⟨wH, hmount.trans hH, ?_⟩, hb, hi, ?_, ?_⟩
  · unfold fuse_device_get_mpdata
    rw [hHd]
    rfl
  · rw [hi]
    exact le_max_right _ _
  · intro hR h1 h2 h3 h4 h5
    rw [hi, hb, hR, h1, h2, h4, h5]
    unfold clamp_size
    simp only [show (100 : Nat) < 512 by decide, if_true]
    refine ⟨trivial, ?_⟩
    split
    · omega
    · split <;> omega

/-- Witness for C19: the concrete request has hints 100 and 256. -/
theorem populated_sizes_witness :
    (handshake_session demo_param (demo_env 0) demo_context (demo_args 0) demo_world
      demo_session).blocksize = 512 ∧
    (handshake_session demo_param (demo_env 0) demo_context (demo_args 0) demo_world
      demo_session).iosize = 512 :=
  (populated_sizes demo_param (demo_env 0) demo_context (demo_args 0) demo_world demo_device
    demo_session 501 (by decide) (by decide) (by decide) (by decide) (by decide) (by decide)
    (by decide) (by decide) (by decide) (by decide) (by decide)).2.2.2.2 rfl rfl rfl
    (by decide) rfl rfl

/-! ## Claims on failed unmounts and on mount followed by unmount -/

theorem unmount_alreadydead_zero (p : Nat) (rootvp : Option Nat) (data : fuse_data) (w : World)
    (dev : fuse_device) (hdev : w.devices p = some dev) (e : Nat) (w' : World)
    (h : unmount_alreadydead p (some p) rootvp data w = .returned e w') : e = 0 := by
  obtain ⟨w2, h2, -⟩ := unmount_alreadydead_eq p rootvp data w dev hdev
  rw [h2] at h
  simp only [Outcome.returned.injEq] at h
  exact h.1.symm

/-- C11 (amended): a `fuse_vfs_unmount` that returns a non-zero error,
whatever flags the caller gave and so in particular without the force flag,
has only called the flush: the mount descriptor (with its
private-data pointer), the active-mount counter, every other channel, and the
session's mount state, root handle and option flags are as on entry; the
liveness flag is as on entry too, except that a live session which never
completed the handshake has been marked dead. -/
theorem unforced_unmount_failure (env : Env) (mntflags : Nat) (w : World) (p : Nat)
    (dev : fuse_device) (data : fuse_data) (e : Nat) (w' : World)
    (hm : mounted_on w p dev data)
    (hret : fuse_vfs_unmount env mntflags w = .returned e w') (he : e ≠ 0) :
    w'.mp = w.mp ∧ w'.fuse_mount_count = w.fuse_mount_count ∧
    (∀ r, r ≠ p → w'.devices r = w.devices r) ∧
    fuse_device_get_mpdata w' p = some (escalated_session data) ∧
    (escalated_session data).mount_state = data.mount_state ∧
    (escalated_session data).rootvp = data.rootvp ∧
    (escalated_session data).dataflags = data.dataflags ∧
    ((data.dead = true ∨ data.dataflags &&& FSESS_INITED ≠ 0) → escalated_session data = data) ∧
    (∀ ev ∈ w'.trace, ev = .destroy_submit → ev ∈ w.trace) := by
  have hdev := hm.2.1
  have hsess : fuse_device_get_mpdata w p = some data := by
    unfold fuse_device_get_mpdata
    rw [hdev]
    exact hm.2.2.1
  have hfields : (escalated_session data).mount_state = data.mount_state ∧
      (escalated_session data).rootvp = data.rootvp ∧
      (escalated_session data).dataflags = data.dataflags := by
    unfold escalated_session
    split <;> exact ⟨rfl, rfl, rfl⟩
  have hkeep : (data.dead = true ∨ data.dataflags &&& FSESS_INITED ≠ 0) →
      escalated_session data = data := by
    intro h
    unfold escalated_session
    rw [if_neg]
    rintro ⟨h1, h2⟩
    rcases h with h | h
    · rw [h1] at h; exact absurd h (by decide)
    · exact h h2
  by_cases hdead : data.dead = true
  · rw [unmount_dead env mntflags w p dev data hm hdead] at hret
    split at hret
    · simp only [Outcome.returned.injEq] at hret
      obtain ⟨-, rfl⟩ := hret
      refine ⟨rfl, rfl, fun _ _ => rfl, ?_, hfields.1, hfields.2.1, hfields.2.2, hkeep, ?_⟩
      · rw [hkeep (Or.inl hdead)]
        exact hsess
      · intro ev hev hd
        simp only [log_trace, List.mem_append, List.mem_singleton] at hev
        rcases hev with (hev | hev) | hev
        · exact hev
        · rw [hd] at hev; simp at hev
        · rw [hd] at hev; simp at hev
    · exact absurd (unmount_alreadydead_zero p _ _ _ dev (by simpa using hdev) e w' hret) he
  have hdead' : data.dead = false := by simpa using hdead
  by_cases hinit : data.dataflags &&& FSESS_INITED = 0
  · rw [unmount_uninit env mntflags w p dev data hm hdead' hinit] at hret
    split at hret
    · simp only [Outcome.returned.injEq] at hret
      obtain ⟨-, rfl⟩ := hret
      have hesc : escalated_session data = fdata_set_dead data := by
        unfold escalated_session
        rw [if_pos ⟨hdead', hinit⟩]
      refine ⟨rfl, rfl, ?_, ?_, hfields.1, hfields.2.1, hfields.2.2, hkeep, ?_⟩
      · intro r hr; simp [hr]
      · rw [hesc]
        simp [fuse_device_get_mpdata, hdev]
      · intro ev hev hd
        simp only [log_trace, set_mpdata_trace, List.mem_append, List.mem_singleton] at hev
        rcases hev with ((hev | hev) | hev) | hev
        · exact hev
        · rw [hd] at hev; simp at hev
        · rw [hd] at hev; simp at hev
        · rw [hd] at hev; simp at hev
    · exact absurd (unmount_alreadydead_zero p _ _ _
        { dev with data := some (fdata_set_dead data) } (by simp [hdev]) e w' hret) he
  · rw [unmount_live env mntflags w p dev data hm hdead' hinit] at hret
    have hfinal : w' = w.log (.vflush data.rootvp (unmount_flags mntflags)) := by
      split at hret
      · simp only [Outcome.returned.injEq] at hret
        exact hret.2.symm
      · split at hret
        · simp only [Outcome.returned.injEq] at hret
          exact hret.2.symm
        · refine absurd (unmount_alreadydead_zero p _ _ _
            { dev with data := some (fdata_set_dead (env.fdisp_wait_answ data).2) } ?_ e w'
            hret) he
          split <;> simp [hdev]
    subst hfinal
    refine ⟨rfl, rfl, fun _ _ => rfl, ?_, hfields.1, hfields.2.1, hfields.2.2, hkeep, ?_⟩
    · rw [hkeep (Or.inr hinit)]
      exact hsess
    · intro ev hev hd
      simp only [log_trace, List.mem_append, List.mem_singleton] at hev
      rcases hev with hev | hev
      · exact hev
      · rw [hd] at hev; simp at hev

/-- Witness for C11: the unforced unmount of the concrete mounted setting
that fails with `EBUSY` because the root node is in use. -/
theorem unforced_unmount_failure_witness :
    (fuse_vfs_unmount (busy_env 0) 0 mounted_world).world.mp = mounted_world.mp ∧
    (fuse_vfs_unmount (busy_env 0) 0 mounted_world).world.fuse_mount_count =
      mounted_world.fuse_mount_count ∧
    (∀ r, r ≠ 0 → (fuse_vfs_unmount (busy_env 0) 0 mounted_world).world.devices r =
      mounted_world.devices r) ∧
    fuse_device_get_mpdata (fuse_vfs_unmount (busy_env 0) 0 mounted_world).world 0 =
      some (escalated_session mounted_session) ∧
    (escalated_session mounted_session).mount_state = mounted_session.mount_state ∧
    (escalated_session mounted_session).rootvp = mounted_session.rootvp ∧
    (escalated_session mounted_session).dataflags = mounted_session.dataflags ∧
    ((mounted_session.dead = true ∨ mounted_session.dataflags &&& FSESS_INITED ≠ 0) →
      escalated_session mounted_session = mounted_session) ∧
    (∀ ev ∈ (fuse_vfs_unmount (busy_env 0) 0 mounted_world).world.trace,
      ev = .destroy_submit → ev ∈ mounted_world.trace) :=
  unforced_unmount_failure (busy_env 0) 0 mounted_world 0 mounted_device mounted_session EBUSY _
    mounted_world_mounted rfl (by decide)

/-- C11 as stated fails: the unforced unmount of a live session that never
completed the handshake, with a flush that fails with `EBUSY`, returns `EBUSY`
and has marked the session dead. -/
theorem failed_unmount_marks_dead :
    (0 : Nat) &&& MNT_FORCE = 0 ∧
    (fuse_device_get_mpdata uninit_world 0).map (fun d => d.dead) = some false ∧
    (fuse_vfs_unmount flush_fail_env 0 uninit_world).err? = some EBUSY ∧
    (fuse_device_get_mpdata (fuse_vfs_unmount flush_fail_env 0 uninit_world).world 0).map
      (fun d => d.dead) = some true := by
  refine ⟨by decide, by decide, by decide, by decide⟩

theorem mount_unwind_err (r : Nat) (mounted : Bool) (err : Nat) (w : World)
    (hdev : (w.devices r).isSome = true) (e : Nat) (w' : World)
    (h : mount_unwind (some r) mounted err w = .returned e w') : e = err := by
  obtain ⟨dev, hd⟩ := Option.isSome_iff_exists.mp hdev
  obtain ⟨w2, h2, -⟩ := mount_unwind_returned r mounted err w dev hd
  rw [h2] at h
  simp only [Outcome.returned.injEq] at h
  exact h.1.symm

/-- A mount that ends at label `out` and returns 0 came in without error,
resolved the root node and took its reference; counter and private-data
pointer are as they were at the label. -/
theorem mount_out_success (env : Env) (r : Nat) (mounted : Bool) (err : Nat) (w : World)
    (dev : fuse_device) (w1 : World) (hdev : w.devices r = some dev)
    (hp : w.mp.fsprivate = some r)
    (h : mount_out env (some r) mounted err w = .returned 0 w1) :
    err = 0 ∧ w1.fuse_mount_count = w.fuse_mount_count ∧ w1.mp.fsprivate = some r ∧
    ∃ l, w1.trace = w.trace ++ l := by
  unfold mount_out at h
  by_cases herr : err ≠ 0
  · rw [if_pos herr] at h
    exact absurd (mount_unwind_err r mounted err w (by simp [hdev]) 0 w1 h).symm herr
  · rw [if_neg herr] at h
    cases hroot : fuse_vfs_root env w with
    | fault w5 => rw [hroot] at h; simp at h
    | done err2 vp w5 =>
      rw [hroot] at h
      simp only at h
      obtain ⟨h5c, h5f, -, h5d, l5, h5t, -⟩ := fuse_vfs_root_done env w r err2 vp w5 hp hroot
      obtain ⟨dev5, hdev5⟩ := h5d dev hdev
      by_cases herr2 : err2 ≠ 0
      · rw [if_pos herr2] at h
        exact absurd (mount_unwind_err r mounted err2 w5 (by simp [hdev5]) 0 w1 h).symm herr2
      · rw [if_neg herr2] at h
        by_cases herr3 : env.vnode_ref_err ≠ 0
        · rw [if_pos herr3] at h
          exact absurd (mount_unwind_err r mounted _ _ (by simp [hdev5]) 0 w1 h).symm herr3
        · rw [if_neg herr3] at h
          simp only [Outcome.returned.injEq] at h
          obtain ⟨-, rfl⟩ := h
          refine ⟨not_not.mp herr, by simpa using h5c, by simpa [hp] using h5f,
            l5 ++ [.vnode_ref vp, .vnode_put vp], ?_⟩
          simp [h5t, List.append_assoc]

/-- A device phase that returns 0 went through the handshake: the counter
is one atomic increment up and the private-data pointer names the channel. -/
theorem mount_device_success (P : fuse_param) (env : Env) (context : vfs_context)
    (args : fuse_mount_args) (m a : Nat) (w : World) (w1 : World)
    (h : mount_device P env context args m a w = .returned 0 w1) :
    w1.fuse_mount_count = OSAddAtomic 1 w.fuse_mount_count ∧
    w1.mp.fsprivate = some args.rdev ∧
    ∃ l, w1.trace = w.trace ++ l ∧ Event.send_init ∈ l := by
  cases hdev : w.devices args.rdev with
  | none =>
    unfold mount_device at h
    simp [hdev, EINVAL] at h
  | some dev =>
    by_cases htok : args.random = dev.random
    swap
    · unfold mount_device at h
      simp [hdev, htok, EINVAL] at h
    cases hdata : dev.data with
    | none =>
      unfold mount_device at h
      simp [hdev, htok, hdata, ENXIO] at h
    | some data =>
      by_cases hnm : data.mount_state = FM_NOTMOUNTED
      swap
      · unfold mount_device at h
        simp [hdev, htok, hdata, hnm, EALREADY] at h
      by_cases hop : data.dataflags &&& FSESS_OPENED = 0
      · unfold mount_device at h
        simp only [log_devices, setfsprivate_devices, hdev, ne_eq, htok, not_true_eq_false,
          if_false, hdata, hnm, hop, if_true] at h
        rw [mount_out_err _ _ _ _ _ (by decide)] at h
        exact absurd (mount_unwind_err args.rdev false ENXIO _ (by simp [hdev]) 0 w1 h)
          (by decide)
      by_cases hdead : data.dead = true
      · unfold mount_device at h
        simp only [log_devices, setfsprivate_devices, hdev, ne_eq, htok, not_true_eq_false,
          if_false, hdata, hnm, hop, fdata_dead_get, hdead, if_true] at h
        rw [mount_out_err _ _ _ _ _ (by decide)] at h
        exact absurd (mount_unwind_err args.rdev true ENOTCONN _ (by simp [hdev]) 0 w1 h)
          (by decide)
      cases hcred : data.daemoncred with
      | none =>
        unfold mount_device at h
        simp only [log_devices, setfsprivate_devices, hdev, ne_eq, htok, not_true_eq_false,
          if_false, hdata, hnm, hop, fdata_dead_get, hdead, hcred] at h
        simp at h
      | some uid =>
        by_cases hown : context.issuser = true ∧ context.cr_uid ≠ uid
        · unfold mount_device at h
          simp only [log_devices, setfsprivate_devices, hdev, ne_eq, htok, not_true_eq_false,
            if_false, hdata, hnm, hop, fdata_dead_get, hdead, hcred, Bool.false_eq_true] at h
          rw [if_pos (by simpa using hown), mount_out_err _ _ _ _ _ (by decide)] at h
          exact absurd (mount_unwind_err args.rdev true EPERM _ (by simp [hdev]) 0 w1 h)
            (by decide)
        · obtain ⟨wH, hH, hHc, hHp, -, hHd, hHt⟩ := mount_device_handshake P env context args
            m a w dev data uid hdev htok hdata hnm hop (by simpa using hdead) hcred hown
          rw [hH] at h
          obtain ⟨-, hc, hf, l, hl⟩ := mount_out_success env args.rdev true _ wH _ w1 hHd hHp h
          refine ⟨hc.trans hHc, hf, [.device_get args.rdev, .device_lock args.rdev,
            .device_unlock args.rdev, .send_init] ++ l, ?_, by simp⟩
          rw [hl, hHt, List.append_assoc]

/-- A successful `fuse_vfs_mount`: one atomic increment of the counter, and
the private-data pointer names the requested channel. -/
theorem fuse_vfs_mount_success (P : fuse_param) (env : Env) (context : vfs_context)
    (args : fuse_mount_args) (w w1 : World)
    (h : fuse_vfs_mount P env context args w = .returned 0 w1) :
    w1.fuse_mount_count = OSAddAtomic 1 w.fuse_mount_count ∧
    w1.mp.fsprivate = some args.rdev ∧
    ∃ l, w1.trace = w.trace ++ l ∧ Event.send_init ∈ l := by
  unfold fuse_vfs_mount at h
  by_cases hupd : vfs_isupdate w = true
  · rw [if_pos hupd] at h
    simp [ENOTSUP] at h
  rw [if_neg hupd] at h
  by_cases hcopy : env.copyin_err ≠ 0
  · rw [if_pos hcopy] at h
    simp [EINVAL] at h
  rw [if_neg hcopy] at h
  have hchar := mount_options_char P env context args w
  rcases hopt : mount_options P env context args w with ⟨e1, w0⟩ | ⟨e1, w0⟩ | ⟨m, a, w0⟩
  · rw [hopt] at h hchar
    simp only [Outcome.returned.injEq] at h
    obtain ⟨rfl, -⟩ := h
    obtain ⟨-, -, hcase⟩ := hchar
    rcases hcase with ⟨he, -⟩ | ⟨he, -⟩
    · exact absurd he (by decide)
    · exact absurd he (by decide)
  · rw [hopt] at h hchar
    obtain ⟨rfl, -⟩ := hchar
    simp [mount_out, mount_unwind, EPERM] at h
  · rw [hopt] at h hchar
    simp only at h
    obtain ⟨⟨-, hc, -⟩, ht, -⟩ := hchar
    obtain ⟨h1, h2, l, hl, hs⟩ := mount_device_success P env context args m a w0 w1 h
    exact ⟨by rw [h1, hc], h2, l, by rw [hl, ht], hs⟩

theorem teardown_events_close_final (p : Nat) (rootvp : Option Nat) (d : fuse_data) :
    Event.device_close_final p ∈ teardown_events p rootvp d ↔
      d.dataflags &&& FSESS_OPENED = 0 := by
  unfold teardown_events
  split <;> split <;> simp_all

/-- A successful `fuse_vfs_unmount` went through the local teardown: one
atomic decrement of the counter, private-data pointer null, and the channel
finalized exactly when the session lacks `FSESS_OPENED` at that point. -/
theorem unmount_success (env : Env) (mntflags : Nat) (w : World) (p : Nat) (dev : fuse_device)
    (data : fuse_data) (w' : World) (hm : mounted_on w p dev data)
    (h : fuse_vfs_unmount env mntflags w = .returned 0 w') :
    w'.fuse_mount_count = OSAddAtomic (-1) w.fuse_mount_count ∧ w'.mp.fsprivate = none ∧
    fuse_device_get_mpdata w' p = torn_down_session (session_at_teardown env data) ∧
    ∃ l, w'.trace = w.trace ++ l ∧
      (Event.device_close_final p ∈ l ↔
        (session_at_teardown env data).dataflags &&& FSESS_OPENED = 0) := by
  have hdev := hm.2.1
  have finish : ∀ (dT : fuse_data) (w0 : World) (dev0 : fuse_device) (pre : List Event),
      w0.devices p = some dev0 → w0.fuse_mount_count = w.fuse_mount_count →
      w0.trace = w.trace ++ pre → Event.device_close_final p ∉ pre →
      session_at_teardown env data = dT →
      unmount_alreadydead p (some p) data.rootvp dT w0 = .returned 0 w' →
      w'.fuse_mount_count = OSAddAtomic (-1) w.fuse_mount_count ∧ w'.mp.fsprivate = none ∧
      fuse_device_get_mpdata w' p = torn_down_session (session_at_teardown env data) ∧
      ∃ l, w'.trace = w.trace ++ l ∧
        (Event.device_close_final p ∈ l ↔
          (session_at_teardown env data).dataflags &&& FSESS_OPENED = 0) := by
    intro dT w0 dev0 pre hd0 hc0 ht0 hpre hdT hu
    obtain ⟨w2, h2, hc, hf, -, hd, ht⟩ := unmount_alreadydead_eq p data.rootvp dT w0 dev0 hd0
    rw [h2] at hu
    simp only [Outcome.returned.injEq, true_and] at hu
    subst hu
    refine ⟨by rw [hc, hc0], hf, ?_, pre ++ teardown_events p data.rootvp dT, ?_, ?_⟩
    · unfold fuse_device_get_mpdata
      rw [hd, hdT]
      rfl
    · rw [ht, ht0, List.append_assoc]
    · rw [List.mem_append, hdT, ← teardown_events_close_final p data.rootvp dT]
      constructor
      · rintro (hx | hx)
        · exact absurd hx hpre
        · exact hx
      · exact fun hx => Or.inr hx
  by_cases hdead : data.dead = true
  · rw [unmount_dead env mntflags w p dev data hm hdead] at h
    split at h
    · rename_i hfl
      simp only [Outcome.returned.injEq] at h
      exact absurd h.1 hfl
    · refine finish data _ dev [.iolog, .vflush data.rootvp FORCECLOSE] ?_ ?_ ?_ ?_ ?_ h
      · simpa using hdev
      · rfl
      · simp
      · simp
      · simp [session_at_teardown, hdead]
  have hdead' : data.dead = false := by simpa using hdead
  by_cases hinit : data.dataflags &&& FSESS_INITED = 0
  · rw [unmount_uninit env mntflags w p dev data hm hdead' hinit] at h
    split at h
    · rename_i hfl
      simp only [Outcome.returned.injEq] at h
      exact absurd h.1 hfl
    · refine finish (fdata_set_dead data) _ { dev with data := some (fdata_set_dead data) }
        [.iolog, .set_dead, .vflush data.rootvp FORCECLOSE] ?_ ?_ ?_ ?_ ?_ h
      · simp [hdev]
      · rfl
      · simp
      · simp
      · simp [session_at_teardown, hdead', hinit]
  · rw [unmount_live env mntflags w p dev data hm hdead' hinit] at h
    split at h
    · rename_i hfl
      simp only [Outcome.returned.injEq] at h
      exact absurd h.1 hfl
    · split at h
      · simp [EBUSY] at h
      · refine finish (fdata_set_dead (env.fdisp_wait_answ data).2) _
          { dev with data := some (fdata_set_dead (env.fdisp_wait_answ data).2) }
          ([.vflush data.rootvp (unmount_flags mntflags), .destroy_submit] ++
            (if (env.fdisp_wait_answ data).1 = 0 then [.ticket_drop] else []) ++ [.set_dead])
          ?_ ?_ ?_ ?_ ?_ h
        · split <;> simp [hdev]
        · split <;> simp
        · split <;> simp
        · split <;> simp
        · simp [session_at_teardown, hdead', hinit]

theorem torn_down_session_fields {x d : fuse_data} (h : torn_down_session x = some d) :
    d.mount_state = FM_NOTMOUNTED ∧ d.rootvp = none := by
  unfold torn_down_session at h
  split at h
  · simp at h
  · simp only [Option.some.injEq] at h
    rw [← h]
    exact ⟨rfl, rfl⟩

theorem OSAddAtomic_succ (c : Int) (h1 : -(2 ^ 31 : Int) ≤ c) (h2 : c + 1 < 2 ^ 31) :
    OSAddAtomic 1 c = c + 1 := by
  unfold OSAddAtomic
  omega

theorem OSAddAtomic_pred (c : Int) (h1 : -(2 ^ 31 : Int) < c) (h2 : c < 2 ^ 31) :
    OSAddAtomic (-1) c = c - 1 := by
  unfold OSAddAtomic
  omega

/-- C12: a successful `fuse_vfs_mount` increments the active-mount counter
by one (one atomic 32-bit increment, `+ 1` below the type's maximum) and a
successful `fuse_vfs_unmount` decrements it by one, so mount followed at once
by unmount leaves the counter at its value before the mount.  After the
unmount the private-data pointer is null, a session that remains on the
channel is not-mounted with a null root handle, and the channel has been
finalized exactly when the session, as the teardown found it, no longer
carried `FSESS_OPENED` (then no session remains).  The session is taken to
name the requested channel as its own when the mount returns. -/
theorem mount_then_unmount (P : fuse_param) (env : Env) (context : vfs_context)
    (args : fuse_mount_args) (w w1 : World) (env2 : Env) (mntflags : Nat) (w2 : World)
    (hmount : fuse_vfs_mount P env context args w = .returned 0 w1)
    (hunmount : fuse_vfs_unmount env2 mntflags w1 = .returned 0 w2)
    (hfdev : ∀ d, fuse_device_get_mpdata w1 args.rdev = some d → d.fdev = some args.rdev)
    (hcount : count_in_range w) :
    w1.fuse_mount_count = OSAddAtomic 1 w.fuse_mount_count ∧
    (w.fuse_mount_count + 1 < 2 ^ 31 → w1.fuse_mount_count = w.fuse_mount_count + 1) ∧
    w2.fuse_mount_count = OSAddAtomic (-1) w1.fuse_mount_count ∧
    (w.fuse_mount_count + 1 < 2 ^ 31 → w2.fuse_mount_count = w1.fuse_mount_count - 1) ∧
    w2.fuse_mount_count = w.fuse_mount_count ∧
    w2.mp.fsprivate = none ∧
    (∀ d, fuse_device_get_mpdata w2 args.rdev = some d →
      d.mount_state = FM_NOTMOUNTED ∧ d.rootvp = none) ∧
    ∃ d1 l, fuse_device_get_mpdata w1 args.rdev = some d1 ∧ w2.trace = w1.trace ++ l ∧
      (Event.device_close_final args.rdev ∈ l ↔
        (session_at_teardown env2 d1).dataflags &&& FSESS_OPENED = 0) ∧
      fuse_device_get_mpdata w2 args.rdev = torn_down_session (session_at_teardown env2 d1) := by
  obtain ⟨hc1, hp1, -⟩ := fuse_vfs_mount_success P env context args w w1 hmount
  have hsess : ∃ dev1 d1, mounted_on w1 args.rdev dev1 d1 := by
    cases hdev : w1.devices args.rdev with
    | none =>
      unfold fuse_vfs_unmount at hunmount
      simp [fuse_get_mpdata, fuse_device_get_mpdata, hp1, hdev] at hunmount
    | some dev1 =>
      cases hd : dev1.data with
      | none =>
        unfold fuse_vfs_unmount at hunmount
        simp [fuse_get_mpdata, fuse_device_get_mpdata, hp1, hdev, hd] at hunmount
      | some d1 =>
        refine ⟨dev1, d1, hp1, hdev, hd, hfdev d1 ?_⟩
        simp [fuse_device_get_mpdata, hdev, hd]
  obtain ⟨dev1, d1, hm⟩ := hsess
  obtain ⟨hc2, hp2, hs2, l, hl, hclose⟩ :=
    unmount_success env2 mntflags w1 args.rdev dev1 d1 w2 hm hunmount
  have hround : w2.fuse_mount_count = w.fuse_mount_count := by
    rw [hc2, hc1]
    exact OSAddAtomic_undo _ hcount
  have hget1 : fuse_device_get_mpdata w1 args.rdev = some d1 := by
    simp [fuse_device_get_mpdata, hm.2.1, hm.2.2.1]
  refine ⟨hc1, ?_, hc2, ?_, hround, hp2, ?_, d1, l, hget1, hl, hclose, hs2⟩
  · intro h
    rw [hc1]
    exact OSAddAtomic_succ _ hcount.1 h
  · intro h
    rw [hround, hc1, OSAddAtomic_succ _ hcount.1 h]
    omega
  · intro d hd
    rw [hs2] at hd
    exact torn_down_session_fields hd

/-- Witness for C12: the concrete mount, unmounted at once without force. -/
theorem mount_then_unmount_witness :
    (fuse_vfs_unmount (demo_env 0) 0 mounted_world).world.fuse_mount_count =
      demo_world.fuse_mount_count ∧
    (fuse_vfs_unmount (demo_env 0) 0 mounted_world).world.mp.fsprivate = none :=
  ⟨(mount_then_unmount demo_param (demo_env 0) demo_context (demo_args 0) demo_world
      mounted_world (demo_env 0) 0 _ rfl rfl
      (fun d h => by
        rw [show fuse_device_get_mpdata mounted_world (demo_args 0).rdev = some mounted_session
          from rfl] at h
        cases h
        rfl) (by decide)).2.2.2.2.1,
   (mount_then_unmount demo_param (demo_env 0) demo_context (demo_args 0) demo_world
      mounted_world (demo_env 0) 0 _ rfl rfl
      (fun d h => by
        rw [show fuse_device_get_mpdata mounted_world (demo_args 0).rdev = some mounted_session
          from rfl] at h
        cases h
        rfl) (by decide)).2.2.2.2.2.1⟩

/-! ## `fuse_vfs_getattr` -/

@[simp] theorem getattr_vol_name_f_active (a : vfs_attr) (d : fuse_data) :
    (getattr_vol_name a d).f_active = a.f_active := by
  unfold getattr_vol_name; split <;> rfl

@[simp] theorem getattr_vol_name_f_filecount (a : vfs_attr) (d : fuse_data) :
    (getattr_vol_name a d).f_filecount = a.f_filecount := by
  unfold getattr_vol_name; split <;> rfl

@[simp] theorem getattr_vol_name_f_bsize (a : vfs_attr) (d : fuse_data) :
    (getattr_vol_name a d).f_bsize = a.f_bsize := by
  unfold getattr_vol_name; split <;> rfl

@[simp] theorem getattr_vol_name_f_iosize (a : vfs_attr) (d : fuse_data) :
    (getattr_vol_name a d).f_iosize = a.f_iosize := by
  unfold getattr_vol_name; split <;> rfl

@[simp] theorem getattr_vol_name_f_blocks (a : vfs_attr) (d : fuse_data) :
    (getattr_vol_name a d).f_blocks = a.f_blocks := by
  unfold getattr_vol_name; split <;> rfl

@[simp] theorem getattr_vol_name_f_bfree (a : vfs_attr) (d : fuse_data) :
    (getattr_vol_name a d).f_bfree = a.f_bfree := by
  unfold getattr_vol_name; split <;> rfl

@[simp] theorem getattr_vol_name_f_bavail (a : vfs_attr) (d : fuse_data) :
    (getattr_vol_name a d).f_bavail = a.f_bavail := by
  unfold getattr_vol_name; split <;> rfl

@[simp] theorem getattr_vol_name_f_bused (a : vfs_attr) (d : fuse_data) :
    (getattr_vol_name a d).f_bused = a.f_bused := by
  unfold getattr_vol_name; split <;> rfl

@[simp] theorem getattr_vol_name_f_files (a : vfs_attr) (d : fuse_data) :
    (getattr_vol_name a d).f_files = a.f_files := by
  unfold getattr_vol_name; split <;> rfl

@[simp] theorem getattr_vol_name_f_ffree (a : vfs_attr) (d : fuse_data) :
    (getattr_vol_name a d).f_ffree = a.f_ffree := by
  unfold getattr_vol_name; split <;> rfl

@[simp] theorem getattr_vol_name_f_capabilities (a : vfs_attr) (d : fuse_data) :
    (getattr_vol_name a d).f_capabilities = a.f_capabilities := by
  unfold getattr_vol_name; split <;> rfl

@[simp] theorem getattr_vol_name_f_attributes (a : vfs_attr) (d : fuse_data) :
    (getattr_vol_name a d).f_attributes = a.f_attributes := by
  unfold getattr_vol_name; split <;> rfl

@[simp] theorem getattr_vol_name_f_create_time (a : vfs_attr) (d : fuse_data) :
    (getattr_vol_name a d).f_create_time = a.f_create_time := by
  unfold getattr_vol_name; split <;> rfl

@[simp] theorem getattr_vol_name_f_modify_time (a : vfs_attr) (d : fuse_data) :
    (getattr_vol_name a d).f_modify_time = a.f_modify_time := by
  unfold getattr_vol_name; split <;> rfl

@[simp] theorem getattr_vol_name_f_access_time (a : vfs_attr) (d : fuse_data) :
    (getattr_vol_name a d).f_access_time = a.f_access_time := by
  unfold getattr_vol_name; split <;> rfl

@[simp] theorem getattr_vol_name_f_backup_time (a : vfs_attr) (d : fuse_data) :
    (getattr_vol_name a d).f_backup_time = a.f_backup_time := by
  unfold getattr_vol_name; split <;> rfl

@[simp] theorem getattr_vol_name_f_fssubtype (a : vfs_attr) (d : fuse_data) :
    (getattr_vol_name a d).f_fssubtype = a.f_fssubtype := by
  unfold getattr_vol_name; split <;> rfl

@[simp] theorem getattr_vol_name_f_signature (a : vfs_attr) (d : fuse_data) :
    (getattr_vol_name a d).f_signature = a.f_signature := by
  unfold getattr_vol_name; split <;> rfl

@[simp] theorem getattr_vol_name_f_carbon_fsid (a : vfs_attr) (d : fuse_data) :
    (getattr_vol_name a d).f_carbon_fsid = a.f_carbon_fsid := by
  unfold getattr_vol_name; split <;> rfl

theorem getattr_vol_name_f_vol_name (a : vfs_attr) (d : fuse_data) :
    (getattr_vol_name a d).f_vol_name =
      (if VFSATTR_IS_ACTIVE a VFSATTR_f_vol_name ∧ d.volname.headD 0 ≠ 0 then
        (strncpy d.volname MAXPATHLEN).set (MAXPATHLEN - 1) 0
      else a.f_vol_name) := by
  unfold getattr_vol_name; split <;> rfl

theorem getattr_vol_name_f_supported (a : vfs_attr) (d : fuse_data) :
    (getattr_vol_name a d).f_supported =
      (if VFSATTR_IS_ACTIVE a VFSATTR_f_vol_name ∧ d.volname.headD 0 ≠ 0 then
        a.f_supported ||| VFSATTR_f_vol_name
      else a.f_supported) := by
  unfold getattr_vol_name; split <;> rfl

theorem getattr_dostatfs_returned (P : fuse_param) (faking : Bool) (answ : fuse_kstatfs)
    (attr : vfs_attr) (data : fuse_data) (w : World) (p : Nat)
    (h : fuse_get_mpdata w = some (p, data)) :
    ∃ a, getattr_dostatfs P faking answ attr data w =
        .returned 0 a (if faking = false then w.log .ticket_drop else w) ∧
      a.f_filecount = (statfs_used faking answ).files ∧
      a.f_bsize =
        P.fuse_round_size (statfs_used faking answ).frsize P.FUSE_MIN_BLOCKSIZE
          P.FUSE_MAX_BLOCKSIZE ∧
      a.f_iosize =
        max (P.fuse_round_size (statfs_used faking answ).bsize P.FUSE_MIN_IOSIZE
          P.FUSE_MAX_IOSIZE) a.f_bsize ∧
      a.f_blocks = (statfs_used faking answ).blocks ∧
      a.f_bfree = (statfs_used faking answ).bfree ∧
      a.f_bavail = (statfs_used faking answ).bavail ∧
      a.f_bused =
        ((statfs_used faking answ).blocks + 2 ^ 64 - (statfs_used faking answ).bfree) % 2 ^ 64 ∧
      a.f_files = (statfs_used faking answ).files ∧
      a.f_ffree = (statfs_used faking answ).ffree ∧
      a.f_active = attr.f_active ∧
      a.f_vol_name =
        (if VFSATTR_IS_ACTIVE attr VFSATTR_f_vol_name ∧ data.volname.headD 0 ≠ 0 then
          (strncpy data.volname MAXPATHLEN).set (MAXPATHLEN - 1) 0
        else attr.f_vol_name) ∧
      (VFSATTR_IS_ACTIVE attr VFSATTR_f_vol_name = true → data.volname.headD 0 ≠ 0 →
        VFSATTR_IS_SUPPORTED a VFSATTR_f_vol_name = true) := by
  unfold getattr_dostatfs handle_capabilities_and_attributes
  rw [h]
  refine ⟨_, rfl, ?_⟩
  simp only [VFSATTR_SET_SUPPORTED, getattr_vol_name_f_filecount, getattr_vol_name_f_bsize,
    getattr_vol_name_f_iosize, getattr_vol_name_f_blocks, getattr_vol_name_f_bfree,
    getattr_vol_name_f_bavail, getattr_vol_name_f_bused, getattr_vol_name_f_files,
    getattr_vol_name_f_ffree, getattr_vol_name_f_active, getattr_vol_name_f_vol_name,
    VFSATTR_IS_SUPPORTED, getattr_vol_name_f_supported, VFSATTR_IS_ACTIVE]
  refine ⟨rfl, rfl, ?_, rfl, rfl, rfl, rfl, rfl, rfl, trivial, trivial, ?_⟩
  · simp only [statfs_used]
    generalize P.fuse_round_size (if faking = true then faked_statfs else answ).bsize _ _ = b
    generalize P.fuse_round_size (if faking = true then faked_statfs else answ).frsize _ _ = f
    split <;> omega
  · intro h1 h2
    rw [if_pos ⟨h1, h2⟩, bne_iff_ne]
    exact flags_sub_test (flags_sub_trans (flags_sub_or_left _ _) (flags_sub_or_left _ _))
      (or_test_self _ _ (by decide))

theorem statfs_used_faked_zero (answ : fuse_kstatfs) (a : vfs_attr)
    (h1 : a.f_filecount = (statfs_used true answ).files)
    (h2 : a.f_blocks = (statfs_used true answ).blocks)
    (h3 : a.f_bfree = (statfs_used true answ).bfree)
    (h4 : a.f_bavail = (statfs_used true answ).bavail)
    (h5 : a.f_bused =
      ((statfs_used true answ).blocks + 2 ^ 64 - (statfs_used true answ).bfree) % 2 ^ 64)
    (h6 : a.f_files = (statfs_used true answ).files)
    (h7 : a.f_ffree = (statfs_used true answ).ffree) : reports_zero a := by
  refine ⟨h1, h2, h3, h4, ?_, h6, h7⟩
  rw [h5]
  simp [statfs_used, faked_statfs]

/-- C13: on a mount with a session, `fuse_vfs_getattr` fakes the statistics
in exactly two cases, and then returns 0 with the seven counters (file
count, total, free, available and used blocks, total and free files) zero
and without releasing a ticket: when the session lacks `FSESS_INITED`, where
the kernel state is left as it was, so that no request was sent at all; and
when the statfs request fails with `ENOTCONN`, where the request is the only
call made.  Every other non-zero error of the statfs request is returned as
it is, the caller's record untouched.  In the remaining case, a request that
succeeds, the counters are the daemon's and the ticket is released. -/
theorem getattr_faking (P : fuse_param) (env : Env) (attr : vfs_attr) (w : World) (p : Nat)
    (data : fuse_data) (h : fuse_get_mpdata w = some (p, data)) :
    (data.dataflags &&& FSESS_INITED = 0 →
      ∃ a, fuse_vfs_getattr P env attr w = .returned 0 a w ∧ reports_zero a) ∧
    (data.dataflags &&& FSESS_INITED ≠ 0 → env.fdisp_simple_vfs_getattr.1 = ENOTCONN →
      ∃ a, fuse_vfs_getattr P env attr w = .returned 0 a (w.log .statfs_request) ∧
        reports_zero a) ∧
    (data.dataflags &&& FSESS_INITED ≠ 0 → env.fdisp_simple_vfs_getattr.1 ≠ 0 →
      env.fdisp_simple_vfs_getattr.1 ≠ ENOTCONN →
      fuse_vfs_getattr P env attr w =
        .returned env.fdisp_simple_vfs_getattr.1 attr (w.log .statfs_request)) ∧
    (data.dataflags &&& FSESS_INITED ≠ 0 → env.fdisp_simple_vfs_getattr.1 = 0 →
      ∃ a, fuse_vfs_getattr P env attr w =
          .returned 0 a ((w.log .statfs_request).log .ticket_drop) ∧
        a.f_filecount = env.fdisp_simple_vfs_getattr.2.files ∧
        a.f_blocks = env.fdisp_simple_vfs_getattr.2.blocks ∧
        a.f_bfree = env.fdisp_simple_vfs_getattr.2.bfree ∧
        a.f_bavail = env.fdisp_simple_vfs_getattr.2.bavail ∧
        a.f_bused =
          (env.fdisp_simple_vfs_getattr.2.blocks + 2 ^ 64 -
            env.fdisp_simple_vfs_getattr.2.bfree) % 2 ^ 64 ∧
        a.f_files = env.fdisp_simple_vfs_getattr.2.files ∧
        a.f_ffree = env.fdisp_simple_vfs_getattr.2.ffree) := by
  refine ⟨?_, ?_, ?_, ?_⟩
  · intro hi
    obtain ⟨a, ha, h1, -, -, h2, h3, h4, h5, h6, h7, -⟩ :=
      getattr_dostatfs_returned P true env.fdisp_simple_vfs_getattr.2 attr data w p h
    refine ⟨a, ?_, statfs_used_faked_zero _ a h1 h2 h3 h4 h5 h6 h7⟩
    unfold fuse_vfs_getattr
    simp only [h, if_pos hi]
    exact ha
  · intro hi he
    obtain ⟨a, ha, h1, -, -, h2, h3, h4, h5, h6, h7, -⟩ :=
      getattr_dostatfs_returned P true env.fdisp_simple_vfs_getattr.2 attr data
        (w.log .statfs_request) p h
    refine ⟨a, ?_, statfs_used_faked_zero _ a h1 h2 h3 h4 h5 h6 h7⟩
    unfold fuse_vfs_getattr
    simp only [h, if_neg hi, he, if_pos (show ENOTCONN ≠ 0 by decide), if_true]
    exact ha
  · intro hi h0 he
    unfold fuse_vfs_getattr
    simp only [h, if_neg hi, if_pos h0, if_neg he]
  · intro hi h0
    obtain ⟨a, ha, h1, -, -, h2, h3, h4, h5, h6, h7, -⟩ :=
      getattr_dostatfs_returned P false env.fdisp_simple_vfs_getattr.2 attr data
        (w.log .statfs_request) p h
    refine ⟨a, ?_, h1, h2, h3, h4, h5, h6, h7⟩
    unfold fuse_vfs_getattr
    simp only [h, if_neg hi, h0, ne_eq, not_true_eq_false, if_false]
    exact ha

/-- Witness for C13: the mounted setting, with a statfs request that fails
with `ENOTCONN`. -/
theorem getattr_faking_witness :
    ∃ a, fuse_vfs_getattr demo_param (statfs_env ENOTCONN) (demo_attr 0 []) mounted_world =
        .returned 0 a (mounted_world.log .statfs_request) ∧ reports_zero a :=
  (getattr_faking demo_param (statfs_env ENOTCONN) (demo_attr 0 []) mounted_world 0
    mounted_session rfl).2.1 (by decide) rfl

/-- C14: whenever `fuse_vfs_getattr` succeeds, which it does on a mount with
a session when it fakes the statistics or the statfs request succeeds, the
record it worked from (the zeroed one when faking, else the daemon's) gives
`f_bsize = R(frsize, block-size min, block-size max)` and
`f_iosize = max(R(bsize, I/O-size min, I/O-size max), f_bsize)` with
`R = fuse_round_size`: the two sizes are compared after bounding, and
`f_iosize >= f_bsize`. -/
theorem getattr_sizes (P : fuse_param) (env : Env) (attr : vfs_attr) (w : World) (p : Nat)
    (data : fuse_data) (h : fuse_get_mpdata w = some (p, data))
    (hok : getattr_fakes env data = true ∨ env.fdisp_simple_vfs_getattr.1 = 0) :
    ∃ a w', fuse_vfs_getattr P env attr w = .returned 0 a w' ∧
      a.f_bsize =
        P.fuse_round_size
          (statfs_used (getattr_fakes env data) env.fdisp_simple_vfs_getattr.2).frsize
          P.FUSE_MIN_BLOCKSIZE P.FUSE_MAX_BLOCKSIZE ∧
      a.f_iosize =
        max
          (P.fuse_round_size
            (statfs_used (getattr_fakes env data) env.fdisp_simple_vfs_getattr.2).bsize
            P.FUSE_MIN_IOSIZE P.FUSE_MAX_IOSIZE)
          a.f_bsize ∧
      a.f_bsize ≤ a.f_iosize := by
  have key : ∀ (faking : Bool) (w1 : World), fuse_get_mpdata w1 = some (p, data) →
      getattr_fakes env data = faking →
      fuse_vfs_getattr P env attr w =
        getattr_dostatfs P faking env.fdisp_simple_vfs_getattr.2 attr data w1 →
      ∃ a w', fuse_vfs_getattr P env attr w = .returned 0 a w' ∧
        a.f_bsize =
          P.fuse_round_size
            (statfs_used (getattr_fakes env data) env.fdisp_simple_vfs_getattr.2).frsize
            P.FUSE_MIN_BLOCKSIZE P.FUSE_MAX_BLOCKSIZE ∧
        a.f_iosize =
          max
            (P.fuse_round_size
              (statfs_used (getattr_fakes env data) env.fdisp_simple_vfs_getattr.2).bsize
              P.FUSE_MIN_IOSIZE P.FUSE_MAX_IOSIZE)
            a.f_bsize ∧
        a.f_bsize ≤ a.f_iosize := by
    intro faking w1 h1 hf e
    obtain ⟨a, ha, -, hb, hio, -⟩ :=
      getattr_dostatfs_returned P faking env.fdisp_simple_vfs_getattr.2 attr data w1 p h1
    rw [hf]
    exact ⟨a, _, e.trans ha, hb, hio, by rw [hio]; exact le_max_right _ _⟩
  by_cases hi : data.dataflags &&& FSESS_INITED = 0
  · refine key true w h (by simp [getattr_fakes, hi]) ?_
    unfold fuse_vfs_getattr
    simp only [h, if_pos hi]
  · by_cases he : env.fdisp_simple_vfs_getattr.1 = ENOTCONN
    · refine key true (w.log .statfs_request) h (by simp [getattr_fakes, he]) ?_
      unfold fuse_vfs_getattr
      simp only [h, if_neg hi, he, if_pos (show ENOTCONN ≠ 0 by decide), if_true]
    · have h0 : env.fdisp_simple_vfs_getattr.1 = 0 := by
        rcases hok with hk | hk
        · simp [getattr_fakes, hi, he] at hk
        · exact hk
      refine key false (w.log .statfs_request) h (by simp [getattr_fakes, hi, he]) ?_
      unfold fuse_vfs_getattr
      simp only [h, if_neg hi, h0, ne_eq, not_true_eq_false, if_false]

/-- Witness for C14: the daemon reports a block size of 100000 and an I/O
size of 70000; bounded first, they are 65536 and 70000, and the I/O size is
not raised (compared before bounding, it would have been raised to 100000). -/
theorem getattr_sizes_witness :
    ∃ a w', fuse_vfs_getattr demo_param (sizes_env 100000 70000) (demo_attr 0 []) mounted_world =
        .returned 0 a w' ∧
      a.f_bsize = 65536 ∧ a.f_iosize = 70000 ∧ a.f_bsize ≤ a.f_iosize := by
  obtain ⟨a, w', h, hb, hio, hle⟩ :=
    getattr_sizes demo_param (sizes_env 100000 70000) (demo_attr 0 []) mounted_world 0
      mounted_session rfl (Or.inr rfl)
  refine ⟨a, w', h, hb.trans (by decide), ?_, hle⟩
  rw [hio, hb]
  decide

/-! ## `fuse_vfs_setattr` -/

theorem fuse_get_mpdata_set {w : World} {p : Nat} {data : fuse_data}
    (h : fuse_get_mpdata w = some (p, data)) (data' : fuse_data) :
    fuse_get_mpdata (set_mpdata w p (some data')) = some (p, data') := by
  unfold fuse_get_mpdata at h ⊢
  rw [set_mpdata_mp]
  cases hp : w.mp.fsprivate with
  | none => simp [hp] at h
  | some q =>
    simp only [hp] at h ⊢
    cases hd : fuse_device_get_mpdata w q with
    | none => simp [hd] at h
    | some d =>
      simp only [hd, Option.some.injEq, Prod.mk.injEq] at h
      obtain ⟨rfl, rfl⟩ := h
      unfold fuse_device_get_mpdata at hd ⊢
      rw [set_mpdata_devices]
      cases hdev : w.devices q with
      | none => simp [hdev] at hd
      | some dev => simp

/-- C15: a request to set the volume name is rejected, with the kernel
state (and so the stored volume name, byte for byte) and the caller's record
left as they were: with `EACCES` if the caller is neither the file system's
owner nor the superuser; with `ENOTSUP` if the caller is authorized and the
session's volume-rename option is off; with `EINVAL` if the caller is
authorized, rename is on and the requested name is empty.  With rename off
the request never succeeds, whoever asks. -/
theorem setattr_rejections (context : vfs_context) (fsap : vfs_attr) (w : World) (p : Nat)
    (data : fuse_data) (h : fuse_get_mpdata w = some (p, data))
    (hactive : VFSATTR_IS_ACTIVE fsap VFSATTR_f_vol_name = true) :
    (context.issuser = false ∧ context.cr_uid ≠ w.mp.f_owner →
      fuse_vfs_setattr context fsap w = .returned EACCES fsap w) ∧
    (¬ (context.issuser = false ∧ context.cr_uid ≠ w.mp.f_owner) →
      data.dataflags &&& FSESS_VOL_RENAME = 0 →
      fuse_vfs_setattr context fsap w = .returned ENOTSUP fsap w) ∧
    (¬ (context.issuser = false ∧ context.cr_uid ≠ w.mp.f_owner) →
      data.dataflags &&& FSESS_VOL_RENAME ≠ 0 → fsap.f_vol_name.headD 0 = 0 →
      fuse_vfs_setattr context fsap w = .returned EINVAL fsap w) ∧
    (data.dataflags &&& FSESS_VOL_RENAME = 0 →
      (fuse_vfs_setattr context fsap w).err? ≠ some 0 ∧
      (fuse_vfs_setattr context fsap w).world = w ∧
      stored_volname (fuse_vfs_setattr context fsap w).world = some data.volname) := by
  have h1 : context.issuser = false ∧ context.cr_uid ≠ w.mp.f_owner →
      fuse_vfs_setattr context fsap w = .returned EACCES fsap w := by
    intro hc
    unfold fuse_vfs_setattr
    rw [if_pos hc]
  have h2 : ¬ (context.issuser = false ∧ context.cr_uid ≠ w.mp.f_owner) →
      data.dataflags &&& FSESS_VOL_RENAME = 0 →
      fuse_vfs_setattr context fsap w = .returned ENOTSUP fsap w := by
    intro hc hr
    unfold fuse_vfs_setattr
    rw [if_neg hc, if_pos hactive]
    simp only [h, if_pos hr]
  have hv : stored_volname w = some data.volname := by
    simp [stored_volname, mount_session, h]
  refine ⟨h1, h2, ?_, ?_⟩
  · intro hc hr hn
    unfold fuse_vfs_setattr
    rw [if_neg hc, if_pos hactive]
    simp only [h, if_neg hr, if_pos hn]
  · intro hr
    by_cases hc : context.issuser = false ∧ context.cr_uid ≠ w.mp.f_owner
    · rw [h1 hc]
      exact ⟨by simp [AttrOutcome.err?, EACCES], rfl, hv⟩
    · rw [h2 hc hr]
      exact ⟨by simp [AttrOutcome.err?, ENOTSUP], rfl, hv⟩

/-- Witness for C15: on the mounted setting, whose rename option is off,
another user is refused with `EACCES` and the owner with `ENOTSUP`. -/
theorem setattr_rejections_witness :
    fuse_vfs_setattr other_user_context (demo_attr VFSATTR_f_vol_name [65, 0]) mounted_world =
      .returned EACCES (demo_attr VFSATTR_f_vol_name [65, 0]) mounted_world ∧
    fuse_vfs_setattr demo_context (demo_attr VFSATTR_f_vol_name [65, 0]) mounted_world =
      .returned ENOTSUP (demo_attr VFSATTR_f_vol_name [65, 0]) mounted_world :=
  ⟨(setattr_rejections other_user_context (demo_attr VFSATTR_f_vol_name [65, 0]) mounted_world 0
      mounted_session rfl rfl).1 (by decide),
   (setattr_rejections demo_context (demo_attr VFSATTR_f_vol_name [65, 0]) mounted_world 0
      mounted_session rfl rfl).2.1 (by decide) (by decide)⟩

theorem copystr_zero_free (n rest : List Nat) (hz : ∀ c ∈ n, c ≠ 0) (k : Nat) :
    copystr (n ++ 0 :: rest) k = if n.length < k then n ++ [0] else n.take k := by
  induction n generalizing k with
  | nil =>
    cases k with
    | zero => simp [copystr]
    | succ k => simp [copystr]
  | cons c cs ih =>
    cases k with
    | zero => simp [copystr]
    | succ k =>
      have hc : c ≠ 0 := hz c (List.mem_cons_self _ _)
      have hcs : ∀ x ∈ cs, x ≠ 0 := fun x hx => hz x (List.mem_cons_of_mem _ hx)
      rw [List.cons_append]
      show (if c = 0 then [0] else c :: copystr (cs ++ 0 :: rest) k) = _
      rw [if_neg hc, ih hcs k]
      simp only [List.length_cons, Nat.add_lt_add_iff_right, List.take_succ_cons]
      split <;> rfl

theorem copy_name_zero_free (n rest : List Nat) (hz : ∀ c ∈ n, c ≠ 0) (size : Nat)
    (hsize : 0 < size) :
    copy_name (n ++ 0 :: rest) size =
      n.take (size - 1) ++ List.replicate (size - min n.length (size - 1)) 0 := by
  unfold copy_name
  simp only [copystr_zero_free n rest hz]
  by_cases hl : n.length < size - 1
  · rw [if_pos hl, List.take_of_length_le (Nat.le_of_lt hl), Nat.min_eq_left (Nat.le_of_lt hl),
      List.length_append, List.length_singleton, List.append_assoc]
    congr 1
    have e : size - n.length = (size - (n.length + 1)) + 1 := by omega
    rw [e, List.replicate_succ]
    rfl
  · rw [if_neg hl, List.length_take, Nat.min_comm (size - 1) n.length]

theorem takeWhile_zero_free (n rest : List Nat) (hz : ∀ c ∈ n, c ≠ 0) :
    (n ++ 0 :: rest).takeWhile (fun c => decide (c ≠ 0)) = n := by
  induction n with
  | nil => simp
  | cons c cs ih =>
    have hc : c ≠ 0 := hz c (List.mem_cons_self _ _)
    have hcs : ∀ x ∈ cs, x ≠ 0 := fun x hx => hz x (List.mem_cons_of_mem _ hx)
    rw [List.cons_append, List.takeWhile_cons, ih hcs]
    simp [hc]

theorem set_replicate_zero (k i : Nat) :
    (List.replicate k 0).set i 0 = List.replicate k 0 := by
  induction k generalizing i with
  | zero => simp
  | succ k ih =>
    cases i with
    | zero => simp [List.replicate_succ]
    | succ i => simp [List.replicate_succ, ih]

theorem set_padding_zero (n : List Nat) (k i : Nat) (hi : n.length ≤ i) :
    (n ++ List.replicate k 0).set i 0 = n ++ List.replicate k 0 := by
  induction n generalizing i with
  | nil => simp [set_replicate_zero]
  | cons c cs ih =>
    cases i with
    | zero => simp at hi
    | succ i =>
      simp only [List.length_cons, Nat.add_le_add_iff_right] at hi
      simp [ih i hi]

theorem strncpy_padded (n : List Nat) (hz : ∀ c ∈ n, c ≠ 0) (size k : Nat)
    (hlen : n.length + k = size) (hk : 0 < k) :
    (strncpy (n ++ List.replicate k 0) size).set (size - 1) 0 = n ++ List.replicate k 0 := by
  have htw : (n ++ List.replicate k 0).takeWhile (fun c => decide (c ≠ 0)) = n := by
    obtain ⟨j, rfl⟩ : ∃ j, k = j + 1 := ⟨k - 1, by omega⟩
    rw [List.replicate_succ]
    exact takeWhile_zero_free n _ hz
  unfold strncpy
  rw [htw, List.take_of_length_le (by omega), show size - n.length = k by omega]
  exact set_padding_zero n k (size - 1) (by omega)

theorem getattr_runs_dostatfs (P : fuse_param) (env : Env) (attr : vfs_attr) (w : World)
    (p : Nat) (data : fuse_data) (h : fuse_get_mpdata w = some (p, data))
    (hok : getattr_fakes env data = true ∨ env.fdisp_simple_vfs_getattr.1 = 0) :
    ∃ w1, fuse_get_mpdata w1 = some (p, data) ∧
      fuse_vfs_getattr P env attr w =
        getattr_dostatfs P (getattr_fakes env data) env.fdisp_simple_vfs_getattr.2 attr data
          w1 := by
  by_cases hi : data.dataflags &&& FSESS_INITED = 0
  · refine ⟨w, h, ?_⟩
    rw [show getattr_fakes env data = true by simp [getattr_fakes, hi]]
    unfold fuse_vfs_getattr
    simp only [h, if_pos hi]
  · by_cases he : env.fdisp_simple_vfs_getattr.1 = ENOTCONN
    · refine ⟨w.log .statfs_request, h, ?_⟩
      rw [show getattr_fakes env data = true by simp [getattr_fakes, he]]
      unfold fuse_vfs_getattr
      simp only [h, if_neg hi, he, if_pos (show ENOTCONN ≠ 0 by decide), if_true]
    · have h0 : env.fdisp_simple_vfs_getattr.1 = 0 := by
        rcases hok with hk | hk
        · simp [getattr_fakes, hi, he] at hk
        · exact hk
      refine ⟨w.log .statfs_request, h, ?_⟩
      rw [show getattr_fakes env data = false by simp [getattr_fakes, hi, he]]
      unfold fuse_vfs_getattr
      simp only [h, if_neg hi, h0, ne_eq, not_true_eq_false, if_false]

theorem spec_name_buffer_eq (n : List Nat) (size : Nat) :
    spec_name_buffer n size =
      n.take (size - 1) ++ List.replicate (size - min n.length (size - 1)) 0 := by
  unfold spec_name_buffer
  congr 1
  rcases Nat.le_total n.length (size - 1) with hl | hl
  · rw [Nat.min_eq_left hl, List.take_of_length_le hl, List.take_of_length_le (le_refl _)]
  · rw [Nat.min_eq_right hl]

theorem spec_name_buffer_length (n : List Nat) (size : Nat) (hsize : 0 < size) :
    (spec_name_buffer n size).length = size := by
  rw [spec_name_buffer_eq, List.length_append, List.length_take, List.length_replicate]
  omega

theorem spec_name_buffer_head (n : List Nat) (size : Nat) (hsize : 1 < size)
    (hz : ∀ c ∈ n, c ≠ 0) (hn : n ≠ []) : (spec_name_buffer n size).headD 0 ≠ 0 := by
  rw [spec_name_buffer_eq]
  cases n with
  | nil => exact absurd rfl hn
  | cons c cs =>
    obtain ⟨j, rfl⟩ : ∃ j, size = j + 2 := ⟨size - 2, by omega⟩
    simpa using hz c (List.mem_cons_self _ _)

theorem spec_name_buffer_last (n : List Nat) (size : Nat) (hsize : 0 < size) :
    (spec_name_buffer n size).getLast? = some 0 := by
  rw [spec_name_buffer_eq]
  obtain ⟨j, hj⟩ : ∃ j, size - min n.length (size - 1) = j + 1 :=
    ⟨size - min n.length (size - 1) - 1, by omega⟩
  rw [hj, List.replicate_succ', ← List.append_assoc, List.getLast?_append]
  simp

/-- C16: for an authorized caller, a session with volume rename enabled and
a non-empty requested name `n` (the bytes of the caller's buffer before its
first NUL), `fuse_vfs_setattr` returns 0, makes no call at all (so no request
goes to the daemon), marks the name field supported, and leaves the stored
name buffer equal to the first `min(len(n), MAXPATHLEN-1)` bytes of `n`
followed by zero bytes up to `MAXPATHLEN` bytes: it is `MAXPATHLEN` bytes
long and ends in a NUL.  A `fuse_vfs_getattr` on the resulting state that
asks for the volume name, and succeeds, returns exactly that buffer and marks
the name supported. -/
theorem setattr_volname (P : fuse_param) (env : Env) (context : vfs_context) (fsap : vfs_attr)
    (w : World) (p : Nat) (data : fuse_data) (n rest : List Nat)
    (h : fuse_get_mpdata w = some (p, data))
    (hauth : context.issuser = true ∨ context.cr_uid = w.mp.f_owner)
    (hactive : VFSATTR_IS_ACTIVE fsap VFSATTR_f_vol_name = true)
    (hren : data.dataflags &&& FSESS_VOL_RENAME ≠ 0)
    (hname : fsap.f_vol_name = n ++ 0 :: rest) (hz : ∀ c ∈ n, c ≠ 0) (hn : n ≠ [])
    (hok : getattr_fakes env data = true ∨ env.fdisp_simple_vfs_getattr.1 = 0) :
    ∃ fsap' w', fuse_vfs_setattr context fsap w = .returned 0 fsap' w' ∧
      w'.trace = w.trace ∧
      VFSATTR_IS_SUPPORTED fsap' VFSATTR_f_vol_name = true ∧
      stored_volname w' = some (spec_name_buffer n MAXPATHLEN) ∧
      (spec_name_buffer n MAXPATHLEN).length = MAXPATHLEN ∧
      (spec_name_buffer n MAXPATHLEN).getLast? = some 0 ∧
      ∀ attr, VFSATTR_IS_ACTIVE attr VFSATTR_f_vol_name = true →
        ∃ a w'', fuse_vfs_getattr P env attr w' = .returned 0 a w'' ∧
          a.f_vol_name = spec_name_buffer n MAXPATHLEN ∧
          VFSATTR_IS_SUPPORTED a VFSATTR_f_vol_name = true := by
  have hc : ¬ (context.issuser = false ∧ context.cr_uid ≠ w.mp.f_owner) := by
    rintro ⟨h1, h2⟩
    rcases hauth with ha | ha
    · rw [ha] at h1
      cases h1
    · exact h2 ha
  have hhead : ¬ fsap.f_vol_name.headD 0 = 0 := by
    rw [hname]
    cases n with
    | nil => exact absurd rfl hn
    | cons c cs => simpa using hz c (List.mem_cons_self _ _)
  have hcopy : copy_name fsap.f_vol_name MAXPATHLEN = spec_name_buffer n MAXPATHLEN := by
    rw [hname, copy_name_zero_free n rest hz MAXPATHLEN (by decide), spec_name_buffer_eq]
  have hget := fuse_get_mpdata_set h { data with volname := copy_name fsap.f_vol_name MAXPATHLEN }
  refine ⟨VFSATTR_SET_SUPPORTED fsap VFSATTR_f_vol_name,
    set_mpdata w p (some { data with volname := copy_name fsap.f_vol_name MAXPATHLEN }),
    ?_, rfl, ?_, ?_, spec_name_buffer_length n MAXPATHLEN (by decide),
    spec_name_buffer_last n MAXPATHLEN (by decide), ?_⟩
  · unfold fuse_vfs_setattr
    rw [if_neg hc, if_pos hactive]
    simp only [h, if_neg hren, if_neg hhead]
  · unfold VFSATTR_IS_SUPPORTED VFSATTR_SET_SUPPORTED
    rw [bne_iff_ne]
    exact or_test_self _ _ (by decide)
  · unfold stored_volname mount_session
    rw [hget]
    exact congrArg some hcopy
  · intro attr hattr
    obtain ⟨w1, hw1, e⟩ := getattr_runs_dostatfs P env attr _ p _ hget hok
    obtain ⟨a, ha, -, -, -, -, -, -, -, -, -, -, hvn, hsup⟩ :=
      getattr_dostatfs_returned P
        (getattr_fakes env { data with volname := copy_name fsap.f_vol_name MAXPATHLEN })
        env.fdisp_simple_vfs_getattr.2 attr
        { data with volname := copy_name fsap.f_vol_name MAXPATHLEN } w1 p hw1
    have hstored : ({ data with volname := copy_name fsap.f_vol_name MAXPATHLEN } :
        fuse_data).volname = spec_name_buffer n MAXPATHLEN := hcopy
    have hnz := spec_name_buffer_head n MAXPATHLEN (by decide) hz hn
    rw [hstored] at hvn hsup
    refine ⟨a, _, e.trans ha, ?_, hsup hattr hnz⟩
    rw [hvn, if_pos ⟨hattr, hnz⟩]
    unfold spec_name_buffer
    exact strncpy_padded _ (fun c hc => hz c (List.mem_of_mem_take hc)) MAXPATHLEN _
      (by rw [List.length_take]; simp only [MAXPATHLEN]; omega)
      (by simp only [MAXPATHLEN]; omega)

/-- Witness for C16: the owner names the volume "AB" on the mounted setting
with rename enabled. -/
theorem setattr_volname_witness :
    ∃ fsap' w', fuse_vfs_setattr demo_context rename_request rename_world =
        .returned 0 fsap' w' ∧
      stored_volname w' = some (spec_name_buffer [65, 66] MAXPATHLEN) ∧
      ∀ attr, VFSATTR_IS_ACTIVE attr VFSATTR_f_vol_name = true →
        ∃ a w'', fuse_vfs_getattr demo_param (demo_env 0) attr w' = .returned 0 a w'' ∧
          a.f_vol_name = spec_name_buffer [65, 66] MAXPATHLEN ∧
          VFSATTR_IS_SUPPORTED a VFSATTR_f_vol_name = true := by
  obtain ⟨fsap', w', h1, -, -, h2, -, -, h3⟩ :=
    setattr_volname demo_param (demo_env 0) demo_context rename_request rename_world 0
      { mounted_session with dataflags := mounted_session.dataflags ||| FSESS_VOL_RENAME }
      [65, 66] [7] rfl (Or.inr rfl) rfl (by decide) rfl (by decide) (by decide) (Or.inr rfl)
  exact ⟨fsap', w', h1, h2, h3⟩

/-! ## `fuse_sync_callback` -/

theorem sync_handles_eq (vp : Nat) (fufh_flags : List Nat) (type : Nat) (w : World) :
    sync_handles vp type fufh_flags w =
      { w with
        trace := w.trace ++ (valid_handles type fufh_flags).map (Event.fsync_request vp) } := by
  induction fufh_flags generalizing type w with
  | nil => simp [sync_handles, valid_handles]
  | cons f rest ih =>
    unfold sync_handles valid_handles
    rw [ih]
    by_cases hf : f &&& FUFH_VALID ≠ 0
    · simp [if_pos hf, World.log]
    · simp [if_neg hf]

theorem valid_handles_length (fufh_flags : List Nat) (type : Nat) :
    (valid_handles type fufh_flags).length =
      (fufh_flags.filter fun f => f &&& FUFH_VALID ≠ 0).length := by
  induction fufh_flags generalizing type with
  | nil => rfl
  | cons f rest ih =>
    unfold valid_handles
    by_cases hf : f &&& FUFH_VALID ≠ 0
    · simp [if_pos hf, List.filter_cons, hf, ih]
    · simp [if_neg hf, List.filter_cons, hf, ih]

/-- C17: `fuse_sync_callback` decides in this order.  A node without dirty
blocks is skipped: the walk continues (`VNODE_RETURNED`) and nothing is
called.  Else, on a mount whose session is dead, the walk is told to stop
(`VNODE_RETURNED_DONE`) and nothing is called.  Else, if the bit of the
node's type is set in the session's unimplemented-operations bitset (the
`FSYNCDIR` bit for a directory, the `FSYNC` bit for any other node, two
different bits), the node is skipped and nothing is called, neither a cache
push nor a request.  Otherwise the cached writes are pushed once, then one
fsync request is issued per valid file handle of the node, in the order of
the handle types and as many as there are valid handles, and the walk
continues. -/
theorem sync_callback_decision (vp : fuse_vnode) (w : World) (p : Nat) (data : fuse_data)
    (h : fuse_get_mpdata w = some (p, data)) :
    (vp.hasdirtyblks = false → fuse_sync_callback vp w = .returned VNODE_RETURNED w) ∧
    (vp.hasdirtyblks = true → fdata_dead_get data = true →
      fuse_sync_callback vp w = .returned VNODE_RETURNED_DONE w) ∧
    (vp.hasdirtyblks = true → fdata_dead_get data = false →
      data.noimplflags &&&
        (if vp.isdir then FSESS_NOIMPLBIT FUSE_FSYNCDIR else FSESS_NOIMPLBIT FUSE_FSYNC) ≠ 0 →
      fuse_sync_callback vp w = .returned VNODE_RETURNED w) ∧
    (vp.hasdirtyblks = true → fdata_dead_get data = false →
      data.noimplflags &&&
        (if vp.isdir then FSESS_NOIMPLBIT FUSE_FSYNCDIR else FSESS_NOIMPLBIT FUSE_FSYNC) = 0 →
      fuse_sync_callback vp w =
        .returned VNODE_RETURNED
          { w with
            trace := w.trace ++ Event.cluster_push vp.vp ::
              (valid_handles 0 vp.fufh_flags).map (Event.fsync_request vp.vp) } ∧
      (valid_handles 0 vp.fufh_flags).length =
        (vp.fufh_flags.filter fun f => f &&& FUFH_VALID ≠ 0).length) ∧
    FSESS_NOIMPLBIT FUSE_FSYNCDIR &&& FSESS_NOIMPLBIT FUSE_FSYNC = 0 ∧
    VNODE_RETURNED ≠ VNODE_RETURNED_DONE := by
  refine ⟨?_, ?_, ?_, ?_, by decide, by decide⟩
  · intro hd
    unfold fuse_sync_callback
    rw [if_pos hd]
  · intro hd hdead
    unfold fuse_sync_callback
    rw [if_neg (by simp [hd])]
    simp only [h, hdead, if_true]
  · intro hd hdead hno
    unfold fuse_sync_callback
    rw [if_neg (by simp [hd])]
    simp only [h, hdead]
    have hi : fuse_implemented data
        (if vp.isdir then FSESS_NOIMPLBIT FUSE_FSYNCDIR else FSESS_NOIMPLBIT FUSE_FSYNC) =
          false := by
      unfold fuse_implemented
      simpa using hno
    simp [hi]
  · intro hd hdead hno
    refine ⟨?_, valid_handles_length _ _⟩
    unfold fuse_sync_callback
    rw [if_neg (by simp [hd])]
    simp only [h, hdead]
    have hi : fuse_implemented data
        (if vp.isdir then FSESS_NOIMPLBIT FUSE_FSYNCDIR else FSESS_NOIMPLBIT FUSE_FSYNC) =
          true := by
      unfold fuse_implemented
      simpa using hno
    simp [hi, sync_handles_eq, World.log]

/-- Witness for C17: a dirty file with two valid handles out of three, on
the mounted setting: one cache push, then the requests for handle types 0
and 2. -/
theorem sync_callback_decision_witness :
    fuse_sync_callback demo_vnode mounted_world =
      .returned VNODE_RETURNED
        { mounted_world with
          trace := mounted_world.trace ++
            [Event.cluster_push 9, Event.fsync_request 9 0, Event.fsync_request 9 2] } :=
  ((sync_callback_decision demo_vnode mounted_world 0 mounted_session rfl).2.2.2.1 rfl
    (by decide) (by decide)).1

/-- C21: a successful `fuse_vfs_getattr` (on a mount with a session, when
the statistics are faked or the statfs request succeeds) reports, for the
record it works from (the zeroed one when faking, else the daemon's, whose
block counts are 64-bit values), `f_blocks = blocks`, `f_bfree = bfree`,
`f_bavail = bavail`, `f_files = f_filecount = files`, `f_ffree = ffree` and
`f_bused = (blocks - bfree) mod 2^64`.  So `f_bused + f_bfree = f_blocks`
modulo `2^64`, and when `bfree <= blocks` the used blocks are
`blocks - bfree`, at most `f_blocks`. -/
theorem getattr_counters (P : fuse_param) (env : Env) (attr : vfs_attr) (w : World) (p : Nat)
    (data : fuse_data) (h : fuse_get_mpdata w = some (p, data))
    (hok : getattr_fakes env data = true ∨ env.fdisp_simple_vfs_getattr.1 = 0)
    (hblocks : env.fdisp_simple_vfs_getattr.2.blocks < 2 ^ 64)
    (hbfree : env.fdisp_simple_vfs_getattr.2.bfree < 2 ^ 64) :
    ∃ a w', fuse_vfs_getattr P env attr w = .returned 0 a w' ∧
      a.f_blocks = (statfs_used (getattr_fakes env data) env.fdisp_simple_vfs_getattr.2).blocks ∧
      a.f_bfree = (statfs_used (getattr_fakes env data) env.fdisp_simple_vfs_getattr.2).bfree ∧
      a.f_bavail = (statfs_used (getattr_fakes env data) env.fdisp_simple_vfs_getattr.2).bavail ∧
      a.f_files = (statfs_used (getattr_fakes env data) env.fdisp_simple_vfs_getattr.2).files ∧
      a.f_filecount = a.f_files ∧
      a.f_ffree = (statfs_used (getattr_fakes env data) env.fdisp_simple_vfs_getattr.2).ffree ∧
      (a.f_bused : Int) = ((a.f_blocks : Int) - (a.f_bfree : Int)) % 2 ^ 64 ∧
      (a.f_bused + a.f_bfree) % 2 ^ 64 = a.f_blocks % 2 ^ 64 ∧
      (a.f_bfree ≤ a.f_blocks → a.f_bused = a.f_blocks - a.f_bfree ∧ a.f_bused ≤ a.f_blocks) := by
  obtain ⟨w1, hw1, e⟩ := getattr_runs_dostatfs P env attr w p data h hok
  obtain ⟨a, ha, hfc, -, -, hbl, hbf, hba, hbu, hfi, hff, -⟩ :=
    getattr_dostatfs_returned P (getattr_fakes env data) env.fdisp_simple_vfs_getattr.2 attr
      data w1 p hw1
  have hb1 : (statfs_used (getattr_fakes env data) env.fdisp_simple_vfs_getattr.2).blocks <
      2 ^ 64 := by
    unfold statfs_used
    split
    · decide
    · exact hblocks
  have hb2 : (statfs_used (getattr_fakes env data) env.fdisp_simple_vfs_getattr.2).bfree <
      2 ^ 64 := by
    unfold statfs_used
    split
    · decide
    · exact hbfree
  rw [← hbl] at hbu hb1
  rw [← hbf] at hbu hb2
  refine ⟨a, _, e.trans ha, hbl, hbf, hba, hfi, hfc.trans hfi.symm, hff, ?_, ?_, ?_⟩
  · rw [hbu]
    norm_num at hb1 hb2 ⊢
    omega
  · rw [hbu]
    norm_num at hb1 hb2 ⊢
    omega
  · intro hle
    rw [hbu]
    norm_num at hb1 hb2 ⊢
    omega

/-- Witness for C21: the daemon of the concrete setting reports 1000 blocks,
400 of them free. -/
theorem getattr_counters_witness :
    ∃ a w', fuse_vfs_getattr demo_param (demo_env 0) (demo_attr 0 []) mounted_world =
        .returned 0 a w' ∧
      a.f_blocks = 1000 ∧ a.f_bfree = 400 ∧ a.f_bused = 600 := by
  obtain ⟨a, w', h, hbl, hbf, -, -, -, -, -, -, hle⟩ :=
    getattr_counters demo_param (demo_env 0) (demo_attr 0 []) mounted_world 0 mounted_session
      rfl (Or.inr rfl) (by decide) (by decide)
  have h1 : a.f_blocks = 1000 := hbl.trans (by decide)
  have h2 : a.f_bfree = 400 := hbf.trans (by decide)
  refine ⟨a, w', h, h1, h2, ?_⟩
  rw [(hle (by rw [h1, h2]; decide)).1, h1, h2]

theorem getattr_dostatfs_session (P : fuse_param) (faking : Bool) (answ : fuse_kstatfs)
    (attr : vfs_attr) (data : fuse_data) (w : World) (p : Nat)
    (h : fuse_get_mpdata w = some (p, data)) :
    ∃ a, getattr_dostatfs P faking answ attr data w =
        .returned 0 a (if faking = false then w.log .ticket_drop else w) ∧
      a.f_create_time = kZeroTime ∧ a.f_modify_time = kZeroTime ∧
      a.f_access_time = kZeroTime ∧ a.f_backup_time = kZeroTime ∧
      a.f_fssubtype = data.fssubtype ∧
      a.f_signature = P.OSSwapBigToHostInt16 P.FUSEFS_SIGNATURE ∧
      a.f_carbon_fsid = 0 ∧
      a.f_vol_name =
        (if VFSATTR_IS_ACTIVE attr VFSATTR_f_vol_name ∧ data.volname.headD 0 ≠ 0 then
          (strncpy data.volname MAXPATHLEN).set (MAXPATHLEN - 1) 0
        else attr.f_vol_name) ∧
      a.f_supported =
        (if VFSATTR_IS_ACTIVE attr VFSATTR_f_vol_name ∧ data.volname.headD 0 ≠ 0 then
          getattr_supported attr ||| VFSATTR_f_vol_name
        else getattr_supported attr) ||| VFSATTR_f_signature ||| VFSATTR_f_carbon_fsid ∧
      some a.f_capabilities =
        (handle_capabilities_and_attributes w attr).map (fun x => x.f_capabilities) ∧
      some a.f_attributes =
        (handle_capabilities_and_attributes w attr).map (fun x => x.f_attributes) := by
  unfold getattr_dostatfs handle_capabilities_and_attributes
  rw [h]
  refine ⟨_, rfl, ?_⟩
  simp only [VFSATTR_SET_SUPPORTED, getattr_vol_name_f_create_time,
    getattr_vol_name_f_modify_time, getattr_vol_name_f_access_time,
    getattr_vol_name_f_backup_time, getattr_vol_name_f_fssubtype,
    getattr_vol_name_f_capabilities, getattr_vol_name_f_attributes,
    getattr_vol_name_f_vol_name, getattr_vol_name_f_supported, VFSATTR_IS_ACTIVE,
    getattr_supported, Option.map_some']
  simp only [and_self]

theorem test_two_pow (x k : Nat) : x &&& 2 ^ k ≠ 0 ↔ x.testBit k = true := by
  rw [and_ne_zero_iff]
  constructor
  · rintro ⟨i, hx, hi⟩
    rw [Nat.testBit_two_pow] at hi
    have : k = i := by simpa using hi
    rw [this]
    exact hx
  · intro hx
    exact ⟨k, hx, by simp [Nat.testBit_two_pow]⟩

theorem cstring_zero_free (v : List Nat) : ∀ c ∈ cstring v, c ≠ 0 := by
  intro c hc
  have := List.mem_takeWhile_imp hc
  simpa using this

theorem cstring_padded (s : List Nat) (hz : ∀ c ∈ s, c ≠ 0) (k : Nat) (hk : 0 < k) :
    cstring (s ++ List.replicate k 0) = s := by
  obtain ⟨j, rfl⟩ : ∃ j, k = j + 1 := ⟨k - 1, by omega⟩
  rw [List.replicate_succ]
  exact takeWhile_zero_free s _ hz

theorem cstring_strncpy (v : List Nat) (size : Nat) (hfit : (cstring v).length < size) :
    cstring ((strncpy v size).set (size - 1) 0) = cstring v := by
  have e : strncpy v size =
      cstring v ++ List.replicate (size - (cstring v).length) 0 := by
    unfold strncpy
    show (cstring v).take size ++ List.replicate (size - ((cstring v).take size).length) 0 = _
    rw [List.take_of_length_le (Nat.le_of_lt hfit)]
  rw [e, set_padding_zero _ _ _ (by omega)]
  exact cstring_padded _ (cstring_zero_free v) _ (by omega)

theorem copystr_length (src : List Nat) (k : Nat) : (copystr src k).length ≤ k := by
  induction src generalizing k with
  | nil => cases k <;> simp [copystr]
  | cons c cs ih =>
    cases k with
    | zero => simp [copystr]
    | succ k =>
      unfold copystr
      split
      · simp
      · simpa using ih k

theorem cstring_append_zero (s rest : List Nat) :
    (cstring (s ++ 0 :: rest)).length ≤ s.length := by
  induction s with
  | nil => simp [cstring]
  | cons c cs ih =>
    unfold cstring at ih ⊢
    rw [List.cons_append, List.takeWhile_cons]
    split
    · simpa using ih
    · simp

theorem copy_name_fits (src : List Nat) (size : Nat) (hsize : 0 < size) :
    (cstring (copy_name src size)).length < size := by
  unfold copy_name
  have hl := copystr_length src (size - 1)
  obtain ⟨j, hj⟩ : ∃ j, size - (copystr src (size - 1)).length = j + 1 :=
    ⟨size - (copystr src (size - 1)).length - 1, by omega⟩
  simp only [hj, List.replicate_succ]
  have := cstring_append_zero (copystr src (size - 1)) (List.replicate j 0)
  omega

theorem getattr_supported_vol_name (attr : vfs_attr)
    (hsup : VFSATTR_IS_SUPPORTED attr VFSATTR_f_vol_name = false) (c : Prop) [Decidable c] :
    ((if c then getattr_supported attr ||| VFSATTR_f_vol_name else getattr_supported attr) |||
        VFSATTR_f_signature ||| VFSATTR_f_carbon_fsid) &&& VFSATTR_f_vol_name ≠ 0 ↔ c := by
  have h0 : attr.f_supported.testBit 21 = false := by
    by_contra hne
    have ht : attr.f_supported.testBit 21 = true := by simpa using hne
    have := (test_two_pow attr.f_supported 21).2 ht
    unfold VFSATTR_IS_SUPPORTED VFSATTR_f_vol_name at hsup
    simp only [bne_eq_false_iff_eq] at hsup
    exact this hsup
  unfold VFSATTR_f_vol_name
  rw [test_two_pow]
  by_cases hc : c
  · simp only [hc, if_true, Nat.testBit_or, Bool.or_eq_true]
    have hb : (2 ^ 21).testBit 21 = true := by decide
    exact ⟨fun _ => trivial, fun _ => Or.inl (Or.inl (Or.inr hb))⟩
  · simp [hc, getattr_supported, h0, VFSATTR_f_filecount, VFSATTR_f_bsize, VFSATTR_f_iosize,
      VFSATTR_f_blocks, VFSATTR_f_bfree, VFSATTR_f_bavail, VFSATTR_f_bused, VFSATTR_f_files,
      VFSATTR_f_ffree, VFSATTR_f_capabilities, VFSATTR_f_attributes, VFSATTR_f_create_time,
      VFSATTR_f_modify_time, VFSATTR_f_access_time, VFSATTR_f_backup_time, VFSATTR_f_fssubtype,
      VFSATTR_f_signature, VFSATTR_f_carbon_fsid, Nat.testBit_two_pow]
    decide

theorem getattr_session_run (P : fuse_param) (env : Env) (attr : vfs_attr) (w : World)
    (p : Nat) (data : fuse_data) (h : fuse_get_mpdata w = some (p, data))
    (hok : getattr_fakes env data = true ∨ env.fdisp_simple_vfs_getattr.1 = 0) :
    ∃ a w', fuse_vfs_getattr P env attr w = .returned 0 a w' ∧
      a.f_create_time = kZeroTime ∧ a.f_modify_time = kZeroTime ∧
      a.f_access_time = kZeroTime ∧ a.f_backup_time = kZeroTime ∧
      a.f_fssubtype = data.fssubtype ∧
      a.f_signature = P.OSSwapBigToHostInt16 P.FUSEFS_SIGNATURE ∧
      a.f_vol_name =
        (if VFSATTR_IS_ACTIVE attr VFSATTR_f_vol_name ∧ data.volname.headD 0 ≠ 0 then
          (strncpy data.volname MAXPATHLEN).set (MAXPATHLEN - 1) 0
        else attr.f_vol_name) ∧
      a.f_supported =
        (if VFSATTR_IS_ACTIVE attr VFSATTR_f_vol_name ∧ data.volname.headD 0 ≠ 0 then
          getattr_supported attr ||| VFSATTR_f_vol_name
        else getattr_supported attr) ||| VFSATTR_f_signature ||| VFSATTR_f_carbon_fsid := by
  obtain ⟨w1, hw1, e⟩ := getattr_runs_dostatfs P env attr w p data h hok
  obtain ⟨a, ha, h1, h2, h3, h4, h5, h6, -, h8, h9, -⟩ :=
    getattr_dostatfs_session P (getattr_fakes env data) env.fdisp_simple_vfs_getattr.2 attr
      data w1 p hw1
  exact ⟨a, _, e.trans ha, h1, h2, h3, h4, h5, h6, h8, h9⟩

/-- C22: on a fixed kernel state (a mount with a session) and a fixed
request, any two successful runs of `fuse_vfs_getattr`, whatever the daemon
answers in each, report the same volume name, signature, subtype and the
same four time stamps, and agree on whether the name is supported.  The
time stamps are `{0, 0}`, the subtype is the session's, the signature is the
byte-swapped constant.  For a request that comes in with the name not yet
marked supported, the name is marked supported exactly when it was asked for
and the stored name is non-empty (its first byte is not NUL); the string
returned is then the stored one, for a stored buffer that holds its
terminating NUL. -/
theorem getattr_session_fields (P : fuse_param) (env1 env2 : Env) (attr : vfs_attr)
    (w : World) (p : Nat) (data : fuse_data) (h : fuse_get_mpdata w = some (p, data))
    (hok1 : getattr_fakes env1 data = true ∨ env1.fdisp_simple_vfs_getattr.1 = 0)
    (hok2 : getattr_fakes env2 data = true ∨ env2.fdisp_simple_vfs_getattr.1 = 0)
    (hsup : VFSATTR_IS_SUPPORTED attr VFSATTR_f_vol_name = false)
    (hfit : (cstring data.volname).length < MAXPATHLEN) :
    ∃ a1 w1 a2 w2,
      fuse_vfs_getattr P env1 attr w = .returned 0 a1 w1 ∧
      fuse_vfs_getattr P env2 attr w = .returned 0 a2 w2 ∧
      a1.f_vol_name = a2.f_vol_name ∧ a1.f_signature = a2.f_signature ∧
      a1.f_fssubtype = a2.f_fssubtype ∧
      a1.f_create_time = a2.f_create_time ∧ a1.f_modify_time = a2.f_modify_time ∧
      a1.f_access_time = a2.f_access_time ∧ a1.f_backup_time = a2.f_backup_time ∧
      VFSATTR_IS_SUPPORTED a1 VFSATTR_f_vol_name = VFSATTR_IS_SUPPORTED a2 VFSATTR_f_vol_name ∧
      a1.f_create_time = (0, 0) ∧ a1.f_modify_time = (0, 0) ∧
      a1.f_access_time = (0, 0) ∧ a1.f_backup_time = (0, 0) ∧
      a1.f_fssubtype = data.fssubtype ∧
      a1.f_signature = P.OSSwapBigToHostInt16 P.FUSEFS_SIGNATURE ∧
      (VFSATTR_IS_SUPPORTED a1 VFSATTR_f_vol_name = true ↔
        VFSATTR_IS_ACTIVE attr VFSATTR_f_vol_name = true ∧ data.volname.headD 0 ≠ 0) ∧
      (VFSATTR_IS_SUPPORTED a1 VFSATTR_f_vol_name = true →
        cstring a1.f_vol_name = cstring data.volname) := by
  obtain ⟨a1, w1, r1, c1, m1, x1, b1, s1, g1, v1, u1⟩ :=
    getattr_session_run P env1 attr w p data h hok1
  obtain ⟨a2, w2, r2, c2, m2, x2, b2, s2, g2, v2, u2⟩ :=
    getattr_session_run P env2 attr w p data h hok2
  have hiff : VFSATTR_IS_SUPPORTED a1 VFSATTR_f_vol_name = true ↔
      VFSATTR_IS_ACTIVE attr VFSATTR_f_vol_name = true ∧ data.volname.headD 0 ≠ 0 := by
    unfold VFSATTR_IS_SUPPORTED
    rw [bne_iff_ne, u1]
    exact getattr_supported_vol_name attr hsup _
  refine ⟨a1, w1, a2, w2, r1, r2, v1.trans v2.symm, g1.trans g2.symm, s1.trans s2.symm,
    c1.trans c2.symm, m1.trans m2.symm, x1.trans x2.symm, b1.trans b2.symm, ?_, c1, m1, x1, b1,
    s1, g1, hiff, ?_⟩
  · unfold VFSATTR_IS_SUPPORTED
    rw [u1, u2]
  · intro hs
    rw [v1, if_pos (hiff.1 hs)]
    exact cstring_strncpy _ _ hfit

/-- Witness for C22: the mounted setting, asked for the volume name, with a
daemon that answers the statfs request in two different ways: both runs
return the stored name "vol". -/
theorem getattr_session_fields_witness :
    ∃ a1 w1 a2 w2,
      fuse_vfs_getattr demo_param (demo_env 0) (demo_attr VFSATTR_f_vol_name []) mounted_world =
        .returned 0 a1 w1 ∧
      fuse_vfs_getattr demo_param (sizes_env 100000 70000) (demo_attr VFSATTR_f_vol_name [])
        mounted_world = .returned 0 a2 w2 ∧
      a1.f_vol_name = a2.f_vol_name ∧ cstring a1.f_vol_name = [118, 111, 108] := by
  obtain ⟨a1, w1, a2, w2, r1, r2, hv, -, -, -, -, -, -, -, -, -, -, -, -, -, hiff, hname⟩ :=
    getattr_session_fields demo_param (demo_env 0) (sizes_env 100000 70000)
      (demo_attr VFSATTR_f_vol_name []) mounted_world 0 mounted_session rfl (Or.inr rfl)
      (Or.inr rfl) rfl (by decide)
  exact ⟨a1, w1, a2, w2, r1, r2, hv, (hname (hiff.2 ⟨rfl, by decide⟩)).trans (by decide)⟩

/-! ## `handle_capabilities_and_attributes` -/

theorem flags_sub_of_and_eq {a b : Nat} (h : a &&& b = a) : flags_sub a b := by
  intro i hi
  have e : (a &&& b).testBit i = true := by rw [h]; exact hi
  simp only [Nat.testBit_and, Bool.and_eq_true] at e
  exact e.2

/-- C23: on a mount with a session, `handle_capabilities_and_attributes`
sets the volume-rename bit of the interfaces capabilities word exactly when
the session has `FSESS_VOL_RENAME`.  Every other bit of that word, the whole
format capabilities word and both valid words are constants that do not
depend on the session.  In both categories every bit of the capabilities
word is a bit of the valid word. -/
theorem capabilities_rename_bit (w : World) (attr : vfs_attr) (p : Nat) (data : fuse_data)
    (h : fuse_get_mpdata w = some (p, data)) :
    ∃ a, handle_capabilities_and_attributes w attr = some a ∧
      (a.f_capabilities.capabilities.interfaces &&& VOL_CAP_INT_VOL_RENAME ≠ 0 ↔
        data.dataflags &&& FSESS_VOL_RENAME ≠ 0) ∧
      (∀ i, VOL_CAP_INT_VOL_RENAME.testBit i = false →
        a.f_capabilities.capabilities.interfaces.testBit i =
          fuse_capabilities_interfaces.testBit i) ∧
      a.f_capabilities.capabilities.format = fuse_capabilities_format ∧
      a.f_capabilities.valid.format = fuse_valid_format ∧
      a.f_capabilities.valid.interfaces = fuse_valid_interfaces ∧
      flags_sub a.f_capabilities.capabilities.format a.f_capabilities.valid.format ∧
      flags_sub a.f_capabilities.capabilities.interfaces a.f_capabilities.valid.interfaces := by
  unfold handle_capabilities_and_attributes
  rw [h]
  refine ⟨_, rfl, ?_, ?_, rfl, rfl, rfl, ?_, ?_⟩
  · show (if data.dataflags &&& FSESS_VOL_RENAME ≠ 0 then
        fuse_capabilities_interfaces ||| VOL_CAP_INT_VOL_RENAME
      else fuse_capabilities_interfaces) &&& VOL_CAP_INT_VOL_RENAME ≠ 0 ↔ _
    by_cases hr : data.dataflags &&& FSESS_VOL_RENAME ≠ 0
    · rw [if_pos hr]
      exact ⟨fun _ => hr, fun _ => by decide⟩
    · rw [if_neg hr]
      exact ⟨fun hc => absurd hc (by decide), fun hc => absurd hc hr⟩
  · intro i hi
    show (if data.dataflags &&& FSESS_VOL_RENAME ≠ 0 then
        fuse_capabilities_interfaces ||| VOL_CAP_INT_VOL_RENAME
      else fuse_capabilities_interfaces).testBit i = _
    split
    · rw [Nat.testBit_or, hi, Bool.or_false]
    · rfl
  · show flags_sub fuse_capabilities_format fuse_valid_format
    exact flags_sub_of_and_eq (by decide)
  · show flags_sub (if data.dataflags &&& FSESS_VOL_RENAME ≠ 0 then
        fuse_capabilities_interfaces ||| VOL_CAP_INT_VOL_RENAME
      else fuse_capabilities_interfaces) fuse_valid_interfaces
    split
    · exact flags_sub_of_and_eq
        (show (fuse_capabilities_interfaces ||| VOL_CAP_INT_VOL_RENAME) &&&
          fuse_valid_interfaces = fuse_capabilities_interfaces ||| VOL_CAP_INT_VOL_RENAME
          by decide)
    · exact flags_sub_of_and_eq
        (show fuse_capabilities_interfaces &&& fuse_valid_interfaces =
          fuse_capabilities_interfaces by decide)

/-- Witness for C23: the mounted setting without and with volume rename. -/
theorem capabilities_rename_bit_witness :
    (∃ a, handle_capabilities_and_attributes mounted_world (demo_attr 0 []) = some a ∧
      ¬ a.f_capabilities.capabilities.interfaces &&& VOL_CAP_INT_VOL_RENAME ≠ 0) ∧
    (∃ a, handle_capabilities_and_attributes rename_world (demo_attr 0 []) = some a ∧
      a.f_capabilities.capabilities.interfaces &&& VOL_CAP_INT_VOL_RENAME ≠ 0) := by
  constructor
  · obtain ⟨a, ha, hiff, -⟩ :=
      capabilities_rename_bit mounted_world (demo_attr 0 []) 0 mounted_session rfl
    exact ⟨a, ha, fun hc => absurd (hiff.1 hc) (by decide)⟩
  · obtain ⟨a, ha, hiff, -⟩ :=
      capabilities_rename_bit rename_world (demo_attr 0 []) 0
        { mounted_session with dataflags := mounted_session.dataflags ||| FSESS_VOL_RENAME } rfl
    exact ⟨a, ha, hiff.2 (by decide)⟩

/-! ## `fuse_vfs_sync` -/

theorem World.trace_append_nil (w : World) : ({ w with trace := w.trace ++ [] } : World) = w := by
  cases w
  simp

theorem sync_callback_returns (vp : fuse_vnode) (w : World) (p : Nat) (data : fuse_data)
    (h : fuse_get_mpdata w = some (p, data)) :
    ∃ r l, fuse_sync_callback vp w = .returned r { w with trace := w.trace ++ l } ∧
      ∀ ev ∈ l, Event.isNodeSync ev = true := by
  unfold fuse_sync_callback
  by_cases hd : vp.hasdirtyblks = false
  · rw [if_pos hd]
    exact ⟨_, [], by rw [World.trace_append_nil], by simp⟩
  · rw [if_neg hd]
    simp only [h]
    by_cases hdead : fdata_dead_get data = true
    · rw [if_pos hdead]
      exact ⟨_, [], by rw [World.trace_append_nil], by simp⟩
    · rw [if_neg hdead]
      by_cases hi : fuse_implemented data
          (if vp.isdir then FSESS_NOIMPLBIT FUSE_FSYNCDIR else FSESS_NOIMPLBIT FUSE_FSYNC) =
            false
      · rw [if_pos hi]
        exact ⟨_, [], by rw [World.trace_append_nil], by simp⟩
      · rw [if_neg hi]
        refine ⟨VNODE_RETURNED, Event.cluster_push vp.vp ::
            (valid_handles 0 vp.fufh_flags).map (Event.fsync_request vp.vp), ?_, ?_⟩
        · simp [sync_handles_eq, World.log]
        · intro ev hev
          simp only [List.mem_cons, List.mem_map] at hev
          rcases hev with rfl | ⟨t, -, rfl⟩ <;> rfl

theorem vnode_iterate_sync (nodes : List fuse_vnode) (w : World) (p : Nat) (data : fuse_data)
    (h : fuse_get_mpdata w = some (p, data)) :
    ∃ l, vnode_iterate fuse_sync_callback nodes w =
        .returned 0 { w with trace := w.trace ++ l } ∧
      ∀ ev ∈ l, Event.isNodeSync ev = true := by
  induction nodes generalizing w with
  | nil => exact ⟨[], by rw [World.trace_append_nil]; rfl, by simp⟩
  | cons vp rest ih =>
    obtain ⟨r, l1, h1, hl1⟩ := sync_callback_returns vp w p data h
    unfold vnode_iterate
    rw [h1]
    simp only
    split
    · exact ⟨l1, rfl, hl1⟩
    · obtain ⟨l2, h2, hl2⟩ := ih { w with trace := w.trace ++ l1 } h
      refine ⟨l1 ++ l2, ?_, ?_⟩
      · rw [h2]
        simp
      · intro ev hev
        rcases List.mem_append.1 hev with hm | hm
        · exact hl1 ev hm
        · exact hl2 ev hm

/-- C25: on a mount with a session, `fuse_vfs_sync` returns 0 and leaves the
kernel state as it was, so that no node is walked, when the session is dead
or the mount is an update-remount; it returns `EROFS`, again with nothing
walked, when the session is live, the mount is not an update-remount and is
read-only; in every other case it walks the nodes, each node adding only its
own cache push and fsync calls, and returns 0 whatever those calls did. -/
theorem sync_result (nodes : List fuse_vnode) (w : World) (p : Nat) (data : fuse_data)
    (h : fuse_get_mpdata w = some (p, data)) :
    (fdata_dead_get data = true ∨ vfs_isupdate w = true →
      fuse_vfs_sync nodes w = .returned 0 w) ∧
    (fdata_dead_get data = false → vfs_isupdate w = false → vfs_isrdonly w = true →
      fuse_vfs_sync nodes w = .returned EROFS w) ∧
    (fdata_dead_get data = false → vfs_isupdate w = false → vfs_isrdonly w = false →
      ∃ l, fuse_vfs_sync nodes w =
          .returned 0 { w with trace := w.trace ++ Event.vnode_iterate :: l } ∧
        ∀ ev ∈ l, Event.isNodeSync ev = true) := by
  refine ⟨?_, ?_, ?_⟩
  · intro hc
    unfold fuse_vfs_sync
    simp only [h]
    by_cases hdead : fdata_dead_get data = true
    · rw [if_pos hdead]
    · rw [if_neg hdead]
      rcases hc with hc | hc
      · exact absurd hc hdead
      · rw [if_pos hc]
  · intro hdead hup hro
    unfold fuse_vfs_sync
    simp only [h, hdead, hup, hro, Bool.false_eq_true, if_false, if_true]
  · intro hdead hup hro
    obtain ⟨l, hl, hev⟩ := vnode_iterate_sync nodes (w.log .vnode_iterate) p data h
    refine ⟨l, ?_, hev⟩
    unfold fuse_vfs_sync
    simp only [h, hdead, hup, hro, Bool.false_eq_true, if_false, hl]
    simp [World.log]

/-- Witness for C25: the mounted setting mounted read-only refuses the sync
with `EROFS`. -/
theorem sync_result_witness :
    fuse_vfs_sync [demo_vnode] rdonly_world = .returned EROFS rdonly_world :=
  (sync_result [demo_vnode] rdonly_world 0 mounted_session rfl).2.1 rfl rfl rfl

/-- C25, counterexample to "returns `EROFS` when the mount is live and
read-only": during an update-remount of a live mount to read-only the
update check comes first and the call returns 0. -/
theorem sync_update_before_rdonly :
    fdata_dead_get mounted_session = false ∧ vfs_isrdonly update_rdonly_world = true ∧
    fuse_get_mpdata update_rdonly_world = some (0, mounted_session) ∧
    fuse_vfs_sync [demo_vnode] update_rdonly_world = .returned 0 update_rdonly_world ∧
    (fuse_vfs_sync [demo_vnode] update_rdonly_world).err? ≠ some EROFS := by
  refine ⟨rfl, rfl, rfl, rfl, ?_⟩
  decide

/-! ## `fuse_setextendedsecurity` -/

theorem clearbits_testBit (x f i : Nat) :
    (clearbits x f).testBit i = (x.testBit i && !f.testBit i) := by
  unfold clearbits
  rw [Nat.testBit_xor, Nat.testBit_and]
  cases x.testBit i <;> cases f.testBit i <;> rfl

theorem fuse_get_mpdata_congr (w1 w2 : World) (hd : w2.devices = w1.devices)
    (hp : w2.mp.fsprivate = w1.mp.fsprivate) : fuse_get_mpdata w2 = fuse_get_mpdata w1 := by
  unfold fuse_get_mpdata fuse_device_get_mpdata
  rw [hd, hp]

theorem setextendedsecurity_on (w : World) (p : Nat) (data : fuse_data)
    (h : fuse_get_mpdata w = some (p, data))
    (hno : ¬ (data.dataflags &&& FSESS_NO_VNCACHE ≠ 0 ∨
      data.dataflags &&& FSESS_DEFER_PERMISSIONS ≠ 0)) :
    ∃ w', fuse_setextendedsecurity 1 w = .returned 0 w' ∧
      mount_session w' =
        some { data with
          dataflags :=
            data.dataflags ||| (FSESS_EXTENDED_SECURITY ||| FSESS_DEFAULT_PERMISSIONS) } := by
  unfold fuse_setextendedsecurity
  simp only [h, if_true, if_neg hno]
  refine ⟨_, rfl, ?_⟩
  unfold mount_session
  rw [fuse_get_mpdata_congr (set_mpdata w p (some { data with
    dataflags :=
      data.dataflags ||| (FSESS_EXTENDED_SECURITY ||| FSESS_DEFAULT_PERMISSIONS) })),
    fuse_get_mpdata_set h]
  · rfl
  · unfold vfs_setextendedsecurity
    split <;> split <;> rfl
  · unfold vfs_setextendedsecurity
    split <;> split <;> rfl

theorem setextendedsecurity_off (w : World) (p : Nat) (data : fuse_data)
    (h : fuse_get_mpdata w = some (p, data)) :
    ∃ w', fuse_setextendedsecurity 0 w = .returned 0 w' ∧
      mount_session w' =
        some { data with dataflags := clearbits data.dataflags FSESS_EXTENDED_SECURITY } := by
  unfold fuse_setextendedsecurity
  simp only [h, if_true, zero_ne_one, if_false]
  refine ⟨_, rfl, ?_⟩
  unfold mount_session
  have e : ∀ x : World, fuse_get_mpdata (vfs_clearextendedsecurity x) = fuse_get_mpdata x :=
    fun _ => rfl
  rw [e, fuse_get_mpdata_set h]
  rfl

theorem setextendedsecurity_other (state : Int) (w : World) (p : Nat) (data : fuse_data)
    (h : fuse_get_mpdata w = some (p, data)) (h0 : state ≠ 0) (h1 : state ≠ 1) :
    fuse_setextendedsecurity state w = .returned EINVAL w := by
  unfold fuse_setextendedsecurity
  simp only [h, if_neg h0, if_neg h1]

theorem session_excluded_pair_bits (d : fuse_data) :
    session_excluded_pair d ↔
      (d.dataflags.testBit 18 = true ∧ d.dataflags.testBit 7 = true) ∨
      (d.dataflags.testBit 5 = true ∧ d.dataflags.testBit 6 = true) := by
  unfold session_excluded_pair FSESS_NO_VNCACHE FSESS_EXTENDED_SECURITY
    FSESS_DEFAULT_PERMISSIONS FSESS_DEFER_PERMISSIONS
  simp only [test_two_pow]

/-- C26: `fuse_setextendedsecurity` returns `ENXIO`, the kernel state left
as it was, when the mount has no session.  On a mount with a session: for
state 1 it returns `EINVAL` with nothing changed if the session has
`FSESS_NO_VNCACHE` or `FSESS_DEFER_PERMISSIONS`, and otherwise returns 0 with
exactly `FSESS_EXTENDED_SECURITY` and `FSESS_DEFAULT_PERMISSIONS` added to the
session's flags; for state 0 it returns 0 with exactly
`FSESS_EXTENDED_SECURITY` cleared; for any other state it returns `EINVAL`
with nothing changed.  Whatever the state, a session that held neither
excluded pair (no-node-cache with extended-security, default-permissions
with defer-permissions) before the call holds neither after it. -/
theorem setextendedsecurity_contract (state : Int) (w : World) :
    (fuse_get_mpdata w = none → fuse_setextendedsecurity state w = .returned ENXIO w) ∧
    ∀ p data, fuse_get_mpdata w = some (p, data) →
      (state = 1 →
        data.dataflags &&& FSESS_NO_VNCACHE ≠ 0 ∨
          data.dataflags &&& FSESS_DEFER_PERMISSIONS ≠ 0 →
        fuse_setextendedsecurity state w = .returned EINVAL w) ∧
      (state = 1 → data.dataflags &&& FSESS_NO_VNCACHE = 0 →
        data.dataflags &&& FSESS_DEFER_PERMISSIONS = 0 →
        ∃ w', fuse_setextendedsecurity state w = .returned 0 w' ∧
          mount_session w' =
            some { data with
              dataflags :=
                data.dataflags ||| (FSESS_EXTENDED_SECURITY ||| FSESS_DEFAULT_PERMISSIONS) } ∧
          ∀ i, (data.dataflags |||
              (FSESS_EXTENDED_SECURITY ||| FSESS_DEFAULT_PERMISSIONS)).testBit i =
            (data.dataflags.testBit i || FSESS_EXTENDED_SECURITY.testBit i ||
              FSESS_DEFAULT_PERMISSIONS.testBit i)) ∧
      (state = 0 →
        ∃ w', fuse_setextendedsecurity state w = .returned 0 w' ∧
          mount_session w' =
            some { data with dataflags := clearbits data.dataflags FSESS_EXTENDED_SECURITY } ∧
          ∀ i, (clearbits data.dataflags FSESS_EXTENDED_SECURITY).testBit i =
            (data.dataflags.testBit i && !FSESS_EXTENDED_SECURITY.testBit i)) ∧
      (state ≠ 0 → state ≠ 1 → fuse_setextendedsecurity state w = .returned EINVAL w) ∧
      (¬ session_excluded_pair data →
        ∃ e w' data', fuse_setextendedsecurity state w = .returned e w' ∧
          mount_session w' = some data' ∧ ¬ session_excluded_pair data') := by
  refine ⟨?_, ?_⟩
  · intro hn
    unfold fuse_setextendedsecurity
    simp only [hn]
  · intro p data h
    refine ⟨?_, ?_, ?_, setextendedsecurity_other state w p data h, ?_⟩
    · intro hs hc
      unfold fuse_setextendedsecurity
      simp only [h, hs, if_true, if_pos hc]
    · intro hs h1 h2
      subst hs
      obtain ⟨w', hw, hm⟩ := setextendedsecurity_on w p data h (by simp [h1, h2])
      exact ⟨w', hw, hm, fun i => by simp [Nat.testBit_or, Bool.or_assoc]⟩
    · intro hs
      subst hs
      obtain ⟨w', hw, hm⟩ := setextendedsecurity_off w p data h
      exact ⟨w', hw, hm, fun i => clearbits_testBit _ _ i⟩
    · intro hex
      have hm0 : mount_session w = some data := by simp [mount_session, h]
      by_cases hs1 : state = 1
      · subst hs1
        by_cases hc : data.dataflags &&& FSESS_NO_VNCACHE ≠ 0 ∨
            data.dataflags &&& FSESS_DEFER_PERMISSIONS ≠ 0
        · refine ⟨EINVAL, w, data, ?_, hm0, hex⟩
          unfold fuse_setextendedsecurity
          simp only [h, if_true, if_pos hc]
        · obtain ⟨w', hw, hm⟩ := setextendedsecurity_on w p data h hc
          refine ⟨0, w', _, hw, hm, ?_⟩
          rw [session_excluded_pair_bits]
          unfold FSESS_NO_VNCACHE FSESS_DEFER_PERMISSIONS at hc
          simp only [test_two_pow, not_or, Bool.not_eq_true] at hc
          simp [Nat.testBit_or, FSESS_EXTENDED_SECURITY, FSESS_DEFAULT_PERMISSIONS,
            Nat.testBit_two_pow, hc.1, hc.2]
          exact ⟨fun hb => absurd hb (by decide), fun _ => by decide⟩
      · by_cases hs0 : state = 0
        · subst hs0
          obtain ⟨w', hw, hm⟩ := setextendedsecurity_off w p data h
          refine ⟨0, w', _, hw, hm, ?_⟩
          rw [session_excluded_pair_bits] at hex ⊢
          simp only [clearbits_testBit, FSESS_EXTENDED_SECURITY, Nat.testBit_two_pow]
          simp only [not_or, not_and, Bool.not_eq_true] at hex
          simp
          intro h5
          simpa using hex.2 h5
        · exact ⟨EINVAL, w, data, setextendedsecurity_other state w p data h hs0 hs1, hm0, hex⟩

/-- Witness for C26: extended security is turned on for the session of the
mounted setting, and the call is refused with `ENXIO` once the mount has lost
its private-data pointer. -/
theorem setextendedsecurity_contract_witness :
    fuse_setextendedsecurity 1 detached_world = .returned ENXIO detached_world ∧
    ∃ w', fuse_setextendedsecurity 1 mounted_world = .returned 0 w' ∧
      mount_session w' =
        some { mounted_session with
          dataflags := mounted_session.dataflags |||
            (FSESS_EXTENDED_SECURITY ||| FSESS_DEFAULT_PERMISSIONS) } := by
  refine ⟨(setextendedsecurity_contract 1 detached_world).1 rfl, ?_⟩
  obtain ⟨w', hw, hm, -⟩ :=
    ((setextendedsecurity_contract 1 mounted_world).2 0 mounted_session rfl).2.1 rfl
      (by decide) (by decide)
  exact ⟨w', hw, hm⟩

/-! ## The device-channel lock in `fuse_vfs_mount` -/

theorem lock_run_append (s : Option Nat) (l1 l2 : List Event) :
    lock_run s (l1 ++ l2) = (lock_run s l1).bind fun s' => lock_run s' l2 := by
  induction l1 generalizing s with
  | nil => rfl
  | cons ev l ih =>
    simp only [List.cons_append, lock_run]
    cases lock_step s ev with
    | none => rfl
    | some s1 => simpa using ih s1

theorem lock_run_concat {l1 l2 : List Event} (h1 : lock_run none l1 = some none)
    (h2 : lock_run none l2 = some none) : lock_run none (l1 ++ l2) = some none := by
  rw [lock_run_append, h1]
  exact h2

theorem lock_run_counts (s s' : Option Nat) (l : List Event) (h : lock_run s l = some s') :
    l.countP Event.isLock + (if s.isSome then 1 else 0) =
      l.countP Event.isUnlock + (if s'.isSome then 1 else 0) := by
  induction l generalizing s with
  | nil =>
    simp only [lock_run, Option.some.injEq] at h
    subst h
    simp
  | cons ev l ih =>
    simp only [lock_run] at h
    cases hs : lock_step s ev with
    | none => rw [hs] at h; simp at h
    | some s1 =>
      rw [hs] at h
      have h1 := ih s1 (by simpa using h)
      have key : (s.isSome = false ∧ s1.isSome = true ∧ Event.isLock ev = true ∧
            Event.isUnlock ev = false) ∨
          (s.isSome = true ∧ s1.isSome = false ∧ Event.isLock ev = false ∧
            Event.isUnlock ev = true) ∨
          (s1 = s ∧ Event.isLock ev = false ∧ Event.isUnlock ev = false) := by
        cases ev <;> simp only [lock_step] at hs <;> split at hs <;>
          simp only [Option.some.injEq, reduceCtorEq] at hs <;> subst_vars <;>
          simp [Event.isLock, Event.isUnlock]
      rw [List.countP_cons, List.countP_cons]
      rcases key with ⟨k1, k2, k3, k4⟩ | ⟨k1, k2, k3, k4⟩ | ⟨rfl, k3, k4⟩
      · rw [k1] at *
        rw [k2] at h1
        simp only [k3, k4, if_true, Bool.false_eq_true, if_false] at h1 ⊢
        omega
      · rw [k1] at *
        rw [k2] at h1
        simp only [k3, k4, if_true, Bool.false_eq_true, if_false] at h1 ⊢
        omega
      · simp only [k3, k4, Bool.false_eq_true, if_false] at h1 ⊢
        omega

theorem mount_unwind_lock (fdev : Option Nat) (mounted : Bool) (err : Nat) (w : World)
    (e : Nat) (w' : World) (h : mount_unwind fdev mounted err w = .returned e w') :
    ∃ l, w'.trace = w.trace ++ l ∧ lock_run none l = some none := by
  cases fdev with
  | none => simp [mount_unwind] at h
  | some r =>
    cases hdev : w.devices r with
    | none => simp [mount_unwind, hdev] at h
    | some dev =>
      obtain ⟨w3, h3, -, -, -, -, ht⟩ := mount_unwind_returned r mounted err w dev hdev
      rw [h3] at h
      simp only [Outcome.returned.injEq] at h
      obtain ⟨-, rfl⟩ := h
      refine ⟨_, ht, ?_⟩
      unfold unwind_events
      cases dev.data with
      | none => simp [lock_run, lock_step]
      | some d =>
        simp only
        split <;> simp [lock_run, lock_step, Event.needsUnlocked]

theorem fuse_vfs_root_trace (env : Env) (w : World) (err : Nat) (vp : Option Nat) (w5 : World)
    (h : fuse_vfs_root env w = .done err vp w5) :
    ∃ l, w5.trace = w.trace ++ l ∧ lock_run none l = some none := by
  unfold fuse_vfs_root at h
  cases hg : fuse_get_mpdata (w.log .vfs_root) with
  | none => simp only [hg] at h; simp at h
  | some x =>
    obtain ⟨p, data⟩ := x
    simp only [hg] at h
    cases hroot : data.rootvp with
    | some v =>
      rw [hroot] at h
      simp only [RootResult.done.injEq] at h
      obtain ⟨-, -, rfl⟩ := h
      exact ⟨[.vfs_root, .vnode_get (some v)], by simp, by simp [lock_run, lock_step,
        Event.needsUnlocked]⟩
    | none =>
      rw [hroot] at h
      simp only at h
      split at h
      · simp only [RootResult.done.injEq] at h
        obtain ⟨-, -, rfl⟩ := h
        exact ⟨[.vfs_root, .node_create], by simp, by simp [lock_run, lock_step,
          Event.needsUnlocked]⟩
      · simp only [RootResult.done.injEq] at h
        obtain ⟨-, -, rfl⟩ := h
        exact ⟨[.vfs_root, .node_create], by simp, by simp [lock_run, lock_step,
          Event.needsUnlocked]⟩

theorem mount_out_lock (env : Env) (fdev : Option Nat) (mounted : Bool) (err : Nat) (w : World)
    (e : Nat) (w' : World) (h : mount_out env fdev mounted err w = .returned e w') :
    ∃ l, w'.trace = w.trace ++ l ∧ lock_run none l = some none := by
  unfold mount_out at h
  by_cases herr : err ≠ 0
  · rw [if_pos herr] at h
    exact mount_unwind_lock fdev mounted err w e w' h
  · rw [if_neg herr] at h
    cases hroot : fuse_vfs_root env w with
    | fault wf => rw [hroot] at h; simp at h
    | done err2 vp w5 =>
      rw [hroot] at h
      simp only at h
      obtain ⟨lr, hlr, hrun⟩ := fuse_vfs_root_trace env w err2 vp w5 hroot
      by_cases he2 : err2 ≠ 0
      · rw [if_pos he2] at h
        obtain ⟨lu, hlu, hurun⟩ := mount_unwind_lock fdev mounted err2 w5 e w' h
        exact ⟨lr ++ lu, by rw [hlu, hlr, List.append_assoc], lock_run_concat hrun hurun⟩
      · rw [if_neg he2] at h
        have hrun2 : lock_run none (lr ++ [.vnode_ref vp, .vnode_put vp]) = some none :=
          lock_run_concat hrun (by simp [lock_run, lock_step, Event.needsUnlocked])
        by_cases he3 : env.vnode_ref_err ≠ 0
        · rw [if_pos he3] at h
          obtain ⟨lu, hlu, hurun⟩ := mount_unwind_lock fdev mounted _ _ e w' h
          refine ⟨(lr ++ [.vnode_ref vp, .vnode_put vp]) ++ lu, ?_, lock_run_concat hrun2 hurun⟩
          rw [hlu]
          simp [hlr]
        · rw [if_neg he3] at h
          simp only [Outcome.returned.injEq] at h
          obtain ⟨-, rfl⟩ := h
          exact ⟨lr ++ [.vnode_ref vp, .vnode_put vp], by simp [hlr], hrun2⟩

theorem mount_device_lock (P : fuse_param) (env : Env) (context : vfs_context)
    (args : fuse_mount_args) (m a : Nat) (w : World) (e : Nat) (w' : World)
    (h : mount_device P env context args m a w = .returned e w') :
    ∃ l, w'.trace = w.trace ++ l ∧ lock_run none l = some none := by
  have hpre : lock_run none
      [.device_get args.rdev, .device_lock args.rdev, .device_unlock args.rdev] = some none := by
    simp [lock_run, lock_step, Event.needsUnlocked]
  have viaout : ∀ (w2 : World) (mounted : Bool) (err : Nat),
      w2.trace = w.trace ++
        [.device_get args.rdev, .device_lock args.rdev, .device_unlock args.rdev] →
      mount_out env (some args.rdev) mounted err w2 = .returned e w' →
      ∃ l, w'.trace = w.trace ++ l ∧ lock_run none l = some none := by
    intro w2 mounted err ht hout
    obtain ⟨l2, hl2, hrun2⟩ := mount_out_lock env _ mounted err w2 e w' hout
    exact ⟨[.device_get args.rdev, .device_lock args.rdev, .device_unlock args.rdev] ++ l2,
      by rw [hl2, ht, List.append_assoc], lock_run_concat hpre hrun2⟩
  cases hdev : w.devices args.rdev with
  | none =>
    unfold mount_device at h
    simp only [log_devices, setfsprivate_devices, hdev, Outcome.returned.injEq] at h
    obtain ⟨-, rfl⟩ := h
    exact ⟨[.device_get args.rdev], by simp, by simp [lock_run, lock_step, Event.needsUnlocked]⟩
  | some dev =>
    by_cases htok : args.random = dev.random
    swap
    · unfold mount_device at h
      simp only [log_devices, setfsprivate_devices, hdev, ne_eq, htok, not_false_eq_true,
        if_true, Outcome.returned.injEq] at h
      obtain ⟨-, rfl⟩ := h
      exact ⟨[.device_get args.rdev, .device_lock args.rdev, .device_unlock args.rdev, .iolog],
        by simp, by simp [lock_run, lock_step, Event.needsUnlocked]⟩
    cases hdata : dev.data with
    | none =>
      unfold mount_device at h
      simp only [log_devices, setfsprivate_devices, hdev, ne_eq, htok, not_true_eq_false,
        if_false, hdata, Outcome.returned.injEq] at h
      obtain ⟨-, rfl⟩ := h
      exact ⟨_, by simp, hpre⟩
    | some data =>
      by_cases hnm : data.mount_state = FM_NOTMOUNTED
      swap
      · unfold mount_device at h
        simp only [log_devices, setfsprivate_devices, hdev, ne_eq, htok, not_true_eq_false,
          if_false, hdata, hnm, not_false_eq_true, if_true, Outcome.returned.injEq] at h
        obtain ⟨-, rfl⟩ := h
        exact ⟨_, by simp, hpre⟩
      by_cases hop : data.dataflags &&& FSESS_OPENED = 0
      · unfold mount_device at h
        simp only [log_devices, setfsprivate_devices, hdev, ne_eq, htok, not_true_eq_false,
          if_false, hdata, hnm, hop, if_true] at h
        exact viaout _ false ENXIO (by simp) h
      by_cases hdead : data.dead = true
      · unfold mount_device at h
        simp only [log_devices, setfsprivate_devices, hdev, ne_eq, htok, not_true_eq_false,
          if_false, hdata, hnm, hop, fdata_dead_get, hdead, if_true] at h
        exact viaout _ true ENOTCONN (by simp) h
      cases hcred : data.daemoncred with
      | none =>
        unfold mount_device at h
        simp only [log_devices, setfsprivate_devices, hdev, ne_eq, htok, not_true_eq_false,
          if_false, hdata, hnm, hop, fdata_dead_get, hdead, hcred] at h
        simp at h
      | some uid =>
        by_cases hown : context.issuser = true ∧ context.cr_uid ≠ uid
        · unfold mount_device at h
          simp only [log_devices, setfsprivate_devices, hdev, ne_eq, htok, not_true_eq_false,
            if_false, hdata, hnm, hop, fdata_dead_get, hdead, hcred, Bool.false_eq_true] at h
          rw [if_pos (by simpa using hown)] at h
          exact viaout _ true EPERM (by simp) h
        · obtain ⟨wH, hH, -, -, -, -, hHt⟩ := mount_device_handshake P env context args
            m a w dev data uid hdev htok hdata hnm hop (by simpa using hdead) hcred hown
          rw [hH] at h
          obtain ⟨l2, hl2, hrun2⟩ := mount_out_lock env _ true _ wH e w' h
          refine ⟨[.device_get args.rdev, .device_lock args.rdev, .device_unlock args.rdev,
            .send_init] ++ l2, by rw [hl2, hHt, List.append_assoc], lock_run_concat ?_ hrun2⟩
          simp [lock_run, lock_step, Event.needsUnlocked]

theorem fuse_vfs_mount_lock (P : fuse_param) (env : Env) (context : vfs_context)
    (args : fuse_mount_args) (w : World) (e : Nat) (w' : World)
    (h : fuse_vfs_mount P env context args w = .returned e w') :
    ∃ l, w'.trace = w.trace ++ l ∧ lock_run none l = some none := by
  unfold fuse_vfs_mount at h
  by_cases hup : vfs_isupdate w = true
  · rw [if_pos hup] at h
    simp only [Outcome.returned.injEq] at h
    obtain ⟨-, rfl⟩ := h
    exact ⟨[], by simp, rfl⟩
  rw [if_neg hup] at h
  by_cases hcp : env.copyin_err ≠ 0
  · rw [if_pos hcp] at h
    simp only [Outcome.returned.injEq] at h
    obtain ⟨-, rfl⟩ := h
    exact ⟨[], by simp, rfl⟩
  rw [if_neg hcp] at h
  have hchar := mount_options_char P env context args w
  cases hopt : mount_options P env context args w with
  | ret err w1 =>
    rw [hopt] at h hchar
    simp only [Outcome.returned.injEq] at h
    obtain ⟨-, rfl⟩ := h
    obtain ⟨-, ht, -⟩ := hchar
    rcases ht with ht | ht
    · exact ⟨[], by simp [ht], rfl⟩
    · exact ⟨[.iolog], ht, by simp [lock_run, lock_step, Event.needsUnlocked]⟩
  | out err w1 =>
    rw [hopt] at h hchar
    simp only at h
    obtain ⟨-, -, ht, -⟩ := hchar
    obtain ⟨l, hl, hrun⟩ := mount_out_lock env none false err w1 e w' h
    exact ⟨l, by rw [hl, ht], hrun⟩
  | next m a w1 =>
    rw [hopt] at h hchar
    simp only at h
    obtain ⟨-, ht, -⟩ := hchar
    obtain ⟨l, hl, hrun⟩ := mount_device_lock P env context args m a w1 e w' h
    exact ⟨l, by rw [hl, ht], hrun⟩

theorem lock_run_rejects_held_handshake (r : Nat) :
    lock_run none [.device_lock r, .send_init, .device_unlock r] = none ∧
    lock_run none [.device_lock r] = some (some r) ∧
    lock_run none [.device_lock r, .device_unlock r, .device_unlock r] = none := by
  simp [lock_run, lock_step, Event.needsUnlocked]

/-- C24: whenever `fuse_vfs_mount` returns, with success or with any error,
the calls it made keep the discipline of the device-channel lock: the lock
is taken only when it is not held, released only by the holder of the same
channel, not held when the handshake request is sent nor while the root node
is resolved (`fuse_vfs_root`, node creation, node lookup), and not held at
the return; so the calls hold as many releases as acquisitions. -/
theorem mount_lock_discipline (P : fuse_param) (env : Env) (context : vfs_context)
    (args : fuse_mount_args) (w : World) (e : Nat) (w' : World)
    (h : fuse_vfs_mount P env context args w = .returned e w') :
    ∃ l, w'.trace = w.trace ++ l ∧ lock_run none l = some none ∧
      l.countP Event.isLock = l.countP Event.isUnlock := by
  obtain ⟨l, hl, hrun⟩ := fuse_vfs_mount_lock P env context args w e w' h
  refine ⟨l, hl, hrun, ?_⟩
  have := lock_run_counts none none l hrun
  simpa using this

/-- Witness for C24: the successful mount of the concrete setting, which
takes the lock once, sends the handshake and resolves the root node. -/
theorem mount_lock_discipline_witness :
    ∃ l, mounted_world.trace = demo_world.trace ++ l ∧ lock_run none l = some none ∧
      l.countP Event.isLock = l.countP Event.isUnlock :=
  mount_lock_discipline demo_param (demo_env 0) demo_context (demo_args 0) demo_world 0
    mounted_world rfl

end MacFUSE
